import Mathlib

/-!
# GStreamer "bad" plugins: WASAPI sink/source, UVC H.264 camera source, MSDK buffer pool

A shallow embedding of the glue code in

* `sys/wasapi/gstwasapisink.c`, `sys/wasapi/gstwasapisrc.c`
* `sys/uvch264/gstuvch264_src.c`
* `sys/msdk/gstmsdkbufferpool.c`

C machine integers are modelled as `Nat` / `Int` with explicit reduction modulo
`2^w`.  Calls into the operating system, into GStreamer or into a device are
modelled by records of responses; every call that matters for a property is
written into a call log.
-/

namespace GstPluginsBad

/-! ## Machine integers -/

/-- Value of a C expression converted to a 32-bit unsigned integer
(`guint`, `guint32`, `UINT32`). -/
def toGuint (z : Int) : Nat := (z % 4294967296).toNat

/-- Value of a C expression converted to a 32-bit signed integer (`gint`),
two's complement. -/
def toGint (z : Int) : Int :=
  if z % 4294967296 < 2147483648 then z % 4294967296 else z % 4294967296 - 4294967296

/-- Value of a C expression converted to a 16-bit unsigned integer (`guint16`). -/
def toGuint16 (z : Int) : Nat := (z % 65536).toNat

/-- Value of a C expression converted to an 8-bit unsigned integer (`guint8`). -/
def toGuint8 (z : Int) : Nat := (z % 256).toNat

/-- The constant `G_MAXUINT`. -/
def G_MAXUINT : Nat := 4294967295

/-- The constant `G_MAXUINT16`. -/
def G_MAXUINT16 : Nat := 65535

/-- The constant `G_MAXUINT8`. -/
def G_MAXUINT8 : Nat := 255

/-! ## WASAPI: shared vocabulary -/

/-- The `HRESULT` values the WASAPI elements tell apart. -/
inductive HRESULT where
  | S_OK
  | AUDCLNT_E_BUFFER_SIZE_NOT_ALIGNED
  | AUDCLNT_S_BUFFER_EMPTY
  | other (code : Nat)
  deriving DecidableEq, Repr

/-- The enumeration `AUDCLNT_SHAREMODE`. -/
inductive AUDCLNT_SHAREMODE where
  | SHARED
  | EXCLUSIVE
  deriving DecidableEq, Repr

/-- The calls of the WASAPI elements that are written into the call log. -/
inductive WasapiCall where
  | GetDevicePeriod
  | CoInit
  | CoUninit
  | ClientInit (sharemode : AUDCLNT_SHAREMODE) (bufferDuration periodicity : Int)
  | GetBufferSize
  | GetStreamLatency
  | SetEventHandle
  | GetRenderClient
  | GetClock
  | GetFrequency
  | GetCaptureClient
  | GetCurrentPadding
  | GetBuffer (frames : Nat)
  | ReleaseBuffer (frames : Nat) (silent : Bool)
  | Start
  | Stop
  | Unprepare
  | ReleaseRenderClient
  | ReleaseCaptureClient
  | ReleaseClock
  deriving DecidableEq, Repr

/-- How a modelled C function ended. -/
inductive Outcome (α : Type) where
  | returned (value : α)
  | waiting
  | undefined
  deriving DecidableEq, Repr

/-- The fields of `GstAudioRingBufferSpec` the elements read and write.
`info_bpf` and `info_rate` are `GST_AUDIO_INFO_BPF` and `GST_AUDIO_INFO_RATE`;
`segsize` and `segtotal` are `gint` fields. -/
structure GstAudioRingBufferSpec where
  info_bpf : Int
  info_rate : Int
  latency_time : Nat
  buffer_time : Nat
  segsize : Int
  segtotal : Int
  deriving DecidableEq, Repr

/-! ## WASAPI sink -/

/-- The fields of `GstWasapiSink` used by prepare, unprepare and write.
`client` and `render_client` say whether the pointer is non-NULL;
`nBlockAlign` is `mix_format->nBlockAlign`. -/
structure GstWasapiSink where
  sharemode : AUDCLNT_SHAREMODE
  low_latency : Bool
  mute : Bool
  client : Bool
  render_client : Bool
  buffer_frame_count : Nat
  nBlockAlign : Nat
  deriving DecidableEq, Repr

/-- The function `gst_wasapi_sink_get_can_frames` (gstwasapisink.c:387-413).  `padding` is
the answer of `IAudioClient_GetCurrentPadding`; the result is a `gint`. -/
def gst_wasapi_sink_get_can_frames (self : GstWasapiSink) (padding : HRESULT × Nat) : Int :=
  if self.sharemode = AUDCLNT_SHAREMODE.EXCLUSIVE then
    toGint self.buffer_frame_count
  else if padding.1 ≠ HRESULT.S_OK then
    -1
  else
    toGint (toGuint ((self.buffer_frame_count : Int) - (padding.2 : Int)))

/-- The device calls made by `gst_wasapi_sink_get_can_frames`: none in
exclusive mode, `IAudioClient_GetCurrentPadding` otherwise. -/
def gst_wasapi_sink_get_can_frames_calls (self : GstWasapiSink) : List WasapiCall :=
  if self.sharemode = AUDCLNT_SHAREMODE.EXCLUSIVE then [] else [WasapiCall.GetCurrentPadding]

/-- What the device answers during one iteration of the write loop. -/
structure WriteStep where
  padding : HRESULT × Nat
  getBuffer : HRESULT
  releaseBuffer : HRESULT
  deriving DecidableEq, Repr

/-- Result of `gst_wasapi_sink_write`: how the call ended (the `gint` it
returned) and the byte blocks that `memcpy` put into device buffers, oldest
first. -/
structure WriteResult where
  outcome : Outcome Int
  copied : List (List Nat)
  deriving DecidableEq, Repr

/-- The `while (pending > 0)` loop of `gst_wasapi_sink_write`
(gstwasapisink.c:644-686).  The list holds the answers of the device, one
entry per iteration; when it is used up while bytes are pending the call is
still waiting for the device.  `length` is the current value of the C variable
`length`, `copied` the blocks copied so far. -/
def gst_wasapi_sink_write_loop (self : GstWasapiSink) (data : List Nat) (length : Nat) :
    List WriteStep → Nat → List (List Nat) → WriteResult
  | [], pending, copied =>
    if pending > 0 then { outcome := Outcome.waiting, copied := copied }
    else { outcome := Outcome.returned (toGint length), copied := copied }
  | step :: rest, pending, copied =>
    if pending > 0 then
      if self.nBlockAlign = 0 then { outcome := Outcome.undefined, copied := copied }
      else
        let have_frames := pending / self.nBlockAlign
        let can_frames := toGuint (gst_wasapi_sink_get_can_frames self step.padding)
        let n_frames := min can_frames have_frames
        let write_len := toGuint ((n_frames : Int) * (self.nBlockAlign : Int))
        if step.getBuffer ≠ HRESULT.S_OK then
          { outcome := Outcome.returned (toGint 0), copied := copied }
        else
          let copied1 := copied ++ [data.take write_len]
          if step.releaseBuffer ≠ HRESULT.S_OK then
            { outcome := Outcome.returned (toGint 0), copied := copied1 }
          else
            gst_wasapi_sink_write_loop self data length rest
              (toGuint ((pending : Int) - (write_len : Int))) copied1
    else { outcome := Outcome.returned (toGint length), copied := copied }

/-- The function `gst_wasapi_sink_write` (gstwasapisink.c:636-691): `data` is the buffer,
`length` its size in bytes (a `guint`). -/
def gst_wasapi_sink_write (self : GstWasapiSink) (steps : List WriteStep)
    (data : List Nat) (length : Nat) : WriteResult :=
  gst_wasapi_sink_write_loop self data length steps length []

/-- A sink in shared mode whose device buffer holds one frame of two bytes. -/
def oneFrameSink : GstWasapiSink :=
  { sharemode := AUDCLNT_SHAREMODE.SHARED, low_latency := false, mute := false,
    client := true, render_client := true, buffer_frame_count := 1, nBlockAlign := 2 }

/-- A loop iteration in which the device has no padding and accepts both calls. -/
def acceptingStep : WriteStep :=
  { padding := (HRESULT.S_OK, 0), getBuffer := HRESULT.S_OK, releaseBuffer := HRESULT.S_OK }

/-! ## WASAPI sink: prepare and unprepare -/

/-- What the operating system, the device and the helper functions outside
the two files answer during one call of prepare.  `bestBufferSizes` is
`gst_wasapi_util_get_best_buffer_sizes` (its outputs `device_period` and
`device_buffer_duration`), `scale` is `gst_util_uint64_scale_int_round`,
`clientInit` and `clientReinit` are the answers to the first and to the second
`IAudioClient_Initialize`, `alignedBufferSize` the answer to the
`IAudioClient_GetBufferSize` between them. -/
structure PrepareDevice where
  getDevicePeriod : HRESULT × Int × Int
  bestBufferSizes : GstAudioRingBufferSpec → Bool → Int → Int → Int × Int
  clientInit : HRESULT
  alignedBufferSize : HRESULT × Nat
  clientReinit : HRESULT
  getBufferSize : HRESULT × Nat
  scale : Nat → Int → Int → Nat
  getStreamLatency : HRESULT
  setEventHandle : HRESULT
  getRenderClient : Bool
  getClock : Bool
  getFrequency : HRESULT × Nat
  getCaptureClient : Bool
  getCurrentPadding : HRESULT × Nat
  getBuffer : HRESULT
  releaseBuffer : HRESULT
  start : HRESULT

/-- Result of a prepare call: how it ended, the element and the ring buffer
spec afterwards, and the calls it made, oldest first. -/
structure PrepareResult (σ : Type) where
  outcome : Outcome Bool
  self : σ
  spec : GstAudioRingBufferSpec
  calls : List WasapiCall

/-- The constant `GST_SECOND`. -/
def GST_SECOND : Int := 1000000000

/-- The choice of `device_period` and `device_buffer_duration`
(gstwasapisink.c:439-452, gstwasapisrc.c:400-413), as the pair
`(device_period, device_buffer_duration)`. -/
def wasapi_periods (dev : PrepareDevice) (low_latency : Bool) (sharemode : AUDCLNT_SHAREMODE)
    (spec : GstAudioRingBufferSpec) : Int × Int :=
  if low_latency then
    if sharemode = AUDCLNT_SHAREMODE.SHARED then (dev.getDevicePeriod.2.1, 0)
    else (dev.getDevicePeriod.2.2, dev.getDevicePeriod.2.2)
  else
    dev.bestBufferSizes spec (sharemode == AUDCLNT_SHAREMODE.EXCLUSIVE)
      dev.getDevicePeriod.2.1 dev.getDevicePeriod.2.2

/-- The calls of prepare up to and with the first `IAudioClient_Initialize`
(gstwasapisink.c:426-462, gstwasapisrc.c:388-423): the period query, a second
`CoInitialize` in exclusive mode, and Initialize with periodicity
`sharemode == AUDCLNT_SHAREMODE_SHARED ? 0 : device_period`. -/
def wasapi_first_calls (sharemode : AUDCLNT_SHAREMODE)
    (device_period device_buffer_duration : Int) : List WasapiCall :=
  WasapiCall.GetDevicePeriod ::
    ((if sharemode = AUDCLNT_SHAREMODE.EXCLUSIVE then [WasapiCall.CoInit] else [])
      ++ [WasapiCall.ClientInit sharemode device_buffer_duration
            (if sharemode = AUDCLNT_SHAREMODE.SHARED then 0 else device_period)])

/-- The statement `spec->segsize = gst_util_uint64_scale_int_round (rate * bpf,
device_period * 100, GST_SECOND)` (gstwasapisink.c:508, gstwasapisrc.c:469):
the product `rate * bpf` is a `guint`, the second argument a `gint`, the
result is stored in a `gint`. -/
def wasapi_segsize (dev : PrepareDevice) (rate bpf : Nat) (device_period : Int) : Int :=
  toGint (dev.scale (toGuint ((rate : Int) * (bpf : Int))) (toGint (device_period * 100))
    GST_SECOND)

/-- The value of the C expression `self->buffer_frame_count * bpf / spec->segsize`
for a non-zero `segsize`: a `guint` product divided by `segsize` converted to
`guint`. -/
def wasapi_segment_quotient (buffer_frame_count bpf : Nat) (segsize : Int) : Nat :=
  toGuint ((buffer_frame_count : Int) * (bpf : Int)) / toGuint segsize

/-- The value of the C expression
`MAX (self->buffer_frame_count * bpf / spec->segsize, 2)`
(gstwasapisink.c:512, gstwasapisrc.c:473): a `guint` product, divided by
`segsize` converted to `guint`, compared with 2 as unsigned numbers. -/
def wasapi_segtotal_expr (buffer_frame_count bpf : Nat) (segsize : Int) : Nat :=
  max (wasapi_segment_quotient buffer_frame_count bpf segsize) 2

/-- The value stored in the `gint` field `spec->segtotal`. -/
def wasapi_segtotal (buffer_frame_count bpf : Nat) (segsize : Int) : Int :=
  toGint (wasapi_segtotal_expr buffer_frame_count bpf segsize)

/-- The function `gst_wasapi_sink_unprepare` (gstwasapisink.c:609-634), without the
thread priority block that is compiled in only for some compilers: the element
afterwards and the calls made. -/
def gst_wasapi_sink_unprepare (self : GstWasapiSink) : GstWasapiSink × List WasapiCall :=
  ({ self with render_client := false },
    (if self.sharemode = AUDCLNT_SHAREMODE.EXCLUSIVE then [WasapiCall.CoUninit] else [])
      ++ (if self.client then [WasapiCall.Stop] else [])
      ++ (if self.render_client then [WasapiCall.ReleaseRenderClient] else []))

/-- The label `beach` of `gst_wasapi_sink_prepare` (gstwasapisink.c:600-606). -/
def gst_wasapi_sink_prepare_beach (res : Bool) (self : GstWasapiSink)
    (spec : GstAudioRingBufferSpec) (calls : List WasapiCall) : PrepareResult GstWasapiSink :=
  if res then { outcome := Outcome.returned true, self := self, spec := spec, calls := calls }
  else
    { outcome := Outcome.returned false, self := (gst_wasapi_sink_unprepare self).1, spec := spec,
      calls := calls ++ WasapiCall.Unprepare :: (gst_wasapi_sink_unprepare self).2 }

/-- The silence pre-roll and the start of the stream
(gstwasapisink.c:544-598); `self` already holds the render client. -/
def gst_wasapi_sink_prepare_preroll (dev : PrepareDevice) (self : GstWasapiSink)
    (spec : GstAudioRingBufferSpec) (calls : List WasapiCall) : PrepareResult GstWasapiSink :=
  let calls1 := calls ++ gst_wasapi_sink_get_can_frames_calls self
  let n_frames := gst_wasapi_sink_get_can_frames self dev.getCurrentPadding
  if n_frames < 1 then gst_wasapi_sink_prepare_beach false self spec calls1
  else if dev.getBuffer ≠ HRESULT.S_OK then
    gst_wasapi_sink_prepare_beach false self spec (calls1 ++ [WasapiCall.GetBuffer n_frames.toNat])
  else if dev.releaseBuffer ≠ HRESULT.S_OK then
    gst_wasapi_sink_prepare_beach false self spec
      (calls1 ++ [WasapiCall.GetBuffer n_frames.toNat,
        WasapiCall.ReleaseBuffer n_frames.toNat true])
  else if dev.start ≠ HRESULT.S_OK then
    gst_wasapi_sink_prepare_beach false self spec
      (calls1 ++ [WasapiCall.GetBuffer n_frames.toNat, WasapiCall.ReleaseBuffer n_frames.toNat true,
        WasapiCall.Start])
  else
    gst_wasapi_sink_prepare_beach true self spec
      (calls1 ++ [WasapiCall.GetBuffer n_frames.toNat, WasapiCall.ReleaseBuffer n_frames.toNat true,
        WasapiCall.Start])

/-- The part of `gst_wasapi_sink_prepare` after the calls of
`IAudioClient_Initialize` (gstwasapisink.c:490-598): `hr` is the last answer of
Initialize, `device_period` the period in use. -/
def gst_wasapi_sink_prepare_tail (dev : PrepareDevice) (self : GstWasapiSink)
    (spec : GstAudioRingBufferSpec) (bpf rate : Nat) (hr : HRESULT) (device_period : Int)
    (calls : List WasapiCall) : PrepareResult GstWasapiSink :=
  if hr ≠ HRESULT.S_OK then gst_wasapi_sink_prepare_beach false self spec calls
  else if dev.getBufferSize.1 ≠ HRESULT.S_OK then
    gst_wasapi_sink_prepare_beach false self spec (calls ++ [WasapiCall.GetBufferSize])
  else
    let self1 := { self with buffer_frame_count := toGuint dev.getBufferSize.2 }
    let segsize := wasapi_segsize dev rate bpf device_period
    if segsize = 0 then
      { outcome := Outcome.undefined, self := self1, spec := { spec with segsize := segsize },
        calls := calls ++ [WasapiCall.GetBufferSize] }
    else
      let spec1 := { spec with segsize := segsize,
                               segtotal := wasapi_segtotal self1.buffer_frame_count bpf segsize }
      let calls1 := calls ++ [WasapiCall.GetBufferSize, WasapiCall.GetStreamLatency]
      if dev.getStreamLatency ≠ HRESULT.S_OK then
        gst_wasapi_sink_prepare_beach false self1 spec1 calls1
      else if dev.setEventHandle ≠ HRESULT.S_OK then
        gst_wasapi_sink_prepare_beach false self1 spec1 (calls1 ++ [WasapiCall.SetEventHandle])
      else if dev.getRenderClient = false then
        gst_wasapi_sink_prepare_beach false self1 spec1
          (calls1 ++ [WasapiCall.SetEventHandle, WasapiCall.GetRenderClient])
      else
        gst_wasapi_sink_prepare_preroll dev { self1 with render_client := true } spec1
          (calls1 ++ [WasapiCall.SetEventHandle, WasapiCall.GetRenderClient])

/-- The function `gst_wasapi_sink_prepare` (gstwasapisink.c:415-607). -/
def gst_wasapi_sink_prepare (dev : PrepareDevice) (self : GstWasapiSink)
    (spec : GstAudioRingBufferSpec) : PrepareResult GstWasapiSink :=
  if dev.getDevicePeriod.1 ≠ HRESULT.S_OK then
    { outcome := Outcome.returned false, self := self, spec := spec,
      calls := [WasapiCall.GetDevicePeriod] }
  else
    let bpf := toGuint spec.info_bpf
    let rate := toGuint spec.info_rate
    let device_period := (wasapi_periods dev self.low_latency self.sharemode spec).1
    let device_buffer_duration := (wasapi_periods dev self.low_latency self.sharemode spec).2
    let calls1 := wasapi_first_calls self.sharemode device_period device_buffer_duration
    if dev.clientInit = HRESULT.AUDCLNT_E_BUFFER_SIZE_NOT_ALIGNED
        ∧ self.sharemode = AUDCLNT_SHAREMODE.EXCLUSIVE then
      if dev.alignedBufferSize.1 ≠ HRESULT.S_OK then
        gst_wasapi_sink_prepare_beach false self spec (calls1 ++ [WasapiCall.GetBufferSize])
      else if rate = 0 then
        { outcome := Outcome.undefined, self := self, spec := spec,
          calls := calls1 ++ [WasapiCall.GetBufferSize] }
      else
        let device_period2 :=
          (GST_SECOND / 100) * (toGuint dev.alignedBufferSize.2 : Int) / (rate : Int)
        gst_wasapi_sink_prepare_tail dev self spec bpf rate dev.clientReinit device_period2
          (calls1 ++ [WasapiCall.GetBufferSize,
            WasapiCall.ClientInit self.sharemode device_period2 device_period2])
    else
      gst_wasapi_sink_prepare_tail dev self spec bpf rate dev.clientInit device_period calls1

/-! ## WASAPI source: prepare and unprepare -/

/-- The fields of `GstWasapiSrc` used by prepare, unprepare and read. -/
structure GstWasapiSrc where
  sharemode : AUDCLNT_SHAREMODE
  low_latency : Bool
  client : Bool
  capture_client : Bool
  client_clock : Bool
  client_clock_freq : Nat
  buffer_frame_count : Nat
  nBlockAlign : Nat
  deriving DecidableEq, Repr

/-- The function `gst_wasapi_src_unprepare` (gstwasapisrc.c:540-572), without the thread
priority block. -/
def gst_wasapi_src_unprepare (self : GstWasapiSrc) : GstWasapiSrc × List WasapiCall :=
  ({ self with capture_client := false, client_clock := false, client_clock_freq := 0 },
    (if self.sharemode = AUDCLNT_SHAREMODE.EXCLUSIVE then [WasapiCall.CoUninit] else [])
      ++ (if self.client then [WasapiCall.Stop] else [])
      ++ (if self.capture_client then [WasapiCall.ReleaseCaptureClient] else [])
      ++ (if self.client_clock then [WasapiCall.ReleaseClock] else []))

/-- The label `beach` of `gst_wasapi_src_prepare` (gstwasapisrc.c:531-537). -/
def gst_wasapi_src_prepare_beach (res : Bool) (self : GstWasapiSrc)
    (spec : GstAudioRingBufferSpec) (calls : List WasapiCall) : PrepareResult GstWasapiSrc :=
  if res then { outcome := Outcome.returned true, self := self, spec := spec, calls := calls }
  else
    { outcome := Outcome.returned false, self := (gst_wasapi_src_unprepare self).1, spec := spec,
      calls := calls ++ WasapiCall.Unprepare :: (gst_wasapi_src_unprepare self).2 }

/-- The part of `gst_wasapi_src_prepare` after the segment computation
(gstwasapisrc.c:478-530). -/
def gst_wasapi_src_prepare_clients (dev : PrepareDevice) (self : GstWasapiSrc)
    (spec : GstAudioRingBufferSpec) (calls : List WasapiCall) : PrepareResult GstWasapiSrc :=
  if dev.getStreamLatency ≠ HRESULT.S_OK then
    gst_wasapi_src_prepare_beach false self spec (calls ++ [WasapiCall.GetStreamLatency])
  else if dev.setEventHandle ≠ HRESULT.S_OK then
    gst_wasapi_src_prepare_beach false self spec
      (calls ++ [WasapiCall.GetStreamLatency, WasapiCall.SetEventHandle])
  else if dev.getClock = false then
    gst_wasapi_src_prepare_beach false self spec
      (calls ++ [WasapiCall.GetStreamLatency, WasapiCall.SetEventHandle, WasapiCall.GetClock])
  else if dev.getFrequency.1 ≠ HRESULT.S_OK then
    gst_wasapi_src_prepare_beach false { self with client_clock := true } spec
      (calls ++ [WasapiCall.GetStreamLatency, WasapiCall.SetEventHandle, WasapiCall.GetClock,
        WasapiCall.GetFrequency])
  else if dev.getCaptureClient = false then
    gst_wasapi_src_prepare_beach false
      { self with client_clock := true, client_clock_freq := dev.getFrequency.2 } spec
      (calls ++ [WasapiCall.GetStreamLatency, WasapiCall.SetEventHandle, WasapiCall.GetClock,
        WasapiCall.GetFrequency, WasapiCall.GetCaptureClient])
  else if dev.start ≠ HRESULT.S_OK then
    gst_wasapi_src_prepare_beach false
      { self with client_clock := true, client_clock_freq := dev.getFrequency.2,
                  capture_client := true } spec
      (calls ++ [WasapiCall.GetStreamLatency, WasapiCall.SetEventHandle, WasapiCall.GetClock,
        WasapiCall.GetFrequency, WasapiCall.GetCaptureClient, WasapiCall.Start])
  else
    gst_wasapi_src_prepare_beach true
      { self with client_clock := true, client_clock_freq := dev.getFrequency.2,
                  capture_client := true } spec
      (calls ++ [WasapiCall.GetStreamLatency, WasapiCall.SetEventHandle, WasapiCall.GetClock,
        WasapiCall.GetFrequency, WasapiCall.GetCaptureClient, WasapiCall.Start])

/-- The part of `gst_wasapi_src_prepare` after the calls of
`IAudioClient_Initialize` (gstwasapisrc.c:451-530).  The buffer size goes into
the local variable `buffer_frames`; the segment count is computed from the
field `self->buffer_frame_count`. -/
def gst_wasapi_src_prepare_tail (dev : PrepareDevice) (self : GstWasapiSrc)
    (spec : GstAudioRingBufferSpec) (bpf rate : Nat) (hr : HRESULT) (device_period : Int)
    (calls : List WasapiCall) : PrepareResult GstWasapiSrc :=
  if hr ≠ HRESULT.S_OK then gst_wasapi_src_prepare_beach false self spec calls
  else if dev.getBufferSize.1 ≠ HRESULT.S_OK then
    gst_wasapi_src_prepare_beach false self spec (calls ++ [WasapiCall.GetBufferSize])
  else
    let segsize := wasapi_segsize dev rate bpf device_period
    if segsize = 0 then
      { outcome := Outcome.undefined, self := self, spec := { spec with segsize := segsize },
        calls := calls ++ [WasapiCall.GetBufferSize] }
    else
      gst_wasapi_src_prepare_clients dev self
        { spec with segsize := segsize,
                    segtotal := wasapi_segtotal self.buffer_frame_count bpf segsize }
        (calls ++ [WasapiCall.GetBufferSize])

/-- The function `gst_wasapi_src_prepare` (gstwasapisrc.c:378-538). -/
def gst_wasapi_src_prepare (dev : PrepareDevice) (self : GstWasapiSrc)
    (spec : GstAudioRingBufferSpec) : PrepareResult GstWasapiSrc :=
  if dev.getDevicePeriod.1 ≠ HRESULT.S_OK then
    { outcome := Outcome.returned false, self := self, spec := spec,
      calls := [WasapiCall.GetDevicePeriod] }
  else
    let bpf := toGuint spec.info_bpf
    let rate := toGuint spec.info_rate
    let device_period := (wasapi_periods dev self.low_latency self.sharemode spec).1
    let device_buffer_duration := (wasapi_periods dev self.low_latency self.sharemode spec).2
    let calls1 := wasapi_first_calls self.sharemode device_period device_buffer_duration
    if dev.clientInit = HRESULT.AUDCLNT_E_BUFFER_SIZE_NOT_ALIGNED
        ∧ self.sharemode = AUDCLNT_SHAREMODE.EXCLUSIVE then
      if dev.alignedBufferSize.1 ≠ HRESULT.S_OK then
        gst_wasapi_src_prepare_beach false self spec (calls1 ++ [WasapiCall.GetBufferSize])
      else if rate = 0 then
        { outcome := Outcome.undefined, self := self, spec := spec,
          calls := calls1 ++ [WasapiCall.GetBufferSize] }
      else
        let device_period2 :=
          (GST_SECOND / 100) * (toGuint dev.alignedBufferSize.2 : Int) / (rate : Int)
        gst_wasapi_src_prepare_tail dev self spec bpf rate dev.clientReinit device_period2
          (calls1 ++ [WasapiCall.GetBufferSize,
            WasapiCall.ClientInit self.sharemode device_period2 device_period2])
    else
      gst_wasapi_src_prepare_tail dev self spec bpf rate dev.clientInit device_period calls1

/-! ## Devices and elements used as concrete inputs -/

/-- A device that refuses `IAudioClient_GetDevicePeriod` and would accept
every other call. -/
def noPeriodDevice : PrepareDevice :=
  { getDevicePeriod := (HRESULT.other 1, 0, 0),
    bestBufferSizes := fun _ _ d _ => (d, d),
    clientInit := HRESULT.S_OK, alignedBufferSize := (HRESULT.S_OK, 480),
    clientReinit := HRESULT.S_OK, getBufferSize := (HRESULT.S_OK, 480),
    scale := fun _ _ _ => 1920, getStreamLatency := HRESULT.S_OK,
    setEventHandle := HRESULT.S_OK, getRenderClient := true, getClock := true,
    getFrequency := (HRESULT.S_OK, 10000000), getCaptureClient := true,
    getCurrentPadding := (HRESULT.S_OK, 0), getBuffer := HRESULT.S_OK,
    releaseBuffer := HRESULT.S_OK, start := HRESULT.S_OK }

/-- A device that answers the period query and then refuses
`IAudioClient_Initialize`. -/
def noInitDevice : PrepareDevice :=
  { noPeriodDevice with getDevicePeriod := (HRESULT.S_OK, 100000, 30000),
                        clientInit := HRESULT.other 2 }

/-- A device that accepts every call: 480 frames of buffer, segments of 1920
bytes. -/
def plainDevice : PrepareDevice :=
  { noPeriodDevice with getDevicePeriod := (HRESULT.S_OK, 100000, 30000) }

/-- A device that accepts every call and reports a buffer of `2^31` frames in
segments of one byte. -/
def hugeDevice : PrepareDevice :=
  { plainDevice with getBufferSize := (HRESULT.S_OK, 2147483648), scale := fun _ _ _ => 1 }

/-- A sink with an open client in shared mode, four bytes per frame. -/
def sharedSink : GstWasapiSink :=
  { sharemode := AUDCLNT_SHAREMODE.SHARED, low_latency := false, mute := false,
    client := true, render_client := false, buffer_frame_count := 0, nBlockAlign := 4 }

/-- A source with an open client in shared mode, four bytes per frame. -/
def sharedSrc : GstWasapiSrc :=
  { sharemode := AUDCLNT_SHAREMODE.SHARED, low_latency := false, client := true,
    capture_client := false, client_clock := false, client_clock_freq := 0,
    buffer_frame_count := 480, nBlockAlign := 4 }

/-- A ring buffer spec for 48 kHz audio with four bytes per frame. -/
def stereoSpec : GstAudioRingBufferSpec :=
  { info_bpf := 4, info_rate := 48000, latency_time := 10000, buffer_time := 200000,
    segsize := 0, segtotal := 0 }

/-- A ring buffer spec for audio with one byte per frame. -/
def monoByteSpec : GstAudioRingBufferSpec :=
  { info_bpf := 1, info_rate := 8000, latency_time := 10000, buffer_time := 200000,
    segsize := 0, segtotal := 0 }

/-- Whether a logged call is an `IAudioClient_Initialize`. -/
def WasapiCall.isClientInit : WasapiCall → Bool
  | WasapiCall.ClientInit _ _ _ => true
  | _ => false

/-! ## MSDK buffer pool -/

/-- The part of a `GstAllocator` that `gst_msdk_buffer_pool_set_config` looks
at: `mem_type` (NULL is `none`) and an identity to tell allocators apart. -/
structure GstAllocator where
  mem_type : Option String
  ident : Nat
  deriving DecidableEq, Repr

/-- The structure `GstAllocationParams`: flags, align, prefix, padding. -/
structure GstAllocationParams where
  flags : Nat
  align : Nat
  prefix_bytes : Nat
  padding : Nat
  deriving DecidableEq, Repr

/-- A `GstVideoInfo` as far as the pool is concerned. -/
structure GstVideoInfo where
  width : Nat
  height : Nat
  size : Nat
  deriving DecidableEq, Repr

/-- The structure `GstVideoAlignment`. -/
structure GstVideoAlignment where
  padding_top : Nat
  padding_bottom : Nat
  padding_left : Nat
  padding_right : Nat
  deriving DecidableEq, Repr

/-- The buffer pool configuration (a `GstStructure`).  `params` is what
`gst_buffer_pool_config_get_params` reads: `none` when it cannot be read,
otherwise the caps (possibly NULL), size, min and max buffers.  `allocator` is
what `gst_buffer_pool_config_get_allocator` reads: `none` when it cannot be
read, otherwise the allocator (possibly NULL) and its params. -/
structure GstBufferPoolConfig where
  params : Option (Option String × Nat × Nat × Nat)
  allocator : Option (Option GstAllocator × GstAllocationParams)
  options : List String
  video_alignment : Option GstVideoAlignment
  deriving DecidableEq, Repr

/-- The constant `GST_BUFFER_POOL_OPTION_VIDEO_META`. -/
def GST_BUFFER_POOL_OPTION_VIDEO_META : String := "GstBufferPoolOptionVideoMeta"

/-- The constant `GST_BUFFER_POOL_OPTION_VIDEO_ALIGNMENT`. -/
def GST_BUFFER_POOL_OPTION_VIDEO_ALIGNMENT : String := "GstBufferPoolOptionVideoAlignment"

/-- What lies outside `gstmsdkbufferpool.c`: the two memory type names, the
GStreamer video helpers, the MSDK system allocator constructor and the
`set_config` of the parent class `GstVideoBufferPool`.
`video_info_align` is `gst_video_info_align`, which updates the info and the
alignment in place. -/
structure MsdkEnv where
  GST_MSDK_SYSTEM_MEMORY_NAME : String
  GST_MSDK_VIDEO_MEMORY_NAME : String
  video_info_from_caps : String → Option GstVideoInfo
  set_video_alignment : GstVideoInfo → GstVideoAlignment
  video_info_align : GstVideoInfo → GstVideoAlignment → GstVideoInfo × GstVideoAlignment
  system_allocator_new : GstVideoInfo → Option GstAllocator
  parent_set_config : GstBufferPoolConfig → Bool

/-- Result of `gst_msdk_buffer_pool_set_config`: the return value, the config
afterwards, and the config handed to the parent class if the parent
`set_config` was called. -/
structure SetConfigResult where
  ret : Bool
  config : GstBufferPoolConfig
  parent_called : Option GstBufferPoolConfig
  deriving DecidableEq, Repr

/-- The allocator kept after the memory type test (gstmsdkbufferpool.c:68-76):
an allocator whose `mem_type` is neither MSDK name is dropped. -/
def msdk_kept_allocator (env : MsdkEnv) (allocator : Option GstAllocator) : Option GstAllocator :=
  match allocator with
  | none => none
  | some a =>
    if a.mem_type ≠ some env.GST_MSDK_SYSTEM_MEMORY_NAME
        ∧ a.mem_type ≠ some env.GST_MSDK_VIDEO_MEMORY_NAME then none
    else some a

/-- Whether the alignment block runs (gstmsdkbufferpool.c:78-82): the config
has the video meta option and the video alignment option. -/
def msdk_wants_alignment (config : GstBufferPoolConfig) : Bool :=
  config.options.contains GST_BUFFER_POOL_OPTION_VIDEO_META
    && config.options.contains GST_BUFFER_POOL_OPTION_VIDEO_ALIGNMENT

/-- The variable `video_info` after the alignment block
(gstmsdkbufferpool.c:81-88). -/
def msdk_pool_video_info (env : MsdkEnv) (config : GstBufferPoolConfig)
    (video_info : GstVideoInfo) : GstVideoInfo :=
  if msdk_wants_alignment config then
    (env.video_info_align video_info (env.set_video_alignment video_info)).1
  else video_info

/-- The config after the alignment block (gstmsdkbufferpool.c:81-88). -/
def msdk_pool_aligned_config (env : MsdkEnv) (config : GstBufferPoolConfig)
    (video_info : GstVideoInfo) : GstBufferPoolConfig :=
  if msdk_wants_alignment config then
    { config with
      video_alignment :=
        some ((env.video_info_align video_info (env.set_video_alignment video_info)).2) }
  else config

/-- The GStreamer call `gst_buffer_pool_config_set_allocator`: it stores the
allocator and the params in the config. -/
def gst_buffer_pool_config_set_allocator (config : GstBufferPoolConfig)
    (allocator : GstAllocator) (params : GstAllocationParams) : GstBufferPoolConfig :=
  { config with allocator := some (some allocator, params) }

/-- The function `gst_msdk_buffer_pool_set_config` (gstmsdkbufferpool.c:46-134). -/
def gst_msdk_buffer_pool_set_config (env : MsdkEnv) (config : GstBufferPoolConfig) :
    SetConfigResult :=
  match config.params with
  | none => { ret := false, config := config, parent_called := none }
  | some (none, _, _, _) => { ret := false, config := config, parent_called := none }
  | some (some caps, _, _, _) =>
    match env.video_info_from_caps caps with
    | none => { ret := false, config := config, parent_called := none }
    | some video_info =>
      match config.allocator with
      | none => { ret := false, config := config, parent_called := none }
      | some (allocator, _) =>
        match msdk_kept_allocator env allocator with
        | some _ =>
          { ret := env.parent_set_config (msdk_pool_aligned_config env config video_info),
            config := msdk_pool_aligned_config env config video_info,
            parent_called := some (msdk_pool_aligned_config env config video_info) }
        | none =>
          match env.system_allocator_new (msdk_pool_video_info env config video_info) with
          | none =>
            { ret := false, config := msdk_pool_aligned_config env config video_info,
              parent_called := none }
          | some created =>
            { ret := env.parent_set_config
                (gst_buffer_pool_config_set_allocator
                (msdk_pool_aligned_config env config video_info) created
                { flags := 0, align := 31, prefix_bytes := 0, padding := 0 }),
              config :=
                (gst_buffer_pool_config_set_allocator
                (msdk_pool_aligned_config env config video_info) created
                { flags := 0, align := 31, prefix_bytes := 0, padding := 0 }),
              parent_called := some
                (gst_buffer_pool_config_set_allocator
                (msdk_pool_aligned_config env config video_info) created
                { flags := 0, align := 31, prefix_bytes := 0, padding := 0 }) }

/-- An environment for the pool: caps `"video/x-raw"` are valid video caps of
320x240, the alignment pads to 16x32 blocks, the system allocator can be
created and the parent class accepts every config. -/
def msdkEnv : MsdkEnv :=
  { GST_MSDK_SYSTEM_MEMORY_NAME := "GstMsdkSystemMemory",
    GST_MSDK_VIDEO_MEMORY_NAME := "GstMsdkVideoMemory",
    video_info_from_caps := fun caps =>
      if caps = "video/x-raw" then some { width := 320, height := 240, size := 115200 } else none,
    set_video_alignment := fun info =>
      { padding_top := 0, padding_bottom := (32 - info.height % 32) % 32, padding_left := 0,
        padding_right := (16 - info.width % 16) % 16 },
    video_info_align := fun info al =>
      ({ info with
          size := (info.width + al.padding_right) * (info.height + al.padding_bottom) * 3 / 2 },
        al),
    system_allocator_new := fun info =>
      some { mem_type := some "GstMsdkSystemMemory", ident := info.size },
    parent_set_config := fun _ => true }

/-- The same environment, but no MSDK system allocator can be created. -/
def msdkEnvNoAllocator : MsdkEnv :=
  { msdkEnv with system_allocator_new := fun _ => none }

/-- A pool config with valid caps and no allocator. -/
def plainPoolConfig : GstBufferPoolConfig :=
  { params := some (some "video/x-raw", 115200, 2, 0),
    allocator := some (none, { flags := 0, align := 0, prefix_bytes := 0, padding := 0 }),
    options := [], video_alignment := none }

/-- A pool config with valid caps and an allocator that is not an MSDK one. -/
def foreignPoolConfig : GstBufferPoolConfig :=
  { plainPoolConfig with
    allocator := some (some { mem_type := some "SystemMemory", ident := 7 },
      { flags := 0, align := 15, prefix_bytes := 0, padding := 0 }) }

/-- A pool config with valid caps and an MSDK video memory allocator. -/
def msdkPoolConfig : GstBufferPoolConfig :=
  { plainPoolConfig with
    allocator := some (some { mem_type := some "GstMsdkVideoMemory", ident := 9 },
      { flags := 0, align := 15, prefix_bytes := 0, padding := 0 }) }

/-! ## UVC H.264 camera source -/

/-- The enumeration of stream formats of the main and secondary stream
(`UVC_H264_SRC_FORMAT_*`). -/
inductive UvcH264SrcFormat where
  | NONE
  | JPG
  | H264
  | RAW
  deriving DecidableEq, Repr

/-- The values `UVC_H264_STREAMFORMAT_ANNEXB` and `UVC_H264_STREAMFORMAT_NAL`. -/
inductive UvcH264StreamFormat where
  | ANNEXB
  | NAL
  deriving DecidableEq, Repr

/-- The values `UVC_H264_PROFILE_*` used by the element. -/
inductive UvcH264Profile where
  | CONSTRAINED_BASELINE
  | BASELINE
  | MAIN
  | HIGH
  deriving DecidableEq, Repr

/-- The local enumeration `type` of `gst_uvc_h264_src_construct_pipeline`
(gstuvch264_src.c:2101-2106). -/
inductive PipelineType where
  | RAW_NONE
  | ENCODED_NONE
  | NONE_RAW
  | NONE_ENCODED
  | H264_JPG
  | H264_RAW
  | H264_JPG2RAW
  | NONE_NONE
  | RAW_RAW
  | ENCODED_ENCODED
  deriving DecidableEq, Repr

/-- The first structure of fixated caps: its name and the fields the element
reads.  `width` and `height` are `gint`, `framerate` is the fraction
`fps_n / fps_d`. -/
structure GstStructure where
  name : String
  width : Option Int
  height : Option Int
  framerate : Option (Int × Int)
  stream_format : Option String
  profile : Option String
  deriving DecidableEq, Repr

/-- The fields of `GstUvcH264Src` used here.  Element pointers are `none` when
NULL and otherwise hold the factory name of the element. -/
structure GstUvcH264Src where
  reconfiguring : Bool
  started : Bool
  v4l2_fd : Int
  v4l2_src : Option String
  mjpg_demux : Option String
  jpeg_dec : Option String
  vid_colorspace : Option String
  vf_colorspace : Option String
  colorspace_name : Option String
  jpeg_decoder_name : Option String
  device : Option String
  num_buffers : Int
  main_format : UvcH264SrcFormat
  main_width : Nat
  main_height : Nat
  main_frame_interval : Nat
  main_stream_format : UvcH264StreamFormat
  main_profile : UvcH264Profile
  secondary_format : UvcH264SrcFormat
  secondary_width : Nat
  secondary_height : Nat
  secondary_frame_interval : Nat
  initial_bitrate : Nat
  slice_units : Nat
  slice_mode : Int
  iframe_period : Nat
  usage_type : Int
  entropy : Int
  enable_sei : Bool
  num_reorder_frames : Nat
  preview_flipped : Bool
  rate_control : Int
  fixed_framerate : Bool
  deriving DecidableEq, Repr

/-- The elements that `gst_uvc_h264_src_construct_pipeline` creates, by the
variable that holds them. -/
inductive PipelineElement where
  | v4l2_src
  | mjpg_demux
  | jpeg_dec
  | vid_colorspace
  | vf_colorspace
  | tee
  deriving DecidableEq, Repr

/-- What GStreamer answers during one call of
`gst_uvc_h264_src_construct_pipeline`.  `factory_make e name` says whether
`gst_element_factory_make (name, NULL)` returns an element when it is called
for the variable `e`; `bin_add e` whether `gst_bin_add` succeeds for that
element; `link a pad b` is the answer of the link call from element `a`
(source pad `pad`, empty when none is named) to element `b`.
`vf_peer_caps` and `vid_peer_caps` say whether `gst_pad_peer_get_caps` returns
caps; `vf_fixated` and `vid_fixated` are the first structure of what
`gst_uvc_h264_src_fixate_caps` returns for them (`none` for NULL). -/
structure PipelineEnv where
  factory_make : PipelineElement → String → Bool
  bin_add : PipelineElement → Bool
  v4l2_ready : Bool
  vf_peer_caps : Bool
  vid_peer_caps : Bool
  vf_fixated : Option GstStructure
  vid_fixated : Option GstStructure
  link : PipelineElement → String → PipelineElement → Bool
  set_target_vid : Bool
  set_target_vf : Bool
  sync_states : Bool

/-- Result of `gst_uvc_h264_src_construct_pipeline`: how the call ended, the
element afterwards, and the pipeline type that the classification of the caps
ended with (`none` when the function left before the classification was
complete). -/
structure ConstructResult where
  outcome : Outcome Bool
  self : GstUvcH264Src
  ptype : Option PipelineType
  deriving DecidableEq, Repr

/-- The function `_extract_caps_info` (gstuvch264_src.c:1893-1912).  The outer `none` is a
division by zero (`fps_n = 0`); the inner `none` is the return value FALSE;
otherwise the triple holds what is stored through the `guint16 *width`,
`guint16 *height` and `guint32 *frame_interval` pointers. -/
def _extract_caps_info (st : GstStructure) : Option (Option (Nat × Nat × Nat)) :=
  match st.width, st.height, st.framerate with
  | some w, some h, some (fps_n, fps_d) =>
    if fps_n = 0 then none
    else some (some (toGuint16 w, toGuint16 h,
      toGuint (Int.tdiv (Int.tdiv (fps_d * GST_SECOND) fps_n) 100)))
  | _, _, _ => some none

/-- The call `gst_uvc_h264_src_destroy_pipeline (self, FALSE)`
(gstuvch264_src.c:2020-2081) as far as the fields of the element go. -/
def gst_uvc_h264_src_destroy_pipeline (self : GstUvcH264Src) : GstUvcH264Src :=
  { self with mjpg_demux := none, jpeg_dec := none, vid_colorspace := none,
              vf_colorspace := none }

/-- The label `error` of `gst_uvc_h264_src_construct_pipeline`
(gstuvch264_src.c:2516-2548), also reached from `error_remove`. -/
def construct_pipeline_error (self : GstUvcH264Src) (ptype : Option PipelineType) :
    ConstructResult :=
  { outcome := Outcome.returned false,
    self := { self with v4l2_src := none, mjpg_demux := none, jpeg_dec := none,
                        vid_colorspace := none, vf_colorspace := none,
                        reconfiguring := false },
    ptype := ptype }

/-- The label `error_remove_all` (gstuvch264_src.c:2510-2511), which falls
through to `error_remove` and `error`. -/
def construct_pipeline_error_remove_all (self : GstUvcH264Src) (ptype : Option PipelineType) :
    ConstructResult :=
  construct_pipeline_error (gst_uvc_h264_src_destroy_pipeline self) ptype

/-- The mapping of the caps field `stream-format` (gstuvch264_src.c:2200-2207
and 2259-2266). -/
def construct_pipeline_stream_format (vid_struct : GstStructure) : UvcH264StreamFormat :=
  match vid_struct.stream_format with
  | none => UvcH264StreamFormat.ANNEXB
  | some stream_format =>
    if stream_format = "avc" then UvcH264StreamFormat.ANNEXB
    else if stream_format = "byte-stream" then UvcH264StreamFormat.NAL
    else UvcH264StreamFormat.ANNEXB

/-- The mapping of the caps field `profile` (gstuvch264_src.c:2211-2223 and
2268-2280). -/
def construct_pipeline_profile (vid_struct : GstStructure) : UvcH264Profile :=
  match vid_struct.profile with
  | none => UvcH264Profile.HIGH
  | some profile =>
    if profile = "constrained-baseline" then UvcH264Profile.CONSTRAINED_BASELINE
    else if profile = "baseline" then UvcH264Profile.BASELINE
    else if profile = "main" then UvcH264Profile.MAIN
    else UvcH264Profile.HIGH

/-- What the classification of the caps (gstuvch264_src.c:2177-2294) ends
in. -/
inductive Classified where
  | typed (self : GstUvcH264Src) (ptype : PipelineType)
  | error_remove (self : GstUvcH264Src)
  | undefined (self : GstUvcH264Src)
  deriving DecidableEq, Repr

/-- The branch for H.264 video caps together with viewfinder caps
(gstuvch264_src.c:2189-2249). -/
def construct_pipeline_h264_with_viewfinder (self : GstUvcH264Src)
    (vf_struct vid_struct : GstStructure) : Classified :=
  match _extract_caps_info vf_struct with
  | none => Classified.undefined self
  | some none => Classified.error_remove self
  | some (some (sw, sh, si)) =>
    let self1 := { self with secondary_width := sw, secondary_height := sh,
                             secondary_frame_interval := si,
                             main_format := UvcH264SrcFormat.H264 }
    match _extract_caps_info vid_struct with
    | none => Classified.undefined self1
    | some none => Classified.error_remove self1
    | some (some (mw, mh, mi)) =>
      let self2 := { self1 with main_width := mw, main_height := mh, main_frame_interval := mi,
                                main_stream_format := construct_pipeline_stream_format vid_struct,
                                main_profile := construct_pipeline_profile vid_struct }
      if vf_struct.name = "image/jpeg" then
        Classified.typed { self2 with secondary_format := UvcH264SrcFormat.JPG }
          PipelineType.H264_JPG
      else if self2.secondary_width > 432 ∨ self2.secondary_height > 240 then
        Classified.typed { self2 with secondary_format := UvcH264SrcFormat.JPG }
          PipelineType.H264_JPG2RAW
      else
        Classified.typed { self2 with secondary_format := UvcH264SrcFormat.RAW }
          PipelineType.H264_RAW

/-- The branch for caps on one pad only (gstuvch264_src.c:2250-2291). -/
def construct_pipeline_single (self : GstUvcH264Src)
    (vf_struct vid_struct : Option GstStructure) : Classified :=
  let self1 := { self with main_format := UvcH264SrcFormat.NONE,
                           secondary_format := UvcH264SrcFormat.NONE }
  match vid_struct, vf_struct with
  | some vid, vf =>
    if vid.name = "video/x-h264" then
      let self2 := { self1 with main_format := UvcH264SrcFormat.H264 }
      match _extract_caps_info vid with
      | none => Classified.undefined self2
      | some none => Classified.error_remove self2
      | some (some (mw, mh, mi)) =>
        Classified.typed
          { self2 with main_width := mw, main_height := mh, main_frame_interval := mi,
                       main_stream_format := construct_pipeline_stream_format vid,
                       main_profile := construct_pipeline_profile vid }
          PipelineType.ENCODED_NONE
    else if vid.name = "image/jpeg" then Classified.typed self1 PipelineType.ENCODED_NONE
    else
      match vf with
      | some vfs =>
        if vfs.name = "image/jpeg" then Classified.typed self1 PipelineType.NONE_ENCODED
        else Classified.typed self1 PipelineType.RAW_NONE
      | none => Classified.typed self1 PipelineType.RAW_NONE
  | none, some vfs =>
    if vfs.name = "image/jpeg" then Classified.typed self1 PipelineType.NONE_ENCODED
    else Classified.typed self1 PipelineType.NONE_RAW
  | none, none => Classified.undefined self1

/-- The classification of the caps (gstuvch264_src.c:2177-2294): `vf_struct`
and `vid_struct` are `none` when the caps pointer is NULL. -/
def construct_pipeline_classify (self : GstUvcH264Src)
    (vf_struct vid_struct : Option GstStructure) : Classified :=
  match vf_struct, vid_struct with
  | some vf, some vid =>
    if vid.name ≠ "video/x-h264" then
      if vid.name = "image/jpeg" ∧ vf.name = "image/jpeg" then
        Classified.typed self PipelineType.ENCODED_ENCODED
      else if vid.name ≠ "image/jpeg" ∧ vf.name ≠ "image/jpeg" then
        Classified.typed self PipelineType.RAW_RAW
      else Classified.error_remove self
    else construct_pipeline_h264_with_viewfinder self vf vid
  | none, none => Classified.typed self PipelineType.NONE_NONE
  | vf, vid => construct_pipeline_single self vf vid

/-- What the construction of the elements (the `switch (type)`,
gstuvch264_src.c:2296-2460) ends in. -/
inductive Built where
  | done (self : GstUvcH264Src)
  | error_remove (self : GstUvcH264Src)
  | error_remove_all (self : GstUvcH264Src)
  deriving DecidableEq, Repr

/-- The pointer that `gst_element_factory_make` returns for a factory name;
a NULL name gives NULL. -/
def gst_element_factory_make (env : PipelineEnv) (e : PipelineElement) (name : Option String) :
    Option String :=
  match name with
  | none => none
  | some n => if env.factory_make e n then some n else none

/-- The case `RAW_NONE` (gstuvch264_src.c:2301-2312). -/
def construct_pipeline_build_raw_none (env : PipelineEnv) (self : GstUvcH264Src) : Built :=
  let self1 := { self with
    vid_colorspace :=
      gst_element_factory_make env PipelineElement.vid_colorspace self.colorspace_name }
  if self1.vid_colorspace = none then Built.error_remove self1
  else if env.bin_add PipelineElement.vid_colorspace = false then Built.error_remove self1
  else if env.link PipelineElement.v4l2_src "" PipelineElement.vid_colorspace = false then
    Built.error_remove_all self1
  else Built.done self1

/-- The case `NONE_RAW` (gstuvch264_src.c:2313-2324). -/
def construct_pipeline_build_none_raw (env : PipelineEnv) (self : GstUvcH264Src) : Built :=
  let self1 := { self with
    vf_colorspace :=
      gst_element_factory_make env PipelineElement.vf_colorspace self.colorspace_name }
  if self1.vf_colorspace = none then Built.error_remove self1
  else if env.bin_add PipelineElement.vf_colorspace = false then Built.error_remove self1
  else if env.link PipelineElement.v4l2_src "" PipelineElement.vf_colorspace = false then
    Built.error_remove_all self1
  else Built.done self1

/-- The case `H264_JPG` (gstuvch264_src.c:2333-2344). -/
def construct_pipeline_build_h264_jpg (env : PipelineEnv) (self : GstUvcH264Src) : Built :=
  let self1 := { self with
    mjpg_demux :=
      gst_element_factory_make env PipelineElement.mjpg_demux (some "uvch264_mjpgdemux") }
  if self1.mjpg_demux = none then Built.error_remove self1
  else if env.bin_add PipelineElement.mjpg_demux = false then Built.error_remove self1
  else if env.link PipelineElement.v4l2_src "" PipelineElement.mjpg_demux = false then
    Built.error_remove_all self1
  else Built.done self1

/-- The case `H264_RAW` (gstuvch264_src.c:2345-2369). -/
def construct_pipeline_build_h264_raw (env : PipelineEnv) (self : GstUvcH264Src) : Built :=
  let self1 := { self with
    mjpg_demux :=
      gst_element_factory_make env PipelineElement.mjpg_demux (some "uvch264_mjpgdemux"),
    vf_colorspace :=
      gst_element_factory_make env PipelineElement.vf_colorspace self.colorspace_name }
  if self1.mjpg_demux = none ∨ self1.vf_colorspace = none then Built.error_remove self1
  else if env.bin_add PipelineElement.mjpg_demux = false then Built.error_remove self1
  else if env.bin_add PipelineElement.vf_colorspace = false then
    Built.error_remove_all { self1 with vf_colorspace := none }
  else if env.link PipelineElement.v4l2_src "" PipelineElement.mjpg_demux = false then
    Built.error_remove_all self1
  else if env.link PipelineElement.mjpg_demux "yuy2" PipelineElement.vf_colorspace = false then
    Built.error_remove_all self1
  else Built.done self1

/-- The case `H264_JPG2RAW` (gstuvch264_src.c:2370-2405). -/
def construct_pipeline_build_h264_jpg2raw (env : PipelineEnv) (self : GstUvcH264Src) : Built :=
  let self1 := { self with
    mjpg_demux :=
      gst_element_factory_make env PipelineElement.mjpg_demux (some "uvch264_mjpgdemux"),
    jpeg_dec := gst_element_factory_make env PipelineElement.jpeg_dec self.jpeg_decoder_name,
    vf_colorspace :=
      gst_element_factory_make env PipelineElement.vf_colorspace self.colorspace_name }
  if self1.mjpg_demux = none ∨ self1.jpeg_dec = none ∨ self1.vf_colorspace = none then
    Built.error_remove self1
  else if env.bin_add PipelineElement.mjpg_demux = false then Built.error_remove self1
  else if env.bin_add PipelineElement.jpeg_dec = false then
    Built.error_remove_all { self1 with jpeg_dec := none, vf_colorspace := none }
  else if env.bin_add PipelineElement.vf_colorspace = false then
    Built.error_remove_all { self1 with vf_colorspace := none }
  else if env.link PipelineElement.v4l2_src "" PipelineElement.mjpg_demux = false then
    Built.error_remove_all self1
  else if env.link PipelineElement.mjpg_demux "jpeg" PipelineElement.jpeg_dec = false then
    Built.error_remove_all self1
  else if env.link PipelineElement.jpeg_dec "" PipelineElement.vf_colorspace = false then
    Built.error_remove_all self1
  else Built.done self1

/-- The case `RAW_RAW` (gstuvch264_src.c:2406-2441). -/
def construct_pipeline_build_raw_raw (env : PipelineEnv) (self : GstUvcH264Src) : Built :=
  if gst_element_factory_make env PipelineElement.tee (some "tee") = none
      ∨ env.bin_add PipelineElement.tee = false then
    Built.error_remove self
  else
    let self1 := { self with
      vf_colorspace :=
        gst_element_factory_make env PipelineElement.vf_colorspace self.colorspace_name,
      vid_colorspace :=
        gst_element_factory_make env PipelineElement.vid_colorspace self.colorspace_name }
    if self1.vf_colorspace = none ∨ self1.vid_colorspace = none then Built.error_remove self1
    else if env.bin_add PipelineElement.vf_colorspace = false then Built.error_remove self1
    else if env.bin_add PipelineElement.vid_colorspace = false then
      Built.error_remove_all { self1 with vid_colorspace := none }
    else if env.link PipelineElement.v4l2_src "" PipelineElement.tee = false then
      Built.error_remove_all self1
    else if env.link PipelineElement.tee "" PipelineElement.vf_colorspace = false then
      Built.error_remove_all self1
    else if env.link PipelineElement.tee "" PipelineElement.vid_colorspace = false then
      Built.error_remove_all self1
    else Built.done self1

/-- The case `ENCODED_ENCODED` (gstuvch264_src.c:2442-2459). -/
def construct_pipeline_build_encoded_encoded (env : PipelineEnv) (self : GstUvcH264Src) :
    Built :=
  if gst_element_factory_make env PipelineElement.tee (some "tee") = none
      ∨ env.bin_add PipelineElement.tee = false then
    Built.error_remove self
  else if env.link PipelineElement.v4l2_src "" PipelineElement.tee = false then
    Built.error_remove_all self
  else Built.done self

/-- The `switch (type)` of `gst_uvc_h264_src_construct_pipeline`
(gstuvch264_src.c:2296-2460). -/
def construct_pipeline_build (env : PipelineEnv) (self : GstUvcH264Src) :
    PipelineType → Built
  | PipelineType.NONE_NONE => Built.done self
  | PipelineType.RAW_NONE => construct_pipeline_build_raw_none env self
  | PipelineType.NONE_RAW => construct_pipeline_build_none_raw env self
  | PipelineType.ENCODED_NONE => Built.done self
  | PipelineType.NONE_ENCODED => Built.done self
  | PipelineType.H264_JPG => construct_pipeline_build_h264_jpg env self
  | PipelineType.H264_RAW => construct_pipeline_build_h264_raw env self
  | PipelineType.H264_JPG2RAW => construct_pipeline_build_h264_jpg2raw env self
  | PipelineType.RAW_RAW => construct_pipeline_build_raw_raw env self
  | PipelineType.ENCODED_ENCODED => construct_pipeline_build_encoded_encoded env self

/-- The end of `gst_uvc_h264_src_construct_pipeline` after the switch
(gstuvch264_src.c:2462-2508): the ghost pad targets and the state sync. -/
def construct_pipeline_finish (env : PipelineEnv) (self : GstUvcH264Src) (ptype : PipelineType) :
    ConstructResult :=
  if env.set_target_vid = false ∨ env.set_target_vf = false then
    construct_pipeline_error_remove_all self (some ptype)
  else if env.sync_states = false then construct_pipeline_error_remove_all self (some ptype)
  else
    { outcome := Outcome.returned true, self := { self with reconfiguring := false },
      ptype := some ptype }

/-- What follows the `switch (type)`: the error labels its cases jump to, or
the end of the function. -/
def construct_pipeline_after_switch (env : PipelineEnv) (b : Built) (t : PipelineType) :
    ConstructResult :=
  match b with
  | Built.error_remove s1 => construct_pipeline_error s1 (some t)
  | Built.error_remove_all s1 => construct_pipeline_error_remove_all s1 (some t)
  | Built.done s1 => construct_pipeline_finish env s1 t

/-- The part of `gst_uvc_h264_src_construct_pipeline` from the caps of the
peers on (gstuvch264_src.c:2138-2549); `self` is the element after
`gst_uvc_h264_src_destroy_pipeline`. -/
def construct_pipeline_negotiated (env : PipelineEnv) (self : GstUvcH264Src) : ConstructResult :=
  if env.vf_peer_caps = true ∧ env.vf_fixated = none then construct_pipeline_error self none
  else if (env.vid_peer_caps = true ∧ self.started = true) ∧ env.vid_fixated = none then
    construct_pipeline_error self none
  else
    match construct_pipeline_classify self
        (if env.vf_peer_caps then env.vf_fixated else none)
        (if env.vid_peer_caps && self.started then env.vid_fixated else none) with
    | Classified.undefined s => { outcome := Outcome.undefined, self := s, ptype := none }
    | Classified.error_remove s => construct_pipeline_error s none
    | Classified.typed s t =>
      construct_pipeline_after_switch env (construct_pipeline_build env s t) t

/-- The element once the v4l2 source exists (gstuvch264_src.c:2109-2120):
`reconfiguring` is set and a missing `v4l2_src` has been created. -/
def construct_pipeline_with_v4l2src (self : GstUvcH264Src) : GstUvcH264Src :=
  { self with reconfiguring := true,
              v4l2_src := if self.v4l2_src = none then some "v4l2src" else self.v4l2_src }

/-- The function `gst_uvc_h264_src_construct_pipeline` (gstuvch264_src.c:2083-2549).  The
`UVCX_ENCODER_RESET` query sent when a device is open only logs a warning on
failure and is left out. -/
def gst_uvc_h264_src_construct_pipeline (env : PipelineEnv) (self : GstUvcH264Src) :
    ConstructResult :=
  if self.v4l2_src = none
      ∧ gst_element_factory_make env PipelineElement.v4l2_src (some "v4l2src") = none then
    construct_pipeline_error { self with reconfiguring := true } none
  else if self.v4l2_src = none ∧ env.bin_add PipelineElement.v4l2_src = false then
    construct_pipeline_error (construct_pipeline_with_v4l2src self) none
  else if env.v4l2_ready = false then
    construct_pipeline_error (construct_pipeline_with_v4l2src self) none
  else
    construct_pipeline_negotiated env
      (gst_uvc_h264_src_destroy_pipeline (construct_pipeline_with_v4l2src self))

/-! ## UVC H.264 camera source: properties -/

/-- The constants of the header `uvc_h264.h` that the property code uses.  The
header is not part of the sources at hand, so its values are parameters.  The
three lists hold the values registered for the enumeration types
`UVC_H264_SLICEMODE_TYPE`, `UVC_H264_USAGETYPE_TYPE` and
`UVC_H264_ENTROPY_TYPE`. -/
structure UvcH264Header where
  UVC_H264_SLICEMODE_SLICEPERFRAME : Int
  slicemode_values : List Int
  UVC_H264_USAGETYPE_REALTIME : Int
  usagetype_values : List Int
  UVC_H264_ENTROPY_CAVLC : Int
  entropy_values : List Int
  UVC_H264_RATECONTROL_CBR : Int
  UVC_H264_RATECONTROL_FIXED_FRM_FLG : Nat
  UVC_H264_STREAMFORMAT_ANNEXB : Int
  UVC_H264_STREAMFORMAT_NAL : Int
  UVC_H264_TIMESTAMP_SEI_ENABLE : Int
  UVC_H264_TIMESTAMP_SEI_DISABLE : Int
  UVC_H264_PREFLIPPED_HORIZONTAL : Int
  UVC_H264_PREFLIPPED_DISABLE : Int
  UVC_H264_BMHINTS_RESOLUTION : Nat
  UVC_H264_BMHINTS_PROFILE : Nat
  UVC_H264_BMHINTS_FRAME_INTERVAL : Nat

/-- The fields of `uvcx_video_config_probe_commit_t` that `fill_probe_commit`
writes.  Widths follow the field prefixes: `dw` 32 bits, `w` and `bm` 16 bits,
`b` 8 bits. -/
structure uvcx_video_config_probe_commit_t where
  dwFrameInterval : Nat
  dwBitRate : Nat
  bmHints : Nat
  wWidth : Nat
  wHeight : Nat
  wSliceUnits : Nat
  wSliceMode : Nat
  wProfile : Nat
  wIFramePeriod : Nat
  bUsageType : Nat
  bRateControlMode : Nat
  bStreamFormat : Nat
  bEntropyCABAC : Nat
  bTimestamp : Nat
  bNumOfReorderFrames : Nat
  bPreviewFlipped : Nat
  deriving DecidableEq, Repr

/-- A `GValue` of one of the types the properties use. -/
inductive GValue where
  | uint (n : Nat)
  | int (z : Int)
  | enum (z : Int)
  | boolean (b : Bool)
  | string (s : Option String)
  deriving DecidableEq, Repr

/-- The GLib accessor `g_value_get_uint`. -/
def g_value_get_uint : GValue → Nat
  | GValue.uint n => n
  | _ => 0

/-- The GLib accessor `g_value_get_int`. -/
def g_value_get_int : GValue → Int
  | GValue.int z => z
  | _ => 0

/-- The GLib accessor `g_value_get_enum`. -/
def g_value_get_enum : GValue → Int
  | GValue.enum z => z
  | _ => 0

/-- The GLib accessor `g_value_get_boolean`. -/
def g_value_get_boolean : GValue → Bool
  | GValue.boolean b => b
  | _ => false

/-- The GLib accessor `g_value_dup_string`. -/
def g_value_dup_string : GValue → Option String
  | GValue.string s => s
  | _ => none

/-- The property ids of the element up to the static controls
(gstuvch264_src.c:52-68).  The dynamic controls, which talk to the device on
every access, are not part of this embedding. -/
inductive PropId where
  | PROP_COLORSPACE_NAME
  | PROP_JPEG_DECODER_NAME
  | PROP_NUM_BUFFERS
  | PROP_DEVICE
  | PROP_DEVICE_NAME
  | PROP_INITIAL_BITRATE
  | PROP_SLICE_UNITS
  | PROP_SLICE_MODE
  | PROP_IFRAME_PERIOD
  | PROP_USAGE_TYPE
  | PROP_ENTROPY
  | PROP_ENABLE_SEI
  | PROP_NUM_REORDER_FRAMES
  | PROP_PREVIEW_FLIPPED
  deriving DecidableEq, Repr

/-- The param specs of GLib used by the element: `g_param_spec_int` and
`g_param_spec_uint` with minimum, maximum and default, `g_param_spec_enum`
with the registered values and the default, `g_param_spec_boolean` and
`g_param_spec_string` with the default. -/
inductive GParamSpec where
  | int (minimum maximum default_value : Int)
  | uint (minimum maximum default_value : Nat)
  | enum (values : List Int) (default_value : Int)
  | boolean (default_value : Bool)
  | string (default_value : Option String)
  deriving DecidableEq, Repr

/-- The GLib constructor `g_param_spec_int`: the three numbers are passed as `gint`. -/
def g_param_spec_int (minimum maximum default_value : Int) : GParamSpec :=
  GParamSpec.int (toGint minimum) (toGint maximum) (toGint default_value)

/-- The GLib constructor `g_param_spec_uint`: the three numbers are passed as `guint`. -/
def g_param_spec_uint (minimum maximum default_value : Int) : GParamSpec :=
  GParamSpec.uint (toGuint minimum) (toGuint maximum) (toGuint default_value)

/-- Whether a value lies in the range a param spec declares (the check of
`g_param_value_validate`). -/
def g_param_value_in_range : GParamSpec → GValue → Bool
  | GParamSpec.int lo hi _, GValue.int z => decide (lo ≤ z) && decide (z ≤ hi)
  | GParamSpec.uint lo hi _, GValue.uint n => decide (lo ≤ n) && decide (n ≤ hi)
  | GParamSpec.enum values _, GValue.enum z => values.contains z
  | GParamSpec.boolean _, GValue.boolean _ => true
  | GParamSpec.string _, GValue.string _ => true
  | _, _ => false

/-- The constant `DEFAULT_NUM_BUFFERS`. -/
def DEFAULT_NUM_BUFFERS : Int := -1

/-- The constant `DEFAULT_INITIAL_BITRATE`. -/
def DEFAULT_INITIAL_BITRATE : Int := 3000000

/-- The constant `DEFAULT_SLICE_UNITS`. -/
def DEFAULT_SLICE_UNITS : Int := 4

/-- The constant `DEFAULT_IFRAME_PERIOD`. -/
def DEFAULT_IFRAME_PERIOD : Int := 10000

/-- The constant `DEFAULT_NUM_REORDER_FRAMES`. -/
def DEFAULT_NUM_REORDER_FRAMES : Int := 0

/-- The param specs installed by `gst_uvc_h264_src_class_init`
(gstuvch264_src.c:291-370). -/
def gst_uvc_h264_src_class_init (h : UvcH264Header) : PropId → GParamSpec
  | PropId.PROP_COLORSPACE_NAME => GParamSpec.string (some "ffmpegcolorspace")
  | PropId.PROP_JPEG_DECODER_NAME => GParamSpec.string (some "jpegdec")
  | PropId.PROP_NUM_BUFFERS => g_param_spec_int (-1) G_MAXUINT DEFAULT_NUM_BUFFERS
  | PropId.PROP_DEVICE => GParamSpec.string (some "/dev/video0")
  | PropId.PROP_DEVICE_NAME => GParamSpec.string none
  | PropId.PROP_INITIAL_BITRATE => g_param_spec_uint 0 G_MAXUINT DEFAULT_INITIAL_BITRATE
  | PropId.PROP_SLICE_UNITS => g_param_spec_uint 0 G_MAXUINT16 DEFAULT_SLICE_UNITS
  | PropId.PROP_SLICE_MODE =>
    GParamSpec.enum h.slicemode_values h.UVC_H264_SLICEMODE_SLICEPERFRAME
  | PropId.PROP_IFRAME_PERIOD => g_param_spec_uint 0 G_MAXUINT16 DEFAULT_IFRAME_PERIOD
  | PropId.PROP_USAGE_TYPE => GParamSpec.enum h.usagetype_values h.UVC_H264_USAGETYPE_REALTIME
  | PropId.PROP_ENTROPY => GParamSpec.enum h.entropy_values h.UVC_H264_ENTROPY_CAVLC
  | PropId.PROP_ENABLE_SEI => GParamSpec.boolean false
  | PropId.PROP_NUM_REORDER_FRAMES => g_param_spec_uint 0 G_MAXUINT8 DEFAULT_NUM_REORDER_FRAMES
  | PropId.PROP_PREVIEW_FLIPPED => GParamSpec.boolean false

/-- Whether a property is one of the nine static controls
(gstuvch264_src.c:60-68). -/
def PropId.isStaticControl : PropId → Bool
  | PropId.PROP_INITIAL_BITRATE => true
  | PropId.PROP_SLICE_UNITS => true
  | PropId.PROP_SLICE_MODE => true
  | PropId.PROP_IFRAME_PERIOD => true
  | PropId.PROP_USAGE_TYPE => true
  | PropId.PROP_ENTROPY => true
  | PropId.PROP_ENABLE_SEI => true
  | PropId.PROP_NUM_REORDER_FRAMES => true
  | PropId.PROP_PREVIEW_FLIPPED => true
  | _ => false

/-- The function `gst_uvc_h264_src_set_property` (gstuvch264_src.c:567-693)
for the properties of `PropId`.  Forwarding `num-buffers` and `device` to an
existing v4l2src does not change the element itself.  The values are stored as
read from the `GValue`: the fields of the element are declared in a header
that is not at hand and are taken to be at least as wide as the probe fields
they are copied to. -/
def gst_uvc_h264_src_set_property (self : GstUvcH264Src) (prop_id : PropId) (value : GValue) :
    GstUvcH264Src :=
  match prop_id with
  | PropId.PROP_COLORSPACE_NAME =>
    { self with colorspace_name := g_value_dup_string value }
  | PropId.PROP_JPEG_DECODER_NAME =>
    { self with jpeg_decoder_name := g_value_dup_string value }
  | PropId.PROP_NUM_BUFFERS => { self with num_buffers := g_value_get_int value }
  | PropId.PROP_DEVICE => { self with device := g_value_dup_string value }
  | PropId.PROP_DEVICE_NAME => self
  | PropId.PROP_INITIAL_BITRATE => { self with initial_bitrate := g_value_get_uint value }
  | PropId.PROP_SLICE_UNITS => { self with slice_units := g_value_get_uint value }
  | PropId.PROP_SLICE_MODE => { self with slice_mode := g_value_get_enum value }
  | PropId.PROP_IFRAME_PERIOD => { self with iframe_period := g_value_get_uint value }
  | PropId.PROP_USAGE_TYPE => { self with usage_type := g_value_get_enum value }
  | PropId.PROP_ENTROPY => { self with entropy := g_value_get_enum value }
  | PropId.PROP_ENABLE_SEI => { self with enable_sei := g_value_get_boolean value }
  | PropId.PROP_NUM_REORDER_FRAMES => { self with num_reorder_frames := g_value_get_uint value }
  | PropId.PROP_PREVIEW_FLIPPED => { self with preview_flipped := g_value_get_boolean value }

/-- The number a stream format has in the header. -/
def UvcH264StreamFormat.value (h : UvcH264Header) : UvcH264StreamFormat → Int
  | UvcH264StreamFormat.ANNEXB => h.UVC_H264_STREAMFORMAT_ANNEXB
  | UvcH264StreamFormat.NAL => h.UVC_H264_STREAMFORMAT_NAL

/-- The function `fill_probe_commit` (gstuvch264_src.c:1679-1707): every assignment narrows
the value to the width of the field. -/
def fill_probe_commit (h : UvcH264Header) (self : GstUvcH264Src)
    (probe : uvcx_video_config_probe_commit_t) (frame_interval width height profile : Nat) :
    uvcx_video_config_probe_commit_t :=
  { probe with
    dwFrameInterval := toGuint frame_interval,
    dwBitRate := toGuint self.initial_bitrate,
    wWidth := toGuint16 width,
    wHeight := toGuint16 height,
    wSliceUnits := toGuint16 self.slice_units,
    wSliceMode := toGuint16 self.slice_mode,
    wProfile := toGuint16 profile,
    wIFramePeriod := toGuint16 self.iframe_period,
    bUsageType := toGuint8 self.usage_type,
    bRateControlMode :=
      if self.fixed_framerate then
        toGuint8 ((toGuint8 self.rate_control ||| h.UVC_H264_RATECONTROL_FIXED_FRM_FLG : Nat) : Int)
      else toGuint8 self.rate_control,
    bStreamFormat := toGuint8 (self.main_stream_format.value h),
    bEntropyCABAC := toGuint8 self.entropy,
    bTimestamp :=
      toGuint8 (if self.enable_sei then h.UVC_H264_TIMESTAMP_SEI_ENABLE
        else h.UVC_H264_TIMESTAMP_SEI_DISABLE),
    bNumOfReorderFrames := toGuint8 self.num_reorder_frames,
    bPreviewFlipped :=
      toGuint8 (if self.preview_flipped then h.UVC_H264_PREFLIPPED_HORIZONTAL
        else h.UVC_H264_PREFLIPPED_DISABLE),
    bmHints :=
      toGuint16 ((h.UVC_H264_BMHINTS_RESOLUTION ||| h.UVC_H264_BMHINTS_PROFILE
        ||| h.UVC_H264_BMHINTS_FRAME_INTERVAL : Nat) : Int) }

/-- What `gst_uvc_h264_src_get_property` gets from outside: `probe0` is the
content of the local variable `probe` before it is filled, `get_cur` what the
`UVCX_VIDEO_CONFIG_PROBE` `UVC_GET_CUR` query leaves in the probe, and
`device_name` the `device-name` of an existing v4l2src. -/
structure PropertyEnv where
  probe0 : uvcx_video_config_probe_commit_t
  get_cur : uvcx_video_config_probe_commit_t → uvcx_video_config_probe_commit_t
  device_name : Option String

/-- The first `switch` of `gst_uvc_h264_src_get_property`
(gstuvch264_src.c:702-721): the probe the second switch reads. -/
def gst_uvc_h264_src_get_property_probe (h : UvcH264Header) (env : PropertyEnv)
    (self : GstUvcH264Src) (prop_id : PropId) : uvcx_video_config_probe_commit_t :=
  if prop_id.isStaticControl then
    if self.v4l2_fd ≠ -1 then env.get_cur (fill_probe_commit h self env.probe0 0 0 0 0)
    else fill_probe_commit h self env.probe0 0 0 0 0
  else env.probe0

/-- The function `gst_uvc_h264_src_get_property` (gstuvch264_src.c:695-833) for the
properties of `PropId`: the value it stores. -/
def gst_uvc_h264_src_get_property (h : UvcH264Header) (env : PropertyEnv)
    (self : GstUvcH264Src) (prop_id : PropId) : GValue :=
  match prop_id with
  | PropId.PROP_COLORSPACE_NAME => GValue.string self.colorspace_name
  | PropId.PROP_JPEG_DECODER_NAME => GValue.string self.jpeg_decoder_name
  | PropId.PROP_NUM_BUFFERS => GValue.int self.num_buffers
  | PropId.PROP_DEVICE => GValue.string self.device
  | PropId.PROP_DEVICE_NAME =>
    if self.v4l2_src.isSome then GValue.string env.device_name else GValue.string (some "")
  | PropId.PROP_INITIAL_BITRATE =>
    GValue.uint (gst_uvc_h264_src_get_property_probe h env self prop_id).dwBitRate
  | PropId.PROP_SLICE_UNITS =>
    GValue.uint (gst_uvc_h264_src_get_property_probe h env self prop_id).wSliceUnits
  | PropId.PROP_SLICE_MODE =>
    GValue.enum (gst_uvc_h264_src_get_property_probe h env self prop_id).wSliceMode
  | PropId.PROP_IFRAME_PERIOD =>
    GValue.uint (gst_uvc_h264_src_get_property_probe h env self prop_id).wIFramePeriod
  | PropId.PROP_USAGE_TYPE =>
    GValue.enum (gst_uvc_h264_src_get_property_probe h env self prop_id).bUsageType
  | PropId.PROP_ENTROPY =>
    GValue.enum (gst_uvc_h264_src_get_property_probe h env self prop_id).bEntropyCABAC
  | PropId.PROP_ENABLE_SEI =>
    GValue.boolean
      (decide (((gst_uvc_h264_src_get_property_probe h env self prop_id).bTimestamp : Int)
        = h.UVC_H264_TIMESTAMP_SEI_ENABLE))
  | PropId.PROP_NUM_REORDER_FRAMES =>
    GValue.uint (gst_uvc_h264_src_get_property_probe h env self prop_id).bNumOfReorderFrames
  | PropId.PROP_PREVIEW_FLIPPED =>
    GValue.boolean
      (decide (((gst_uvc_h264_src_get_property_probe h env self prop_id).bPreviewFlipped : Int)
        = h.UVC_H264_PREFLIPPED_HORIZONTAL))

/-- Values for the constants of `uvc_h264.h`, used as a concrete header. -/
def sampleHeader : UvcH264Header :=
  { UVC_H264_SLICEMODE_SLICEPERFRAME := 3, slicemode_values := [0, 1, 2, 3],
    UVC_H264_USAGETYPE_REALTIME := 1, usagetype_values := [1, 2, 3, 4, 5, 6, 7],
    UVC_H264_ENTROPY_CAVLC := 0, entropy_values := [0, 1],
    UVC_H264_RATECONTROL_CBR := 1, UVC_H264_RATECONTROL_FIXED_FRM_FLG := 16,
    UVC_H264_STREAMFORMAT_ANNEXB := 0, UVC_H264_STREAMFORMAT_NAL := 1,
    UVC_H264_TIMESTAMP_SEI_ENABLE := 1, UVC_H264_TIMESTAMP_SEI_DISABLE := 0,
    UVC_H264_PREFLIPPED_HORIZONTAL := 1, UVC_H264_PREFLIPPED_DISABLE := 0,
    UVC_H264_BMHINTS_RESOLUTION := 1, UVC_H264_BMHINTS_PROFILE := 2,
    UVC_H264_BMHINTS_FRAME_INTERVAL := 2048 }

/-- The element as `gst_uvc_h264_src_init` leaves it (gstuvch264_src.c:480-555),
with the construct-time defaults of the two element name properties. -/
def gst_uvc_h264_src_init (h : UvcH264Header) : GstUvcH264Src :=
  { reconfiguring := false, started := false, v4l2_fd := -1,
    v4l2_src := none, mjpg_demux := none, jpeg_dec := none, vid_colorspace := none,
    vf_colorspace := none,
    colorspace_name := some "ffmpegcolorspace", jpeg_decoder_name := some "jpegdec",
    device := some "/dev/video0", num_buffers := DEFAULT_NUM_BUFFERS,
    main_format := UvcH264SrcFormat.NONE, main_width := 0, main_height := 0,
    main_frame_interval := 0, main_stream_format := UvcH264StreamFormat.ANNEXB,
    main_profile := UvcH264Profile.CONSTRAINED_BASELINE,
    secondary_format := UvcH264SrcFormat.NONE, secondary_width := 0, secondary_height := 0,
    secondary_frame_interval := 0,
    initial_bitrate := toGuint DEFAULT_INITIAL_BITRATE, slice_units := toGuint DEFAULT_SLICE_UNITS,
    slice_mode := h.UVC_H264_SLICEMODE_SLICEPERFRAME,
    iframe_period := toGuint DEFAULT_IFRAME_PERIOD,
    usage_type := h.UVC_H264_USAGETYPE_REALTIME, entropy := h.UVC_H264_ENTROPY_CAVLC,
    enable_sei := false, num_reorder_frames := toGuint DEFAULT_NUM_REORDER_FRAMES,
    preview_flipped := false, rate_control := h.UVC_H264_RATECONTROL_CBR,
    fixed_framerate := false }

/-- The element after `gst_uvc_h264_src_start_capture` has set `started`. -/
def startedSrc : GstUvcH264Src :=
  { gst_uvc_h264_src_init sampleHeader with started := true }

/-- H.264 video caps, 1280x720 at 30 frames per second. -/
def h264Caps : GstStructure :=
  { name := "video/x-h264", width := some 1280, height := some 720, framerate := some (30, 1),
    stream_format := some "byte-stream", profile := some "high" }

/-- JPEG caps, 640x480 at 30 frames per second. -/
def jpegCaps : GstStructure :=
  { name := "image/jpeg", width := some 640, height := some 480, framerate := some (30, 1),
    stream_format := none, profile := none }

/-- Raw video caps with the given size, at 30 frames per second. -/
def rawCaps (width height : Int) : GstStructure :=
  { name := "video/x-raw-yuv", width := some width, height := some height,
    framerate := some (30, 1), stream_format := none, profile := none }

/-- An environment in which every GStreamer call succeeds and both pads have
the given fixated caps. -/
def pipelineEnv (vf vid : GstStructure) : PipelineEnv :=
  { factory_make := fun _ _ => true, bin_add := fun _ => true, v4l2_ready := true,
    vf_peer_caps := true, vid_peer_caps := true, vf_fixated := some vf, vid_fixated := some vid,
    link := fun _ _ _ => true, set_target_vid := true, set_target_vf := true,
    sync_states := true }

/-- A probe variable with all fields zero and a device that is never asked. -/
def zeroProbeEnv : PropertyEnv :=
  { probe0 :=
      { dwFrameInterval := 0, dwBitRate := 0, bmHints := 0, wWidth := 0, wHeight := 0,
        wSliceUnits := 0, wSliceMode := 0, wProfile := 0, wIFramePeriod := 0, bUsageType := 0,
        bRateControlMode := 0, bStreamFormat := 0, bEntropyCABAC := 0, bTimestamp := 0,
        bNumOfReorderFrames := 0, bPreviewFlipped := 0 },
    get_cur := fun p => p, device_name := none }

/-- The element carried by the result of the switch. -/
def Built.self : Built → GstUvcH264Src
  | Built.done s => s
  | Built.error_remove s => s
  | Built.error_remove_all s => s

/-- The stream description of the element: formats, sizes, frame intervals,
stream format and profile of the main and the secondary stream. -/
def GstUvcH264Src.streams (self : GstUvcH264Src) :
    (UvcH264SrcFormat × Nat × Nat × Nat × UvcH264StreamFormat × UvcH264Profile)
      × (UvcH264SrcFormat × Nat × Nat × Nat) :=
  ((self.main_format, self.main_width, self.main_height, self.main_frame_interval,
      self.main_stream_format, self.main_profile),
    (self.secondary_format, self.secondary_width, self.secondary_height,
      self.secondary_frame_interval))

/-- Raw video caps of 320x240 with the variable framerate 0/1. -/
def variableRateCaps : GstStructure :=
  { name := "video/x-raw-yuv", width := some 320, height := some 240,
    framerate := some (0, 1), stream_format := none, profile := none }

/-! ## WASAPI source: read -/

/-- What the device answers during one iteration of the read loop:
`getBuffer` is the answer of `IAudioCaptureClient_GetBuffer`, `have_frames`
the frame count it reports (a `UINT32`), `captured` the bytes at the pointer
`from`, and `releaseBuffer` the answer of `IAudioCaptureClient_ReleaseBuffer`. -/
structure ReadStep where
  getBuffer : HRESULT
  have_frames : Nat
  captured : List Nat
  releaseBuffer : HRESULT
  deriving DecidableEq, Repr

/-- One `memcpy` of the read loop: the bytes still wanted before it, the frame
count the device reported, and the size `read_len` passed to `memcpy`. -/
structure ReadCopy where
  wanted : Nat
  have_frames : Nat
  read_len : Nat
  deriving DecidableEq, Repr

/-- Result of `gst_wasapi_src_read`: how the call ended (the `guint` it
returned), the destination buffer afterwards, and the copies made, oldest
first. -/
structure ReadResult where
  outcome : Outcome Nat
  data : List Nat
  copies : List ReadCopy
  deriving DecidableEq, Repr

/-- The C library call `memcpy (dst, src, n)` on a destination that starts at
`dst`: the first `n` bytes are replaced by the first `n` bytes of `src`. -/
def memcpy (dst src : List Nat) (n : Nat) : List Nat :=
  src.take n ++ dst.drop n

/-- The `while (wanted > 0)` loop of `gst_wasapi_src_read`
(gstwasapisrc.c:584-646).  The list holds the answers of the device, one entry
per iteration; when it is used up while bytes are wanted the call is still
waiting for the device.  `length` is the value of the C variable `length` on
entry. -/
def gst_wasapi_src_read_loop (self : GstWasapiSrc) (length : Nat) :
    List ReadStep → Nat → List Nat → List ReadCopy → ReadResult
  | [], wanted, data, copies =>
    if wanted > 0 then { outcome := Outcome.waiting, data := data, copies := copies }
    else { outcome := Outcome.returned length, data := data, copies := copies }
  | step :: rest, wanted, data, copies =>
    if wanted > 0 then
      if step.getBuffer ≠ HRESULT.S_OK then
        { outcome := Outcome.returned 0, data := data, copies := copies }
      else if self.nBlockAlign = 0 then
        { outcome := Outcome.undefined, data := data, copies := copies }
      else
        let want_frames := wanted / self.nBlockAlign
        let n_frames := min step.have_frames want_frames
        let read_len := toGuint ((n_frames : Int) * (self.nBlockAlign : Int))
        let data1 := memcpy data step.captured read_len
        let copies1 := copies ++
          [{ wanted := wanted, have_frames := step.have_frames, read_len := read_len }]
        if step.releaseBuffer ≠ HRESULT.S_OK then
          { outcome := Outcome.returned length, data := data1, copies := copies1 }
        else
          gst_wasapi_src_read_loop self length rest
            (toGuint ((wanted : Int) - (read_len : Int))) data1 copies1
    else { outcome := Outcome.returned length, data := data, copies := copies }

/-- The function `gst_wasapi_src_read` (gstwasapisrc.c:574-652): `data` is the
destination buffer, `length` its size in bytes (a `guint`). -/
def gst_wasapi_src_read (self : GstWasapiSrc) (steps : List ReadStep) (data : List Nat)
    (length : Nat) : ReadResult :=
  gst_wasapi_src_read_loop self length steps length data []

/-- The total number of bytes passed to `memcpy` by a list of copies. -/
def ReadCopy.total (copies : List ReadCopy) : Nat :=
  (copies.map ReadCopy.read_len).sum

/-- A capture packet of three frames of four bytes that the device hands out
and takes back without error. -/
def threeFramePacket : ReadStep :=
  { getBuffer := HRESULT.S_OK, have_frames := 3,
    captured := [1, 2, 3, 4, 5, 6, 7, 8, 9, 10, 11, 12], releaseBuffer := HRESULT.S_OK }

/-! ## UVC H.264 camera source: events -/

/-- The source pads of the element: `self->vfsrc`, `self->imgsrc` and
`self->vidsrc`. -/
inductive UvcPad where
  | vfsrc
  | imgsrc
  | vidsrc
  deriving DecidableEq, Repr

/-- The event types `gst_uvc_h264_src_parse_event` tells apart. -/
inductive GstEventType where
  | GST_EVENT_CUSTOM_UPSTREAM
  | other
  deriving DecidableEq, Repr

/-- An event as far as `gst_uvc_h264_src_parse_event` looks at it.
`structure_name` is the name of `gst_event_get_structure (event)` (`none` for
an event without structure); `is_force_key_unit` is the answer of
`gst_video_event_is_force_key_unit`; `upstream_force_key_unit` is what
`gst_video_event_parse_upstream_force_key_unit` gives, `none` for FALSE and
otherwise the timestamp and `all_headers`; `put_at` and `encode_using` are the
`guint` fields of that name in the structure. -/
structure GstEvent where
  type : GstEventType
  structure_name : Option String
  is_force_key_unit : Bool
  upstream_force_key_unit : Option (Nat × Bool)
  put_at : Option Nat
  encode_using : Option Nat
  deriving DecidableEq, Repr

/-- The extension unit selectors the element uses. -/
inductive UvcxSelector where
  | UVCX_VIDEO_CONFIG_PROBE
  | UVCX_RATE_CONTROL_MODE
  | UVCX_VIDEO_ADVANCE_CONFIG
  | UVCX_BITRATE_LAYERS
  | UVCX_QP_STEPS_LAYERS
  | UVCX_LTR_BUFFER_SIZE_CONTROL
  | UVCX_PICTURE_TYPE_CONTROL
  | UVCX_LTR_PICTURE_CONTROL
  | UVCX_ENCODER_RESET
  deriving DecidableEq, Repr

/-- The UVC request codes the element uses. -/
inductive UvcQuery where
  | UVC_SET_CUR
  | UVC_GET_CUR
  | UVC_GET_MIN
  | UVC_GET_MAX
  | UVC_GET_DEF
  | UVC_GET_LEN
  deriving DecidableEq, Repr

/-- The picture types `UVC_H264_PICTYPE_IDR` and
`UVC_H264_PICTYPE_IDR_WITH_PPS_SPS`. -/
inductive UvcH264PicType where
  | UVC_H264_PICTYPE_IDR
  | UVC_H264_PICTYPE_IDR_WITH_PPS_SPS
  deriving DecidableEq, Repr

/-- The request structures handed to `xu_query` by the event code and by the
pipeline construction: `uvcx_picture_type_control_t` with its layer id and
picture type, `uvcx_ltr_picture_control` with its three fields, and
`uvcx_encoder_reset`. -/
inductive XuData where
  | picture_type_control (wLayerID : Nat) (wPicType : UvcH264PicType)
  | ltr_picture_control (wLayerID : Nat) (put_at encode_using : Nat)
  | encoder_reset (wLayerID : Nat)
  deriving DecidableEq, Repr

/-- One call of `xu_query`: selector, query and request data. -/
structure XuQuery where
  selector : UvcxSelector
  query : UvcQuery
  data : XuData
  deriving DecidableEq, Repr

/-- What the kernel and the v4l2 source answer to `xu_query`: `device_fd` is
the `device-fd` property of the v4l2 source, `get_len` the length that the
`UVC_GET_LEN` ioctl reports for a selector (`none` when the ioctl returns -1),
and `ctrl_query` whether the second `UVCIOC_CTRL_QUERY` ioctl succeeds. -/
structure XuDevice where
  device_fd : Int
  get_len : UvcxSelector → Option Nat
  ctrl_query : XuQuery → Bool

/-- The file descriptor `xu_query` works with (gstuvch264_src.c:1643-1647). -/
def xu_query_fd (dev : XuDevice) (self : GstUvcH264Src) : Int :=
  if self.v4l2_fd = -1 ∧ self.v4l2_src ≠ none then dev.device_fd else self.v4l2_fd

/-- The function `xu_query` (gstuvch264_src.c:1638-1677): its return value and
the `UVCIOC_CTRL_QUERY` ioctls it makes, each with the query code it carries.
What a GET query writes back into `data` is not modelled. -/
def xu_query (dev : XuDevice) (self : GstUvcH264Src) (q : XuQuery) :
    Bool × List (UvcxSelector × UvcQuery) :=
  if xu_query_fd dev self = -1 then (false, [])
  else
    match dev.get_len q.selector with
    | none => (false, [(q.selector, UvcQuery.UVC_GET_LEN)])
    | some _ =>
      if q.query = UvcQuery.UVC_GET_LEN then (true, [(q.selector, UvcQuery.UVC_GET_LEN)])
      else
        (dev.ctrl_query q, [(q.selector, UvcQuery.UVC_GET_LEN), (q.selector, q.query)])

/-- Result of `gst_uvc_h264_src_parse_event`: how the call ended, the element
and its field `key_unit_event` afterwards, the calls of `xu_query` made and
the ioctls made by them, oldest first. -/
structure ParseEventResult where
  outcome : Outcome Bool
  self : GstUvcH264Src
  key_unit_event : Option GstEvent
  xu_queries : List XuQuery
  ioctls : List (UvcxSelector × UvcQuery)

/-- The `xu_query` call that `gst_uvc_h264_src_construct_pipeline` makes itself
(gstuvch264_src.c:2130-2135): the encoder reset, sent when the v4l2 source
could be set up and a device is open. -/
def construct_pipeline_xu_queries (env : PipelineEnv) (self : GstUvcH264Src) : List XuQuery :=
  if self.v4l2_src = none
      ∧ gst_element_factory_make env PipelineElement.v4l2_src (some "v4l2src") = none then []
  else if self.v4l2_src = none ∧ env.bin_add PipelineElement.v4l2_src = false then []
  else if env.v4l2_ready = false then []
  else if self.v4l2_fd ≠ -1 then
    [{ selector := UvcxSelector.UVCX_ENCODER_RESET, query := UvcQuery.UVC_SET_CUR,
       data := XuData.encoder_reset 0 }]
  else []

/-- The test for the `renegotiate` event and the end of
`gst_uvc_h264_src_parse_event` (gstuvch264_src.c:1573-1589), reached with the
`xu_query` calls and ioctls made so far.  `state_ready` says whether
`GST_STATE (self) >= GST_STATE_READY`. -/
def parse_event_renegotiate (env : PipelineEnv) (dev : XuDevice) (state_ready : Bool)
    (self : GstUvcH264Src) (key_unit_event : Option GstEvent) (event : GstEvent)
    (xu_queries : List XuQuery) (ioctls : List (UvcxSelector × UvcQuery)) : ParseEventResult :=
  if event.structure_name = some "renegotiate" then
    if state_ready then
      { outcome :=
          match (gst_uvc_h264_src_construct_pipeline env self).outcome with
          | Outcome.returned _ => Outcome.returned true
          | Outcome.waiting => Outcome.waiting
          | Outcome.undefined => Outcome.undefined,
        self := (gst_uvc_h264_src_construct_pipeline env self).self,
        key_unit_event := key_unit_event,
        xu_queries := xu_queries ++ construct_pipeline_xu_queries env self,
        ioctls := ioctls ++
          ((construct_pipeline_xu_queries env self).map
            (fun q => (xu_query dev (construct_pipeline_with_v4l2src self) q).2)).flatten }
    else
      { outcome := Outcome.returned true, self := self, key_unit_event := key_unit_event,
        xu_queries := xu_queries, ioctls := ioctls }
  else
    { outcome := Outcome.returned false, self := self, key_unit_event := key_unit_event,
      xu_queries := xu_queries, ioctls := ioctls }

/-- The request of the force-key-unit branch (gstuvch264_src.c:1529-1541):
`req = { 0, 0 }` with `wPicType` set from `all_headers`. -/
def parse_event_picture_request (all_headers : Bool) : XuQuery :=
  { selector := UvcxSelector.UVCX_PICTURE_TYPE_CONTROL, query := UvcQuery.UVC_SET_CUR,
    data := XuData.picture_type_control 0
      (if all_headers then UvcH264PicType.UVC_H264_PICTYPE_IDR_WITH_PPS_SPS
        else UvcH264PicType.UVC_H264_PICTYPE_IDR) }

/-- The request of the long-term-reference branch (gstuvch264_src.c:1559):
`req = { 0, put_at, encode_using }`. -/
def parse_event_ltr_request (put_at encode_using : Nat) : XuQuery :=
  { selector := UvcxSelector.UVCX_LTR_PICTURE_CONTROL, query := UvcQuery.UVC_SET_CUR,
    data := XuData.ltr_picture_control 0 put_at encode_using }

/-- The block of `gst_uvc_h264_src_parse_event` for custom upstream events on
the video pad of an H.264 stream (gstuvch264_src.c:1528-1571). -/
def parse_event_h264_vidsrc (env : PipelineEnv) (dev : XuDevice) (state_ready : Bool)
    (self : GstUvcH264Src) (key_unit_event : Option GstEvent) (event : GstEvent) :
    ParseEventResult :=
  if event.is_force_key_unit then
    match event.upstream_force_key_unit with
    | some (_, all_headers) =>
      if (xu_query dev self (parse_event_picture_request all_headers)).1 = false then
        parse_event_renegotiate env dev state_ready self key_unit_event event
          [parse_event_picture_request all_headers]
          (xu_query dev self (parse_event_picture_request all_headers)).2
      else
        { outcome := Outcome.returned true, self := self, key_unit_event := some event,
          xu_queries := [parse_event_picture_request all_headers],
          ioctls := (xu_query dev self (parse_event_picture_request all_headers)).2 }
    | none => parse_event_renegotiate env dev state_ready self key_unit_event event [] []
  else if event.structure_name = some "uvc_h264_ltr_picture_control" then
    match event.put_at, event.encode_using with
    | some put_at, some encode_using =>
      { outcome := Outcome.returned true, self := self, key_unit_event := key_unit_event,
        xu_queries := [parse_event_ltr_request put_at encode_using],
        ioctls := (xu_query dev self (parse_event_ltr_request put_at encode_using)).2 }
    | _, _ =>
      { outcome := Outcome.returned true, self := self, key_unit_event := key_unit_event,
        xu_queries := [], ioctls := [] }
  else parse_event_renegotiate env dev state_ready self key_unit_event event [] []

/-- The function `gst_uvc_h264_src_parse_event` (gstuvch264_src.c:1519-1590).
`key_unit_event` is the field `self->key_unit_event` on entry. -/
def gst_uvc_h264_src_parse_event (env : PipelineEnv) (dev : XuDevice) (state_ready : Bool)
    (self : GstUvcH264Src) (key_unit_event : Option GstEvent) (pad : UvcPad)
    (event : GstEvent) : ParseEventResult :=
  match event.type with
  | GstEventType.GST_EVENT_CUSTOM_UPSTREAM =>
    if pad = UvcPad.vidsrc ∧ self.main_format = UvcH264SrcFormat.H264 then
      parse_event_h264_vidsrc env dev state_ready self key_unit_event event
    else parse_event_renegotiate env dev state_ready self key_unit_event event [] []
  | GstEventType.other =>
    { outcome := Outcome.returned false, self := self, key_unit_event := key_unit_event,
      xu_queries := [], ioctls := [] }

/-- Whether a call of `xu_query` is a picture type request. -/
def XuQuery.isPictureType (q : XuQuery) : Bool :=
  decide (q.selector = UvcxSelector.UVCX_PICTURE_TYPE_CONTROL)

/-- An upstream force-key-unit event. -/
def forceKeyUnitEvent (all_headers : Bool) : GstEvent :=
  { type := GstEventType.GST_EVENT_CUSTOM_UPSTREAM, structure_name := some "GstForceKeyUnit",
    is_force_key_unit := true, upstream_force_key_unit := some (0, all_headers),
    put_at := none, encode_using := none }

/-- A device with an open descriptor that accepts every query. -/
def willingDevice : XuDevice :=
  { device_fd := 5, get_len := fun _ => some 4, ctrl_query := fun _ => true }

/-- The started element with an H.264 main stream and an open device. -/
def h264StreamingSrc : GstUvcH264Src :=
  { startedSrc with main_format := UvcH264SrcFormat.H264, v4l2_fd := 5,
                    v4l2_src := some "v4l2src" }

/-- H.264 video caps with `stream-format=avc`, otherwise as `h264Caps`. -/
def avcCaps : GstStructure :=
  { name := "video/x-h264", width := some 1280, height := some 720, framerate := some (30, 1),
    stream_format := some "avc", profile := some "high" }

/-- H.264 video caps without the field `stream-format`, otherwise as `h264Caps`. -/
def bareH264Caps : GstStructure :=
  { name := "video/x-h264", width := some 1280, height := some 720, framerate := some (30, 1),
    stream_format := none, profile := some "high" }

/-- An environment in which every GStreamer call succeeds, the viewfinder pad
has no peer caps and the video pad has the given fixated caps. -/
def videoOnlyEnv (vid : GstStructure) : PipelineEnv :=
  { factory_make := fun _ _ => true, bin_add := fun _ => true, v4l2_ready := true,
    vf_peer_caps := false, vid_peer_caps := true, vf_fixated := none, vid_fixated := some vid,
    link := fun _ _ _ => true, set_target_vid := true, set_target_vf := true,
    sync_states := true }

/-! ## Theorems -/

/-- C1 (the code at the failing input): four bytes `[1, 2, 3, 4]`, two frames
of two bytes, are written to a shared mode device that has room for one frame
per iteration and accepts every call.  `gst_wasapi_sink_write` returns 4 after
two iterations, but both iterations copy the first frame: the device buffers
receive `[1, 2, 1, 2]`, not `[1, 2, 3, 4]`, because `memcpy` always reads from
the start of `data`. -/
theorem sink_write_repeats_first_block :
    (gst_wasapi_sink_write oneFrameSink [acceptingStep, acceptingStep] [1, 2, 3, 4] 4).outcome
        = Outcome.returned 4
      ∧ (gst_wasapi_sink_write oneFrameSink [acceptingStep, acceptingStep] [1, 2, 3, 4] 4).copied
        = [[1, 2], [1, 2]]
      ∧ (gst_wasapi_sink_write oneFrameSink [acceptingStep, acceptingStep]
          [1, 2, 3, 4] 4).copied.flatten ≠ [1, 2, 3, 4] := by
  refine ⟨?_, ?_, ?_⟩ <;> decide

theorem toGuint_toGint (z : Int) : toGuint (toGint z) = toGuint z := by
  unfold toGuint toGint
  split_ifs <;> congr 1 <;> omega

theorem toGint_of_lt (n : Nat) (h : n < 2147483648) : toGint (n : Int) = (n : Int) := by
  unfold toGint
  split_ifs <;> omega

theorem toGuint_natCast (n : Nat) : toGuint (n : Int) = n % 4294967296 := by
  unfold toGuint
  omega

theorem toGuint_lt (z : Int) : toGuint z < 4294967296 := by
  unfold toGuint
  omega

theorem toGint_eq_zero (z : Int) : toGint z = 0 ↔ toGuint z = 0 := by
  unfold toGuint toGint
  split_ifs <;> omega

/-- C5 (counterexample): when `IAudioClient_GetDevicePeriod` fails, the sink
prepare returns FALSE and its only call is the period query: unprepare has not
been called. -/
theorem prepare_early_return_skips_unprepare :
    (gst_wasapi_sink_prepare noPeriodDevice sharedSink stereoSpec).outcome = Outcome.returned false
      ∧ WasapiCall.Unprepare ∉ (gst_wasapi_sink_prepare noPeriodDevice sharedSink stereoSpec).calls := by
  constructor
  · decide
  · decide

theorem sink_beach_unprepare (res : Bool) (self : GstWasapiSink) (spec : GstAudioRingBufferSpec)
    (calls : List WasapiCall) :
    (gst_wasapi_sink_prepare_beach res self spec calls).outcome = Outcome.returned false →
      WasapiCall.Unprepare ∈ (gst_wasapi_sink_prepare_beach res self spec calls).calls := by
  cases res <;> simp [gst_wasapi_sink_prepare_beach]

theorem sink_preroll_unprepare (dev : PrepareDevice) (self : GstWasapiSink)
    (spec : GstAudioRingBufferSpec) (calls : List WasapiCall) :
    (gst_wasapi_sink_prepare_preroll dev self spec calls).outcome = Outcome.returned false →
      WasapiCall.Unprepare ∈ (gst_wasapi_sink_prepare_preroll dev self spec calls).calls := by
  unfold gst_wasapi_sink_prepare_preroll
  dsimp only
  split_ifs <;> exact sink_beach_unprepare _ _ _ _

theorem sink_tail_unprepare (dev : PrepareDevice) (self : GstWasapiSink)
    (spec : GstAudioRingBufferSpec) (bpf rate : Nat) (hr : HRESULT) (device_period : Int)
    (calls : List WasapiCall) :
    (gst_wasapi_sink_prepare_tail dev self spec bpf rate hr device_period calls).outcome
        = Outcome.returned false →
      WasapiCall.Unprepare ∈
        (gst_wasapi_sink_prepare_tail dev self spec bpf rate hr device_period calls).calls := by
  unfold gst_wasapi_sink_prepare_tail
  dsimp only
  split_ifs
  · exact sink_beach_unprepare _ _ _ _
  · exact sink_beach_unprepare _ _ _ _
  · intro h; cases h
  · exact sink_beach_unprepare _ _ _ _
  · exact sink_beach_unprepare _ _ _ _
  · exact sink_beach_unprepare _ _ _ _
  · exact sink_preroll_unprepare _ _ _ _

theorem src_beach_unprepare (res : Bool) (self : GstWasapiSrc) (spec : GstAudioRingBufferSpec)
    (calls : List WasapiCall) :
    (gst_wasapi_src_prepare_beach res self spec calls).outcome = Outcome.returned false →
      WasapiCall.Unprepare ∈ (gst_wasapi_src_prepare_beach res self spec calls).calls := by
  cases res <;> simp [gst_wasapi_src_prepare_beach]

theorem src_clients_unprepare (dev : PrepareDevice) (self : GstWasapiSrc)
    (spec : GstAudioRingBufferSpec) (calls : List WasapiCall) :
    (gst_wasapi_src_prepare_clients dev self spec calls).outcome = Outcome.returned false →
      WasapiCall.Unprepare ∈ (gst_wasapi_src_prepare_clients dev self spec calls).calls := by
  unfold gst_wasapi_src_prepare_clients
  split_ifs <;> exact src_beach_unprepare _ _ _ _

theorem src_tail_unprepare (dev : PrepareDevice) (self : GstWasapiSrc)
    (spec : GstAudioRingBufferSpec) (bpf rate : Nat) (hr : HRESULT) (device_period : Int)
    (calls : List WasapiCall) :
    (gst_wasapi_src_prepare_tail dev self spec bpf rate hr device_period calls).outcome
        = Outcome.returned false →
      WasapiCall.Unprepare ∈
        (gst_wasapi_src_prepare_tail dev self spec bpf rate hr device_period calls).calls := by
  unfold gst_wasapi_src_prepare_tail
  dsimp only
  split_ifs
  · exact src_beach_unprepare _ _ _ _
  · exact src_beach_unprepare _ _ _ _
  · intro h; cases h
  · exact src_clients_unprepare _ _ _ _

/-- C5 (amended): once `IAudioClient_GetDevicePeriod` has succeeded, every
FALSE return of `gst_wasapi_sink_prepare` has called
`gst_wasapi_sink_unprepare` during that prepare call, whichever later step
failed, and the same holds for `gst_wasapi_src_prepare` and
`gst_wasapi_src_unprepare`. -/
theorem prepare_failure_calls_unprepare (dev : PrepareDevice) (sink : GstWasapiSink)
    (src : GstWasapiSrc) (spec : GstAudioRingBufferSpec)
    (hperiod : dev.getDevicePeriod.1 = HRESULT.S_OK) :
    ((gst_wasapi_sink_prepare dev sink spec).outcome = Outcome.returned false →
        WasapiCall.Unprepare ∈ (gst_wasapi_sink_prepare dev sink spec).calls)
      ∧ ((gst_wasapi_src_prepare dev src spec).outcome = Outcome.returned false →
        WasapiCall.Unprepare ∈ (gst_wasapi_src_prepare dev src spec).calls) := by
  constructor
  · unfold gst_wasapi_sink_prepare
    dsimp only
    rw [if_neg (not_not.mpr hperiod)]
    split_ifs
    · exact sink_beach_unprepare _ _ _ _
    · intro h; cases h
    · exact sink_tail_unprepare _ _ _ _ _ _ _ _
    · exact sink_tail_unprepare _ _ _ _ _ _ _ _
  · unfold gst_wasapi_src_prepare
    dsimp only
    rw [if_neg (not_not.mpr hperiod)]
    split_ifs
    · exact src_beach_unprepare _ _ _ _
    · intro h; cases h
    · exact src_tail_unprepare _ _ _ _ _ _ _ _
    · exact src_tail_unprepare _ _ _ _ _ _ _ _

/-- C5 (witness): a device that refuses `IAudioClient_Initialize`. -/
theorem prepare_failure_calls_unprepare_witness :
    WasapiCall.Unprepare ∈ (gst_wasapi_sink_prepare noInitDevice sharedSink stereoSpec).calls
      ∧ WasapiCall.Unprepare ∈ (gst_wasapi_src_prepare noInitDevice sharedSrc stereoSpec).calls :=
  ⟨(prepare_failure_calls_unprepare noInitDevice sharedSink sharedSrc stereoSpec (by decide)).1
      (by decide),
    (prepare_failure_calls_unprepare noInitDevice sharedSink sharedSrc stereoSpec (by decide)).2
      (by decide)⟩


/-! ### Periodicity passed to `IAudioClient_Initialize` -/

theorem sink_unprepare_no_init (self : GstWasapiSink) (c : WasapiCall)
    (hc : c ∈ (gst_wasapi_sink_unprepare self).2) : c.isClientInit = false := by
  unfold gst_wasapi_sink_unprepare at hc
  simp only [List.mem_append] at hc
  rcases hc with (hc | hc) | hc <;> split_ifs at hc <;> simp at hc <;> subst hc <;> rfl

theorem sink_beach_init (res : Bool) (self : GstWasapiSink) (spec : GstAudioRingBufferSpec)
    (calls : List WasapiCall) (c : WasapiCall)
    (hc : c ∈ (gst_wasapi_sink_prepare_beach res self spec calls).calls)
    (hi : c.isClientInit = true) : c ∈ calls := by
  unfold gst_wasapi_sink_prepare_beach at hc
  cases res
  · simp only [Bool.false_eq_true, if_false, List.mem_append, List.mem_cons] at hc
    rcases hc with hc | hc | hc
    · exact hc
    · subst hc; cases hi
    · rw [sink_unprepare_no_init self c hc] at hi; cases hi
  · simpa using hc

theorem mem_append_init (calls extra : List WasapiCall) (c : WasapiCall)
    (hextra : ∀ x ∈ extra, x.isClientInit = false)
    (hc : c ∈ calls ++ extra) (hi : c.isClientInit = true) : c ∈ calls := by
  rcases List.mem_append.mp hc with h | h
  · exact h
  · rw [hextra c h] at hi; cases hi

theorem sink_preroll_init (dev : PrepareDevice) (self : GstWasapiSink)
    (spec : GstAudioRingBufferSpec) (calls : List WasapiCall) (c : WasapiCall)
    (hc : c ∈ (gst_wasapi_sink_prepare_preroll dev self spec calls).calls)
    (hi : c.isClientInit = true) : c ∈ calls := by
  unfold gst_wasapi_sink_prepare_preroll at hc
  dsimp only at hc
  have hpad : c ∈ calls ++ gst_wasapi_sink_get_can_frames_calls self → c ∈ calls := by
    intro h
    refine mem_append_init _ _ c ?_ h hi
    intro x hx
    unfold gst_wasapi_sink_get_can_frames_calls at hx
    split_ifs at hx <;> simp at hx
    subst hx; rfl
  split_ifs at hc
  · exact hpad (sink_beach_init _ _ _ _ c hc hi)
  · exact hpad (mem_append_init _ _ c (by simp [WasapiCall.isClientInit])
      (sink_beach_init _ _ _ _ c hc hi) hi)
  · exact hpad (mem_append_init _ _ c (by simp [WasapiCall.isClientInit])
      (sink_beach_init _ _ _ _ c hc hi) hi)
  · exact hpad (mem_append_init _ _ c (by simp [WasapiCall.isClientInit])
      (sink_beach_init _ _ _ _ c hc hi) hi)
  · exact hpad (mem_append_init _ _ c (by simp [WasapiCall.isClientInit])
      (sink_beach_init _ _ _ _ c hc hi) hi)

theorem sink_tail_init (dev : PrepareDevice) (self : GstWasapiSink)
    (spec : GstAudioRingBufferSpec) (bpf rate : Nat) (hr : HRESULT) (device_period : Int)
    (calls : List WasapiCall) (c : WasapiCall)
    (hc : c ∈ (gst_wasapi_sink_prepare_tail dev self spec bpf rate hr device_period calls).calls)
    (hi : c.isClientInit = true) : c ∈ calls := by
  unfold gst_wasapi_sink_prepare_tail at hc
  dsimp only at hc
  split_ifs at hc
  · exact sink_beach_init _ _ _ _ c hc hi
  · exact mem_append_init _ _ c (by simp [WasapiCall.isClientInit])
      (sink_beach_init _ _ _ _ c hc hi) hi
  · exact mem_append_init _ _ c (by simp [WasapiCall.isClientInit]) hc hi
  · exact mem_append_init _ _ c (by simp [WasapiCall.isClientInit])
      (sink_beach_init _ _ _ _ c hc hi) hi
  · exact mem_append_init _ _ c (by simp [WasapiCall.isClientInit])
      (mem_append_init _ _ c (by simp [WasapiCall.isClientInit])
        (sink_beach_init _ _ _ _ c hc hi) hi) hi
  · exact mem_append_init _ _ c (by simp [WasapiCall.isClientInit])
      (mem_append_init _ _ c (by simp [WasapiCall.isClientInit])
        (sink_beach_init _ _ _ _ c hc hi) hi) hi
  · exact mem_append_init _ _ c (by simp [WasapiCall.isClientInit])
      (mem_append_init _ _ c (by simp [WasapiCall.isClientInit])
        (sink_preroll_init _ _ _ _ c hc hi) hi) hi


theorem src_unprepare_no_init (self : GstWasapiSrc) (c : WasapiCall)
    (hc : c ∈ (gst_wasapi_src_unprepare self).2) : c.isClientInit = false := by
  unfold gst_wasapi_src_unprepare at hc
  simp only [List.mem_append] at hc
  rcases hc with ((hc | hc) | hc) | hc <;> split_ifs at hc <;> simp at hc <;> subst hc <;> rfl

theorem src_beach_init (res : Bool) (self : GstWasapiSrc) (spec : GstAudioRingBufferSpec)
    (calls : List WasapiCall) (c : WasapiCall)
    (hc : c ∈ (gst_wasapi_src_prepare_beach res self spec calls).calls)
    (hi : c.isClientInit = true) : c ∈ calls := by
  unfold gst_wasapi_src_prepare_beach at hc
  cases res
  · simp only [Bool.false_eq_true, if_false, List.mem_append, List.mem_cons] at hc
    rcases hc with hc | hc | hc
    · exact hc
    · subst hc; cases hi
    · rw [src_unprepare_no_init self c hc] at hi; cases hi
  · simpa using hc

theorem src_clients_init (dev : PrepareDevice) (self : GstWasapiSrc)
    (spec : GstAudioRingBufferSpec) (calls : List WasapiCall) (c : WasapiCall)
    (hc : c ∈ (gst_wasapi_src_prepare_clients dev self spec calls).calls)
    (hi : c.isClientInit = true) : c ∈ calls := by
  unfold gst_wasapi_src_prepare_clients at hc
  split_ifs at hc <;>
    exact mem_append_init _ _ c (by simp [WasapiCall.isClientInit])
      (src_beach_init _ _ _ _ c hc hi) hi

theorem src_tail_init (dev : PrepareDevice) (self : GstWasapiSrc)
    (spec : GstAudioRingBufferSpec) (bpf rate : Nat) (hr : HRESULT) (device_period : Int)
    (calls : List WasapiCall) (c : WasapiCall)
    (hc : c ∈ (gst_wasapi_src_prepare_tail dev self spec bpf rate hr device_period calls).calls)
    (hi : c.isClientInit = true) : c ∈ calls := by
  unfold gst_wasapi_src_prepare_tail at hc
  dsimp only at hc
  split_ifs at hc
  · exact src_beach_init _ _ _ _ c hc hi
  · exact mem_append_init _ _ c (by simp [WasapiCall.isClientInit])
      (src_beach_init _ _ _ _ c hc hi) hi
  · exact mem_append_init _ _ c (by simp [WasapiCall.isClientInit]) hc hi
  · exact mem_append_init _ _ c (by simp [WasapiCall.isClientInit])
      (src_clients_init _ _ _ _ c hc hi) hi

theorem first_calls_init (sharemode sm : AUDCLNT_SHAREMODE) (device_period dbd bd per : Int)
    (hc : WasapiCall.ClientInit sm bd per ∈ wasapi_first_calls sharemode device_period dbd) :
    sm = sharemode ∧ (sm = AUDCLNT_SHAREMODE.SHARED → per = 0) := by
  unfold wasapi_first_calls at hc
  simp only [List.mem_cons, List.mem_append, List.mem_singleton, reduceCtorEq, false_or,
    List.mem_nil_iff, or_false] at hc
  rcases hc with hc | hc
  · split_ifs at hc <;> simp at hc
  · injection hc with h1 h2 h3
    subst h1
    refine ⟨rfl, fun hs => ?_⟩
    rw [h3, if_pos hs]

theorem retry_calls_init (sharemode sm : AUDCLNT_SHAREMODE) (calls : List WasapiCall)
    (p bd per : Int) (hex : sharemode = AUDCLNT_SHAREMODE.EXCLUSIVE)
    (hcalls : WasapiCall.ClientInit sm bd per ∈ calls →
      sm = sharemode ∧ (sm = AUDCLNT_SHAREMODE.SHARED → per = 0))
    (hc : WasapiCall.ClientInit sm bd per ∈
      calls ++ [WasapiCall.GetBufferSize, WasapiCall.ClientInit sharemode p p]) :
    sm = sharemode ∧ (sm = AUDCLNT_SHAREMODE.SHARED → per = 0) := by
  simp only [List.mem_cons, List.mem_append, List.mem_singleton, reduceCtorEq, false_or,
    List.mem_nil_iff, or_false] at hc
  rcases hc with hc | hc
  · exact hcalls hc
  · injection hc with h1 h2 h3
    subst h1
    refine ⟨rfl, fun hs => ?_⟩
    rw [hex] at hs
    cases hs

theorem sink_prepare_init (dev : PrepareDevice) (self : GstWasapiSink)
    (spec : GstAudioRingBufferSpec) (sm : AUDCLNT_SHAREMODE) (bd per : Int)
    (hc : WasapiCall.ClientInit sm bd per ∈ (gst_wasapi_sink_prepare dev self spec).calls) :
    sm = self.sharemode ∧ (sm = AUDCLNT_SHAREMODE.SHARED → per = 0) := by
  unfold gst_wasapi_sink_prepare at hc
  dsimp only at hc
  split_ifs at hc with h0 h1 h2 h3
  · simp at hc
  · exact first_calls_init _ _ _ _ _ _
      (mem_append_init _ _ _ (by simp [WasapiCall.isClientInit])
        (sink_beach_init _ _ _ _ _ hc rfl) rfl)
  · exact first_calls_init _ _ _ _ _ _
      (mem_append_init _ _ _ (by simp [WasapiCall.isClientInit]) hc rfl)
  · exact retry_calls_init _ _ _ _ _ _ h1.2 (first_calls_init _ _ _ _ _ _)
      (sink_tail_init _ _ _ _ _ _ _ _ _ hc rfl)
  · exact first_calls_init _ _ _ _ _ _ (sink_tail_init _ _ _ _ _ _ _ _ _ hc rfl)

theorem src_prepare_init (dev : PrepareDevice) (self : GstWasapiSrc)
    (spec : GstAudioRingBufferSpec) (sm : AUDCLNT_SHAREMODE) (bd per : Int)
    (hc : WasapiCall.ClientInit sm bd per ∈ (gst_wasapi_src_prepare dev self spec).calls) :
    sm = self.sharemode ∧ (sm = AUDCLNT_SHAREMODE.SHARED → per = 0) := by
  unfold gst_wasapi_src_prepare at hc
  dsimp only at hc
  split_ifs at hc with h0 h1 h2 h3
  · simp at hc
  · exact first_calls_init _ _ _ _ _ _
      (mem_append_init _ _ _ (by simp [WasapiCall.isClientInit])
        (src_beach_init _ _ _ _ _ hc rfl) rfl)
  · exact first_calls_init _ _ _ _ _ _
      (mem_append_init _ _ _ (by simp [WasapiCall.isClientInit]) hc rfl)
  · exact retry_calls_init _ _ _ _ _ _ h1.2 (first_calls_init _ _ _ _ _ _)
      (src_tail_init _ _ _ _ _ _ _ _ _ hc rfl)
  · exact first_calls_init _ _ _ _ _ _ (src_tail_init _ _ _ _ _ _ _ _ _ hc rfl)

/-- C7: every `IAudioClient_Initialize` call issued by `gst_wasapi_sink_prepare`
and by `gst_wasapi_src_prepare` carries the share mode of the element; in
shared mode its periodicity is 0, and a non-zero periodicity is passed only in
`AUDCLNT_SHAREMODE_EXCLUSIVE`.  This covers the first call and the retry after
`AUDCLNT_E_BUFFER_SIZE_NOT_ALIGNED`, on every path of prepare. -/
theorem initialize_periodicity_zero_in_shared_mode (dev : PrepareDevice) (sink : GstWasapiSink)
    (src : GstWasapiSrc) (spec : GstAudioRingBufferSpec) (sm : AUDCLNT_SHAREMODE)
    (bd per : Int) :
    (WasapiCall.ClientInit sm bd per ∈ (gst_wasapi_sink_prepare dev sink spec).calls →
        sm = sink.sharemode ∧ (sm = AUDCLNT_SHAREMODE.SHARED → per = 0)
          ∧ (per ≠ 0 → sm = AUDCLNT_SHAREMODE.EXCLUSIVE))
      ∧ (WasapiCall.ClientInit sm bd per ∈ (gst_wasapi_src_prepare dev src spec).calls →
        sm = src.sharemode ∧ (sm = AUDCLNT_SHAREMODE.SHARED → per = 0)
          ∧ (per ≠ 0 → sm = AUDCLNT_SHAREMODE.EXCLUSIVE)) := by
  constructor
  · intro hc
    obtain ⟨h1, h2⟩ := sink_prepare_init dev sink spec sm bd per hc
    refine ⟨h1, h2, fun hper => ?_⟩
    cases sm
    · exact absurd (h2 rfl) hper
    · rfl
  · intro hc
    obtain ⟨h1, h2⟩ := src_prepare_init dev src spec sm bd per hc
    refine ⟨h1, h2, fun hper => ?_⟩
    cases sm
    · exact absurd (h2 rfl) hper
    · rfl

/-- C7 (witness): a device that accepts every call, a sink and a source in
shared mode; the Initialize call in the log has periodicity 0. -/
theorem initialize_periodicity_zero_in_shared_mode_witness :
    (AUDCLNT_SHAREMODE.SHARED = sharedSink.sharemode
        ∧ (AUDCLNT_SHAREMODE.SHARED = AUDCLNT_SHAREMODE.SHARED → (0 : Int) = 0)
        ∧ ((0 : Int) ≠ 0 → AUDCLNT_SHAREMODE.SHARED = AUDCLNT_SHAREMODE.EXCLUSIVE))
      ∧ (AUDCLNT_SHAREMODE.SHARED = sharedSrc.sharemode
        ∧ (AUDCLNT_SHAREMODE.SHARED = AUDCLNT_SHAREMODE.SHARED → (0 : Int) = 0)
        ∧ ((0 : Int) ≠ 0 → AUDCLNT_SHAREMODE.SHARED = AUDCLNT_SHAREMODE.EXCLUSIVE)) :=
  ⟨(initialize_periodicity_zero_in_shared_mode plainDevice sharedSink sharedSrc stereoSpec
      AUDCLNT_SHAREMODE.SHARED 100000 0).1 (by decide),
    (initialize_periodicity_zero_in_shared_mode plainDevice sharedSink sharedSrc stereoSpec
      AUDCLNT_SHAREMODE.SHARED 100000 0).2 (by decide)⟩


/-! ### The segment count -/

theorem sink_beach_spec (res : Bool) (self : GstWasapiSink) (spec : GstAudioRingBufferSpec)
    (calls : List WasapiCall) :
    (gst_wasapi_sink_prepare_beach res self spec calls).spec = spec
      ∧ (gst_wasapi_sink_prepare_beach res self spec calls).self.buffer_frame_count
          = self.buffer_frame_count := by
  cases res <;> simp [gst_wasapi_sink_prepare_beach, gst_wasapi_sink_unprepare]

theorem sink_unprepare_no_latency (self : GstWasapiSink) :
    WasapiCall.GetStreamLatency ∉ (gst_wasapi_sink_unprepare self).2 := by
  unfold gst_wasapi_sink_unprepare
  simp only [List.mem_append, not_or]
  refine ⟨⟨?_, ?_⟩, ?_⟩ <;> split_ifs <;> simp

theorem sink_beach_latency (res : Bool) (self : GstWasapiSink) (spec : GstAudioRingBufferSpec)
    (calls : List WasapiCall)
    (hc : WasapiCall.GetStreamLatency ∈ (gst_wasapi_sink_prepare_beach res self spec calls).calls) :
    WasapiCall.GetStreamLatency ∈ calls := by
  unfold gst_wasapi_sink_prepare_beach at hc
  cases res
  · simp only [Bool.false_eq_true, if_false, List.mem_append, List.mem_cons, reduceCtorEq,
      false_or] at hc
    rcases hc with hc | hc
    · exact hc
    · exact absurd hc (sink_unprepare_no_latency self)
  · simpa using hc

theorem sink_preroll_spec (dev : PrepareDevice) (self : GstWasapiSink)
    (spec : GstAudioRingBufferSpec) (calls : List WasapiCall) :
    (gst_wasapi_sink_prepare_preroll dev self spec calls).spec = spec
      ∧ (gst_wasapi_sink_prepare_preroll dev self spec calls).self.buffer_frame_count
          = self.buffer_frame_count := by
  unfold gst_wasapi_sink_prepare_preroll
  dsimp only
  split_ifs <;> exact sink_beach_spec _ _ _ _

theorem sink_tail_segments (dev : PrepareDevice) (self : GstWasapiSink)
    (spec : GstAudioRingBufferSpec) (bpf rate : Nat) (hr : HRESULT) (device_period : Int)
    (calls : List WasapiCall) (hno : WasapiCall.GetStreamLatency ∉ calls)
    (hc : WasapiCall.GetStreamLatency ∈
      (gst_wasapi_sink_prepare_tail dev self spec bpf rate hr device_period calls).calls) :
    (gst_wasapi_sink_prepare_tail dev self spec bpf rate hr device_period calls).spec.segsize ≠ 0
      ∧ (gst_wasapi_sink_prepare_tail dev self spec bpf rate hr device_period calls).spec.segtotal
        = wasapi_segtotal
            (gst_wasapi_sink_prepare_tail dev self spec bpf rate hr device_period
              calls).self.buffer_frame_count bpf
            (gst_wasapi_sink_prepare_tail dev self spec bpf rate hr device_period
              calls).spec.segsize := by
  unfold gst_wasapi_sink_prepare_tail at hc ⊢
  dsimp only at hc ⊢
  split_ifs at hc ⊢ with h1 h2 h3 h4 h5 h6
  · exact absurd (sink_beach_latency _ _ _ _ hc) hno
  · have := sink_beach_latency _ _ _ _ hc
    simp at this
    exact absurd this hno
  · simp at hc
    exact absurd hc hno
  · rw [(sink_beach_spec _ _ _ _).1, (sink_beach_spec _ _ _ _).2]
    dsimp only
    exact ⟨h3, rfl⟩
  · rw [(sink_beach_spec _ _ _ _).1, (sink_beach_spec _ _ _ _).2]
    dsimp only
    exact ⟨h3, rfl⟩
  · rw [(sink_beach_spec _ _ _ _).1, (sink_beach_spec _ _ _ _).2]
    dsimp only
    exact ⟨h3, rfl⟩
  · rw [(sink_preroll_spec _ _ _ _).1, (sink_preroll_spec _ _ _ _).2]
    dsimp only
    exact ⟨h3, rfl⟩

theorem first_calls_no_latency (sharemode : AUDCLNT_SHAREMODE) (device_period dbd : Int) :
    WasapiCall.GetStreamLatency ∉ wasapi_first_calls sharemode device_period dbd := by
  unfold wasapi_first_calls
  split_ifs <;> simp

theorem sink_prepare_segments (dev : PrepareDevice) (self : GstWasapiSink)
    (spec : GstAudioRingBufferSpec)
    (hc : WasapiCall.GetStreamLatency ∈ (gst_wasapi_sink_prepare dev self spec).calls) :
    (gst_wasapi_sink_prepare dev self spec).spec.segsize ≠ 0
      ∧ (gst_wasapi_sink_prepare dev self spec).spec.segtotal
        = wasapi_segtotal (gst_wasapi_sink_prepare dev self spec).self.buffer_frame_count
            (toGuint spec.info_bpf) (gst_wasapi_sink_prepare dev self spec).spec.segsize := by
  unfold gst_wasapi_sink_prepare at hc ⊢
  dsimp only at hc ⊢
  split_ifs at hc ⊢ with h0 h1 h2 h3
  · simp at hc
  · have := sink_beach_latency _ _ _ _ hc
    simp only [List.mem_append, List.mem_singleton, reduceCtorEq, or_false] at this
    exact absurd this (first_calls_no_latency _ _ _)
  · simp only [List.mem_append, List.mem_singleton, reduceCtorEq, or_false] at hc
    exact absurd hc (first_calls_no_latency _ _ _)
  · refine sink_tail_segments _ _ _ _ _ _ _ _ ?_ hc
    simp only [List.mem_append, List.mem_cons, reduceCtorEq, List.mem_nil_iff, or_false,
      false_or]
    exact first_calls_no_latency _ _ _
  · exact sink_tail_segments _ _ _ _ _ _ _ _ (first_calls_no_latency _ _ _) hc


theorem src_beach_spec (res : Bool) (self : GstWasapiSrc) (spec : GstAudioRingBufferSpec)
    (calls : List WasapiCall) :
    (gst_wasapi_src_prepare_beach res self spec calls).spec = spec
      ∧ (gst_wasapi_src_prepare_beach res self spec calls).self.buffer_frame_count
          = self.buffer_frame_count := by
  cases res <;> simp [gst_wasapi_src_prepare_beach, gst_wasapi_src_unprepare]

theorem src_unprepare_no_latency (self : GstWasapiSrc) :
    WasapiCall.GetStreamLatency ∉ (gst_wasapi_src_unprepare self).2 := by
  unfold gst_wasapi_src_unprepare
  simp only [List.mem_append, not_or]
  refine ⟨⟨⟨?_, ?_⟩, ?_⟩, ?_⟩ <;> split_ifs <;> simp

theorem src_beach_latency (res : Bool) (self : GstWasapiSrc) (spec : GstAudioRingBufferSpec)
    (calls : List WasapiCall)
    (hc : WasapiCall.GetStreamLatency ∈ (gst_wasapi_src_prepare_beach res self spec calls).calls) :
    WasapiCall.GetStreamLatency ∈ calls := by
  unfold gst_wasapi_src_prepare_beach at hc
  cases res
  · simp only [Bool.false_eq_true, if_false, List.mem_append, List.mem_cons, reduceCtorEq,
      false_or] at hc
    rcases hc with hc | hc
    · exact hc
    · exact absurd hc (src_unprepare_no_latency self)
  · simpa using hc

theorem src_clients_spec (dev : PrepareDevice) (self : GstWasapiSrc)
    (spec : GstAudioRingBufferSpec) (calls : List WasapiCall) :
    (gst_wasapi_src_prepare_clients dev self spec calls).spec = spec
      ∧ (gst_wasapi_src_prepare_clients dev self spec calls).self.buffer_frame_count
          = self.buffer_frame_count := by
  unfold gst_wasapi_src_prepare_clients
  split_ifs <;> exact src_beach_spec _ _ _ _

theorem src_tail_segments (dev : PrepareDevice) (self : GstWasapiSrc)
    (spec : GstAudioRingBufferSpec) (bpf rate : Nat) (hr : HRESULT) (device_period : Int)
    (calls : List WasapiCall) (hno : WasapiCall.GetStreamLatency ∉ calls)
    (hc : WasapiCall.GetStreamLatency ∈
      (gst_wasapi_src_prepare_tail dev self spec bpf rate hr device_period calls).calls) :
    (gst_wasapi_src_prepare_tail dev self spec bpf rate hr device_period calls).spec.segsize ≠ 0
      ∧ (gst_wasapi_src_prepare_tail dev self spec bpf rate hr device_period calls).spec.segtotal
        = wasapi_segtotal
            (gst_wasapi_src_prepare_tail dev self spec bpf rate hr device_period
              calls).self.buffer_frame_count bpf
            (gst_wasapi_src_prepare_tail dev self spec bpf rate hr device_period
              calls).spec.segsize := by
  unfold gst_wasapi_src_prepare_tail at hc ⊢
  dsimp only at hc ⊢
  split_ifs at hc ⊢ with h1 h2 h3
  · exact absurd (src_beach_latency _ _ _ _ hc) hno
  · have := src_beach_latency _ _ _ _ hc
    simp at this
    exact absurd this hno
  · simp at hc
    exact absurd hc hno
  · rw [(src_clients_spec _ _ _ _).1, (src_clients_spec _ _ _ _).2]
    dsimp only
    exact ⟨h3, rfl⟩

theorem src_prepare_segments (dev : PrepareDevice) (self : GstWasapiSrc)
    (spec : GstAudioRingBufferSpec)
    (hc : WasapiCall.GetStreamLatency ∈ (gst_wasapi_src_prepare dev self spec).calls) :
    (gst_wasapi_src_prepare dev self spec).spec.segsize ≠ 0
      ∧ (gst_wasapi_src_prepare dev self spec).spec.segtotal
        = wasapi_segtotal (gst_wasapi_src_prepare dev self spec).self.buffer_frame_count
            (toGuint spec.info_bpf) (gst_wasapi_src_prepare dev self spec).spec.segsize := by
  unfold gst_wasapi_src_prepare at hc ⊢
  dsimp only at hc ⊢
  split_ifs at hc ⊢ with h0 h1 h2 h3
  · simp at hc
  · have := src_beach_latency _ _ _ _ hc
    simp only [List.mem_append, List.mem_singleton, reduceCtorEq, or_false] at this
    exact absurd this (first_calls_no_latency _ _ _)
  · simp only [List.mem_append, List.mem_singleton, reduceCtorEq, or_false] at hc
    exact absurd hc (first_calls_no_latency _ _ _)
  · refine src_tail_segments _ _ _ _ _ _ _ _ ?_ hc
    simp only [List.mem_append, List.mem_cons, reduceCtorEq, List.mem_nil_iff, or_false,
      false_or]
    exact first_calls_no_latency _ _ _
  · exact src_tail_segments _ _ _ _ _ _ _ _ (first_calls_no_latency _ _ _) hc

theorem segment_quotient_lt (bfc bpf : Nat) (segsize : Int) :
    wasapi_segment_quotient bfc bpf segsize < 4294967296 := by
  unfold wasapi_segment_quotient
  exact lt_of_le_of_lt (Nat.div_le_self _ _) (toGuint_lt _)

theorem segtotal_value (bfc bpf : Nat) (segsize : Int) :
    toGuint (wasapi_segtotal bfc bpf segsize) = max (wasapi_segment_quotient bfc bpf segsize) 2
      ∧ (wasapi_segment_quotient bfc bpf segsize < 2147483648 →
          2 ≤ wasapi_segtotal bfc bpf segsize
            ∧ (2 ≤ wasapi_segment_quotient bfc bpf segsize →
                wasapi_segtotal bfc bpf segsize
                  = (wasapi_segment_quotient bfc bpf segsize : Int))) := by
  have hq := segment_quotient_lt bfc bpf segsize
  unfold wasapi_segtotal wasapi_segtotal_expr
  generalize wasapi_segment_quotient bfc bpf segsize = q at hq ⊢
  rw [toGuint_toGint, toGuint_natCast]
  refine ⟨?_, fun hlt => ?_⟩
  · rcases le_total q 2 with h | h
    · rw [max_eq_right h]
    · rw [max_eq_left h]; omega
  · rw [toGint_of_lt _ (by rcases le_total q 2 with h | h
                           · rw [max_eq_right h]; omega
                           · rw [max_eq_left h]; exact hlt)]
    refine ⟨?_, fun h2 => ?_⟩
    · exact_mod_cast le_max_right q 2
    · rw [max_eq_left h2]

/-- C6 (counterexample): the sink is prepared on a device that reports a
buffer of `2^31` one-byte frames and segments of one byte.  The segment
computation is reached with `segsize = 1`, the quotient
`buffer_frame_count * bpf / segsize` is `2^31`, and the `gint` field
`spec->segtotal` holds `-2^31`: it is below 2 and differs from the quotient. -/
theorem segtotal_wraps_negative :
    WasapiCall.GetStreamLatency ∈ (gst_wasapi_sink_prepare hugeDevice sharedSink monoByteSpec).calls
      ∧ (gst_wasapi_sink_prepare hugeDevice sharedSink monoByteSpec).spec.segsize = 1
      ∧ wasapi_segment_quotient
          (gst_wasapi_sink_prepare hugeDevice sharedSink monoByteSpec).self.buffer_frame_count
          (toGuint monoByteSpec.info_bpf) 1 = 2147483648
      ∧ (gst_wasapi_sink_prepare hugeDevice sharedSink monoByteSpec).spec.segtotal = -2147483648
      ∧ ¬ (2 ≤ (gst_wasapi_sink_prepare hugeDevice sharedSink monoByteSpec).spec.segtotal) := by
  refine ⟨?_, ?_, ?_, ?_, ?_⟩ <;> decide

/-- C6 (amended): on every run of `gst_wasapi_sink_prepare` and of
`gst_wasapi_src_prepare` that gets past the segment computation (the next
call, `IAudioClient_GetStreamLatency`, is in the log), `segsize` is non-zero
and `spec->segtotal`, read as an unsigned 32-bit number, is the larger of 2
and the quotient `self->buffer_frame_count * bpf / segsize` (unsigned
division).  Whenever the quotient is below `2^31`, the signed field
`spec->segtotal` is at least 2 and equals the quotient if that is 2 or more. -/
theorem segtotal_at_least_two (dev : PrepareDevice) (sink : GstWasapiSink) (src : GstWasapiSrc)
    (spec : GstAudioRingBufferSpec) :
    (WasapiCall.GetStreamLatency ∈ (gst_wasapi_sink_prepare dev sink spec).calls →
        (gst_wasapi_sink_prepare dev sink spec).spec.segsize ≠ 0
          ∧ toGuint (gst_wasapi_sink_prepare dev sink spec).spec.segtotal
              = max (wasapi_segment_quotient
                  (gst_wasapi_sink_prepare dev sink spec).self.buffer_frame_count
                  (toGuint spec.info_bpf) (gst_wasapi_sink_prepare dev sink spec).spec.segsize) 2
          ∧ (wasapi_segment_quotient
                (gst_wasapi_sink_prepare dev sink spec).self.buffer_frame_count
                (toGuint spec.info_bpf) (gst_wasapi_sink_prepare dev sink spec).spec.segsize
                < 2147483648 →
              2 ≤ (gst_wasapi_sink_prepare dev sink spec).spec.segtotal
                ∧ (2 ≤ wasapi_segment_quotient
                      (gst_wasapi_sink_prepare dev sink spec).self.buffer_frame_count
                      (toGuint spec.info_bpf)
                      (gst_wasapi_sink_prepare dev sink spec).spec.segsize →
                    (gst_wasapi_sink_prepare dev sink spec).spec.segtotal
                      = (wasapi_segment_quotient
                          (gst_wasapi_sink_prepare dev sink spec).self.buffer_frame_count
                          (toGuint spec.info_bpf)
                          (gst_wasapi_sink_prepare dev sink spec).spec.segsize : Int))))
      ∧ (WasapiCall.GetStreamLatency ∈ (gst_wasapi_src_prepare dev src spec).calls →
        (gst_wasapi_src_prepare dev src spec).spec.segsize ≠ 0
          ∧ toGuint (gst_wasapi_src_prepare dev src spec).spec.segtotal
              = max (wasapi_segment_quotient
                  (gst_wasapi_src_prepare dev src spec).self.buffer_frame_count
                  (toGuint spec.info_bpf) (gst_wasapi_src_prepare dev src spec).spec.segsize) 2
          ∧ (wasapi_segment_quotient
                (gst_wasapi_src_prepare dev src spec).self.buffer_frame_count
                (toGuint spec.info_bpf) (gst_wasapi_src_prepare dev src spec).spec.segsize
                < 2147483648 →
              2 ≤ (gst_wasapi_src_prepare dev src spec).spec.segtotal
                ∧ (2 ≤ wasapi_segment_quotient
                      (gst_wasapi_src_prepare dev src spec).self.buffer_frame_count
                      (toGuint spec.info_bpf)
                      (gst_wasapi_src_prepare dev src spec).spec.segsize →
                    (gst_wasapi_src_prepare dev src spec).spec.segtotal
                      = (wasapi_segment_quotient
                          (gst_wasapi_src_prepare dev src spec).self.buffer_frame_count
                          (toGuint spec.info_bpf)
                          (gst_wasapi_src_prepare dev src spec).spec.segsize : Int)))) := by
  constructor
  · intro hc
    obtain ⟨h1, h2⟩ := sink_prepare_segments dev sink spec hc
    refine ⟨h1, ?_⟩
    rw [h2]
    exact segtotal_value _ _ _
  · intro hc
    obtain ⟨h1, h2⟩ := src_prepare_segments dev src spec hc
    refine ⟨h1, ?_⟩
    rw [h2]
    exact segtotal_value _ _ _

/-- C6 (witness): a device with 480 frames of buffer and segments of 1920
bytes; sink and source both get past the segment computation. -/
theorem segtotal_at_least_two_witness :
    (2 ≤ (gst_wasapi_sink_prepare plainDevice sharedSink stereoSpec).spec.segtotal)
      ∧ (2 ≤ (gst_wasapi_src_prepare plainDevice sharedSrc stereoSpec).spec.segtotal) :=
  ⟨(((segtotal_at_least_two plainDevice sharedSink sharedSrc stereoSpec).1
      (by decide)).2.2 (by decide)).1,
    (((segtotal_at_least_two plainDevice sharedSink sharedSrc stereoSpec).2
      (by decide)).2.2 (by decide)).1⟩


/-! ### MSDK buffer pool -/

theorem kept_allocator_msdk (env : MsdkEnv) (a : GstAllocator)
    (h : a.mem_type = some env.GST_MSDK_SYSTEM_MEMORY_NAME
      ∨ a.mem_type = some env.GST_MSDK_VIDEO_MEMORY_NAME) :
    msdk_kept_allocator env (some a) = some a := by
  unfold msdk_kept_allocator
  simp only
  rw [if_neg]
  rintro ⟨h1, h2⟩
  rcases h with h | h
  · exact h1 h
  · exact h2 h

theorem kept_allocator_foreign (env : MsdkEnv) (a : GstAllocator)
    (h1 : a.mem_type ≠ some env.GST_MSDK_SYSTEM_MEMORY_NAME)
    (h2 : a.mem_type ≠ some env.GST_MSDK_VIDEO_MEMORY_NAME) :
    msdk_kept_allocator env (some a) = none := by
  unfold msdk_kept_allocator
  simp only
  rw [if_pos ⟨h1, h2⟩]

theorem set_config_kept (env : MsdkEnv) (config : GstBufferPoolConfig) (caps : String)
    (size mn mx : Nat) (info : GstVideoInfo) (entry : Option GstAllocator)
    (p : GstAllocationParams) (a : GstAllocator)
    (hparams : config.params = some (some caps, size, mn, mx))
    (hinfo : env.video_info_from_caps caps = some info)
    (halloc : config.allocator = some (entry, p))
    (hkept : msdk_kept_allocator env entry = some a) :
    gst_msdk_buffer_pool_set_config env config
      = { ret := env.parent_set_config (msdk_pool_aligned_config env config info),
          config := msdk_pool_aligned_config env config info,
          parent_called := some (msdk_pool_aligned_config env config info) } := by
  unfold gst_msdk_buffer_pool_set_config
  simp only [hparams, hinfo, halloc, hkept]

theorem set_config_created (env : MsdkEnv) (config : GstBufferPoolConfig) (caps : String)
    (size mn mx : Nat) (info : GstVideoInfo) (entry : Option GstAllocator)
    (p : GstAllocationParams) (created : GstAllocator)
    (hparams : config.params = some (some caps, size, mn, mx))
    (hinfo : env.video_info_from_caps caps = some info)
    (halloc : config.allocator = some (entry, p))
    (hkept : msdk_kept_allocator env entry = none)
    (hnew : env.system_allocator_new (msdk_pool_video_info env config info) = some created) :
    gst_msdk_buffer_pool_set_config env config
      = { ret := env.parent_set_config (gst_buffer_pool_config_set_allocator
            (msdk_pool_aligned_config env config info) created
            { flags := 0, align := 31, prefix_bytes := 0, padding := 0 }),
          config := gst_buffer_pool_config_set_allocator
            (msdk_pool_aligned_config env config info) created
            { flags := 0, align := 31, prefix_bytes := 0, padding := 0 },
          parent_called := some (gst_buffer_pool_config_set_allocator
            (msdk_pool_aligned_config env config info) created
            { flags := 0, align := 31, prefix_bytes := 0, padding := 0 }) } := by
  unfold gst_msdk_buffer_pool_set_config
  simp only [hparams, hinfo, halloc, hkept, hnew]

theorem set_config_not_created (env : MsdkEnv) (config : GstBufferPoolConfig) (caps : String)
    (size mn mx : Nat) (info : GstVideoInfo) (entry : Option GstAllocator)
    (p : GstAllocationParams)
    (hparams : config.params = some (some caps, size, mn, mx))
    (hinfo : env.video_info_from_caps caps = some info)
    (halloc : config.allocator = some (entry, p))
    (hkept : msdk_kept_allocator env entry = none)
    (hnew : env.system_allocator_new (msdk_pool_video_info env config info) = none) :
    gst_msdk_buffer_pool_set_config env config
      = { ret := false, config := msdk_pool_aligned_config env config info,
          parent_called := none } := by
  unfold gst_msdk_buffer_pool_set_config
  simp only [hparams, hinfo, halloc, hkept, hnew]

theorem aligned_config_allocator (env : MsdkEnv) (config : GstBufferPoolConfig)
    (info : GstVideoInfo) :
    (msdk_pool_aligned_config env config info).allocator = config.allocator := by
  unfold msdk_pool_aligned_config
  split_ifs <;> rfl


theorem aligned_config_set_allocator (env : MsdkEnv) (config : GstBufferPoolConfig)
    (info : GstVideoInfo) (x : Option (Option GstAllocator × GstAllocationParams))
    (created : GstAllocator) (q : GstAllocationParams) :
    gst_buffer_pool_config_set_allocator
        (msdk_pool_aligned_config env { config with allocator := x } info) created q
      = gst_buffer_pool_config_set_allocator (msdk_pool_aligned_config env config info)
          created q := by
  unfold gst_buffer_pool_config_set_allocator msdk_pool_aligned_config msdk_wants_alignment
  dsimp only
  split_ifs <;> rfl

theorem set_config_ignores_foreign (env : MsdkEnv) (config : GstBufferPoolConfig) (caps : String)
    (size mn mx : Nat) (info : GstVideoInfo) (a : GstAllocator) (p : GstAllocationParams)
    (hparams : config.params = some (some caps, size, mn, mx))
    (hinfo : env.video_info_from_caps caps = some info)
    (halloc : config.allocator = some (some a, p))
    (h1 : a.mem_type ≠ some env.GST_MSDK_SYSTEM_MEMORY_NAME)
    (h2 : a.mem_type ≠ some env.GST_MSDK_VIDEO_MEMORY_NAME) :
    (gst_msdk_buffer_pool_set_config env config).ret
        = (gst_msdk_buffer_pool_set_config env { config with allocator := some (none, p) }).ret
      ∧ (gst_msdk_buffer_pool_set_config env config).parent_called
        = (gst_msdk_buffer_pool_set_config env
            { config with allocator := some (none, p) }).parent_called := by
  have hk := kept_allocator_foreign env a h1 h2
  have hk0 : msdk_kept_allocator env none = none := rfl
  have hinfo0 : msdk_pool_video_info env { config with allocator := some (none, p) } info
      = msdk_pool_video_info env config info := rfl
  rcases hnew : env.system_allocator_new (msdk_pool_video_info env config info) with _ | created
  · rw [set_config_not_created env config caps size mn mx info (some a) p hparams hinfo halloc
        hk hnew,
      set_config_not_created env { config with allocator := some (none, p) } caps size mn mx
        info none p hparams hinfo rfl hk0 (hinfo0 ▸ hnew)]
    exact ⟨rfl, rfl⟩
  · rw [set_config_created env config caps size mn mx info (some a) p created hparams hinfo
        halloc hk hnew,
      set_config_created env { config with allocator := some (none, p) } caps size mn mx
        info none p created hparams hinfo rfl hk0 (hinfo0 ▸ hnew)]
    have hset := aligned_config_set_allocator env config info (some (none, p)) created
      { flags := 0, align := 31, prefix_bytes := 0, padding := 0 }
    rw [hset]
    exact ⟨rfl, rfl⟩

/-- C8: `gst_msdk_buffer_pool_set_config` on a config whose params can be read,
whose caps are valid video caps and whose allocator entry can be read.
(1) An allocator whose `mem_type` is the MSDK system memory name or the MSDK
video memory name is kept: the parent `set_config` gets the config with that
allocator and its params.  (2) Any other allocator is ignored exactly as if
none had been supplied: return value and the config handed to the parent are
those of the same config with a NULL allocator.  (3) In both of those cases
a new MSDK system allocator is built from the video info of the caps (aligned
first if the config asks for video alignment), and the parent `set_config` is
called on the config in which that allocator is stored with params
`{flags 0, align 31, prefix 0, padding 0}`.  (4) If that allocator cannot be
built, the parent is not called and the result is FALSE. -/
theorem set_config_allocator_choice (env : MsdkEnv) (config : GstBufferPoolConfig)
    (caps : String) (size mn mx : Nat) (info : GstVideoInfo) (entry : Option GstAllocator)
    (p : GstAllocationParams)
    (hparams : config.params = some (some caps, size, mn, mx))
    (hinfo : env.video_info_from_caps caps = some info)
    (halloc : config.allocator = some (entry, p)) :
    (∀ a, entry = some a →
        (a.mem_type = some env.GST_MSDK_SYSTEM_MEMORY_NAME
          ∨ a.mem_type = some env.GST_MSDK_VIDEO_MEMORY_NAME) →
        (gst_msdk_buffer_pool_set_config env config).parent_called
            = some (msdk_pool_aligned_config env config info)
          ∧ (msdk_pool_aligned_config env config info).allocator = some (some a, p)
          ∧ (gst_msdk_buffer_pool_set_config env config).ret
            = env.parent_set_config (msdk_pool_aligned_config env config info))
      ∧ (∀ a, entry = some a →
        a.mem_type ≠ some env.GST_MSDK_SYSTEM_MEMORY_NAME →
        a.mem_type ≠ some env.GST_MSDK_VIDEO_MEMORY_NAME →
        (gst_msdk_buffer_pool_set_config env config).ret
            = (gst_msdk_buffer_pool_set_config env
                { config with allocator := some (none, p) }).ret
          ∧ (gst_msdk_buffer_pool_set_config env config).parent_called
            = (gst_msdk_buffer_pool_set_config env
                { config with allocator := some (none, p) }).parent_called)
      ∧ (∀ created,
        (entry = none ∨ ∃ a, entry = some a
          ∧ a.mem_type ≠ some env.GST_MSDK_SYSTEM_MEMORY_NAME
          ∧ a.mem_type ≠ some env.GST_MSDK_VIDEO_MEMORY_NAME) →
        env.system_allocator_new (msdk_pool_video_info env config info) = some created →
        (gst_msdk_buffer_pool_set_config env config).parent_called
            = some (gst_buffer_pool_config_set_allocator
                (msdk_pool_aligned_config env config info) created
                { flags := 0, align := 31, prefix_bytes := 0, padding := 0 })
          ∧ (gst_buffer_pool_config_set_allocator
                (msdk_pool_aligned_config env config info) created
                { flags := 0, align := 31, prefix_bytes := 0, padding := 0 }).allocator
            = some (some created, { flags := 0, align := 31, prefix_bytes := 0, padding := 0 })
          ∧ (gst_msdk_buffer_pool_set_config env config).ret
            = env.parent_set_config (gst_buffer_pool_config_set_allocator
                (msdk_pool_aligned_config env config info) created
                { flags := 0, align := 31, prefix_bytes := 0, padding := 0 }))
      ∧ ((entry = none ∨ ∃ a, entry = some a
          ∧ a.mem_type ≠ some env.GST_MSDK_SYSTEM_MEMORY_NAME
          ∧ a.mem_type ≠ some env.GST_MSDK_VIDEO_MEMORY_NAME) →
        env.system_allocator_new (msdk_pool_video_info env config info) = none →
        (gst_msdk_buffer_pool_set_config env config).parent_called = none
          ∧ (gst_msdk_buffer_pool_set_config env config).ret = false) := by
  refine ⟨?_, ?_, ?_, ?_⟩
  · intro a ha hm
    subst ha
    rw [set_config_kept env config caps size mn mx info (some a) p a hparams hinfo halloc
      (kept_allocator_msdk env a hm), aligned_config_allocator, halloc]
    exact ⟨rfl, rfl, rfl⟩
  · intro a ha h1 h2
    subst ha
    exact set_config_ignores_foreign env config caps size mn mx info a p hparams hinfo halloc
      h1 h2
  · intro created hentry hnew
    have hk : msdk_kept_allocator env entry = none := by
      rcases hentry with h | ⟨a, h, h1, h2⟩
      · subst h; rfl
      · subst h; exact kept_allocator_foreign env a h1 h2
    rw [set_config_created env config caps size mn mx info entry p created hparams hinfo halloc
      hk hnew]
    exact ⟨rfl, rfl, rfl⟩
  · intro hentry hnew
    have hk : msdk_kept_allocator env entry = none := by
      rcases hentry with h | ⟨a, h, h1, h2⟩
      · subst h; rfl
      · subst h; exact kept_allocator_foreign env a h1 h2
    rw [set_config_not_created env config caps size mn mx info entry p hparams hinfo halloc
      hk hnew]
    exact ⟨rfl, rfl⟩

/-- C8 (witness): a config with valid caps and a non-MSDK allocator; the
parent gets the config with the newly created system allocator. -/
theorem set_config_allocator_choice_witness :
    (gst_msdk_buffer_pool_set_config msdkEnv foreignPoolConfig).parent_called
      = some (gst_buffer_pool_config_set_allocator
          (msdk_pool_aligned_config msdkEnv foreignPoolConfig
            { width := 320, height := 240, size := 115200 })
          { mem_type := some "GstMsdkSystemMemory", ident := 115200 }
          { flags := 0, align := 31, prefix_bytes := 0, padding := 0 }) :=
  ((set_config_allocator_choice msdkEnv foreignPoolConfig "video/x-raw" 115200 2 0
      { width := 320, height := 240, size := 115200 }
      (some { mem_type := some "SystemMemory", ident := 7 })
      { flags := 0, align := 15, prefix_bytes := 0, padding := 0 }
      rfl (by decide) rfl).2.2.1
    { mem_type := some "GstMsdkSystemMemory", ident := 115200 }
    (Or.inr ⟨{ mem_type := some "SystemMemory", ident := 7 }, rfl, by decide, by decide⟩)
    (by decide)).1


/-- C9: `gst_msdk_buffer_pool_set_config` does not call the parent class's
`set_config` exactly in these cases: the config parameters cannot be read, the
config has no caps, the caps are not valid video caps, the allocator entry
cannot be read, or no allocator was kept and a new MSDK system allocator cannot
be created.  Whenever the parent is not called the function returns FALSE, and
whenever it is called the function returns the parent's result. -/
theorem set_config_error_cases (env : MsdkEnv) (config : GstBufferPoolConfig) :
    ((gst_msdk_buffer_pool_set_config env config).parent_called = none ↔
        (config.params = none
          ∨ (∃ size mn mx, config.params = some (none, size, mn, mx))
          ∨ (∃ caps size mn mx, config.params = some (some caps, size, mn, mx)
              ∧ env.video_info_from_caps caps = none)
          ∨ config.allocator = none
          ∨ (∃ caps size mn mx info entry p,
              config.params = some (some caps, size, mn, mx)
                ∧ env.video_info_from_caps caps = some info
                ∧ config.allocator = some (entry, p)
                ∧ msdk_kept_allocator env entry = none
                ∧ env.system_allocator_new (msdk_pool_video_info env config info) = none)))
      ∧ ((gst_msdk_buffer_pool_set_config env config).parent_called = none →
          (gst_msdk_buffer_pool_set_config env config).ret = false)
      ∧ (∀ handed, (gst_msdk_buffer_pool_set_config env config).parent_called = some handed →
          (gst_msdk_buffer_pool_set_config env config).ret = env.parent_set_config handed) := by
  rcases hparams : config.params with _ | ⟨_ | caps, size, mn, mx⟩
  · have h : gst_msdk_buffer_pool_set_config env config
        = { ret := false, config := config, parent_called := none } := by
      unfold gst_msdk_buffer_pool_set_config; simp only [hparams]
    rw [h]
    simp
  · have h : gst_msdk_buffer_pool_set_config env config
        = { ret := false, config := config, parent_called := none } := by
      unfold gst_msdk_buffer_pool_set_config; simp only [hparams]
    rw [h]
    simp
  · rcases hinfo : env.video_info_from_caps caps with _ | info
    · have h : gst_msdk_buffer_pool_set_config env config
          = { ret := false, config := config, parent_called := none } := by
        unfold gst_msdk_buffer_pool_set_config; simp only [hparams, hinfo]
      rw [h]
      simp [hinfo]
    · rcases halloc : config.allocator with _ | ⟨entry, p⟩
      · have h : gst_msdk_buffer_pool_set_config env config
            = { ret := false, config := config, parent_called := none } := by
          unfold gst_msdk_buffer_pool_set_config; simp only [hparams, hinfo, halloc]
        rw [h]
        simp
      · rcases hkept : msdk_kept_allocator env entry with _ | a
        · rcases hnew : env.system_allocator_new (msdk_pool_video_info env config info)
            with _ | created
          · rw [set_config_not_created env config caps size mn mx info entry p hparams hinfo
              halloc hkept hnew]
            simp [hinfo, hkept, hnew]
          · rw [set_config_created env config caps size mn mx info entry p created hparams
              hinfo halloc hkept hnew]
            simp [hinfo, hkept, hnew]
        · rw [set_config_kept env config caps size mn mx info entry p a hparams hinfo halloc
            hkept]
          simp [hinfo, hkept]

/-- C9 (witness): valid caps, no allocator in the config, and the MSDK system
allocator cannot be created: the call returns FALSE. -/
theorem set_config_error_cases_witness :
    (gst_msdk_buffer_pool_set_config msdkEnvNoAllocator plainPoolConfig).ret = false :=
  (set_config_error_cases msdkEnvNoAllocator plainPoolConfig).2.1 (by decide)


/-! ### UVC H.264 source: pipeline construction -/

theorem construct_error_fields (self : GstUvcH264Src) (p : Option PipelineType) :
    (construct_pipeline_error self p).outcome = Outcome.returned false
      ∧ (construct_pipeline_error self p).self.reconfiguring = false
      ∧ (construct_pipeline_error self p).self.v4l2_src = none
      ∧ (construct_pipeline_error self p).self.mjpg_demux = none
      ∧ (construct_pipeline_error self p).self.jpeg_dec = none
      ∧ (construct_pipeline_error self p).self.vid_colorspace = none
      ∧ (construct_pipeline_error self p).self.vf_colorspace = none
      ∧ (construct_pipeline_error self p).ptype = p :=
  ⟨rfl, rfl, rfl, rfl, rfl, rfl, rfl, rfl⟩

theorem classify_not_h264 (self : GstUvcH264Src) (vf vid : GstStructure)
    (hh264 : vid.name ≠ "video/x-h264") :
    construct_pipeline_classify self (some vf) (some vid)
      = if vid.name = "image/jpeg" ∧ vf.name = "image/jpeg" then
          Classified.typed self PipelineType.ENCODED_ENCODED
        else if vid.name ≠ "image/jpeg" ∧ vf.name ≠ "image/jpeg" then
          Classified.typed self PipelineType.RAW_RAW
        else Classified.error_remove self := by
  unfold construct_pipeline_classify
  simp only [hh264, ne_eq, not_false_eq_true, if_true]

theorem negotiated_both (env : PipelineEnv) (self : GstUvcH264Src) (vf vid : GstStructure)
    (hstarted : self.started = true)
    (hvfp : env.vf_peer_caps = true) (hvidp : env.vid_peer_caps = true)
    (hvf : env.vf_fixated = some vf) (hvid : env.vid_fixated = some vid) :
    construct_pipeline_negotiated env self
      = match construct_pipeline_classify self (some vf) (some vid) with
        | Classified.undefined s => { outcome := Outcome.undefined, self := s, ptype := none }
        | Classified.error_remove s => construct_pipeline_error s none
        | Classified.typed s t =>
          construct_pipeline_after_switch env (construct_pipeline_build env s t) t := by
  unfold construct_pipeline_negotiated
  simp [hstarted, hvfp, hvidp, hvf, hvid]


theorem construct_error_remove_all_ptype (self : GstUvcH264Src) (p : Option PipelineType) :
    (construct_pipeline_error_remove_all self p).ptype = p := rfl

theorem construct_finish_ptype (env : PipelineEnv) (self : GstUvcH264Src) (t : PipelineType) :
    (construct_pipeline_finish env self t).ptype = some t := by
  unfold construct_pipeline_finish
  split_ifs <;> rfl

theorem construct_after_build_ptype (env : PipelineEnv) (b : Built) (t : PipelineType) :
    (construct_pipeline_after_switch env b t).ptype = some t := by
  cases b
  · exact construct_finish_ptype env _ t
  · rfl
  · rfl

/-- C3: both pads have negotiated caps and the video caps are not
`video/x-h264`.  If exactly one of the two caps is `image/jpeg`,
`gst_uvc_h264_src_construct_pipeline` returns FALSE, and on that return
`reconfiguring` is FALSE and `v4l2_src`, `mjpg_demux`, `jpeg_dec`,
`vid_colorspace` and `vf_colorspace` are all NULL.  The only pipeline types
it assigns are `ENCODED_ENCODED`, when both caps are JPEG, and `RAW_RAW`, when
neither is. -/
theorem mixed_jpeg_raw_caps_rejected (env : PipelineEnv) (self : GstUvcH264Src)
    (vf vid : GstStructure)
    (hstarted : self.started = true)
    (hvfp : env.vf_peer_caps = true) (hvidp : env.vid_peer_caps = true)
    (hvf : env.vf_fixated = some vf) (hvid : env.vid_fixated = some vid)
    (hh264 : vid.name ≠ "video/x-h264") :
    (((vid.name = "image/jpeg" ∧ vf.name ≠ "image/jpeg")
        ∨ (vid.name ≠ "image/jpeg" ∧ vf.name = "image/jpeg")) →
      (gst_uvc_h264_src_construct_pipeline env self).outcome = Outcome.returned false
        ∧ (gst_uvc_h264_src_construct_pipeline env self).self.reconfiguring = false
        ∧ (gst_uvc_h264_src_construct_pipeline env self).self.v4l2_src = none
        ∧ (gst_uvc_h264_src_construct_pipeline env self).self.mjpg_demux = none
        ∧ (gst_uvc_h264_src_construct_pipeline env self).self.jpeg_dec = none
        ∧ (gst_uvc_h264_src_construct_pipeline env self).self.vid_colorspace = none
        ∧ (gst_uvc_h264_src_construct_pipeline env self).self.vf_colorspace = none)
      ∧ (∀ t, (gst_uvc_h264_src_construct_pipeline env self).ptype = some t →
          (t = PipelineType.ENCODED_ENCODED ∧ vid.name = "image/jpeg" ∧ vf.name = "image/jpeg")
            ∨ (t = PipelineType.RAW_RAW ∧ vid.name ≠ "image/jpeg" ∧ vf.name ≠ "image/jpeg")) := by
  have hst : (gst_uvc_h264_src_destroy_pipeline
      (construct_pipeline_with_v4l2src self)).started = true := hstarted
  constructor
  · intro hmixed
    have hfields : ∀ s p, (construct_pipeline_error s p).outcome = Outcome.returned false
        ∧ (construct_pipeline_error s p).self.reconfiguring = false
        ∧ (construct_pipeline_error s p).self.v4l2_src = none
        ∧ (construct_pipeline_error s p).self.mjpg_demux = none
        ∧ (construct_pipeline_error s p).self.jpeg_dec = none
        ∧ (construct_pipeline_error s p).self.vid_colorspace = none
        ∧ (construct_pipeline_error s p).self.vf_colorspace = none :=
      fun s p => ⟨rfl, rfl, rfl, rfl, rfl, rfl, rfl⟩
    unfold gst_uvc_h264_src_construct_pipeline
    split_ifs
    · exact hfields _ _
    · exact hfields _ _
    · exact hfields _ _
    · rw [negotiated_both env _ vf vid hst hvfp hvidp hvf hvid,
        classify_not_h264 _ vf vid hh264]
      have h1 : ¬ (vid.name = "image/jpeg" ∧ vf.name = "image/jpeg") := by
        rintro ⟨ha, hb⟩
        rcases hmixed with ⟨_, h⟩ | ⟨h, _⟩
        · exact h hb
        · exact h ha
      have h2 : ¬ (vid.name ≠ "image/jpeg" ∧ vf.name ≠ "image/jpeg") := by
        rintro ⟨ha, hb⟩
        rcases hmixed with ⟨h, _⟩ | ⟨_, h⟩
        · exact ha h
        · exact hb h
      rw [if_neg h1, if_neg h2]
      exact hfields _ _
  · intro t ht
    unfold gst_uvc_h264_src_construct_pipeline at ht
    split_ifs at ht
    · cases ht
    · cases ht
    · cases ht
    · rw [negotiated_both env _ vf vid hst hvfp hvidp hvf hvid,
        classify_not_h264 _ vf vid hh264] at ht
      split_ifs at ht with h1 h2
      · rw [construct_after_build_ptype] at ht
        injection ht with ht
        exact Or.inl ⟨ht.symm, h1.1, h1.2⟩
      · rw [construct_after_build_ptype] at ht
        injection ht with ht
        exact Or.inr ⟨ht.symm, h2.1, h2.2⟩
      · cases ht

/-- C3 (witness): raw caps on the video pad and JPEG caps on the viewfinder
pad. -/
theorem mixed_jpeg_raw_caps_rejected_witness :
    (gst_uvc_h264_src_construct_pipeline (pipelineEnv jpegCaps (rawCaps 640 480))
        startedSrc).outcome = Outcome.returned false
      ∧ (gst_uvc_h264_src_construct_pipeline (pipelineEnv jpegCaps (rawCaps 640 480))
        startedSrc).self.v4l2_src = none :=
  ⟨((mixed_jpeg_raw_caps_rejected (pipelineEnv jpegCaps (rawCaps 640 480)) startedSrc jpegCaps
      (rawCaps 640 480) rfl rfl rfl rfl rfl (by decide)).1 (Or.inr ⟨by decide, by decide⟩)).1,
    ((mixed_jpeg_raw_caps_rejected (pipelineEnv jpegCaps (rawCaps 640 480)) startedSrc jpegCaps
      (rawCaps 640 480) rfl rfl rfl rfl rfl (by decide)).1
        (Or.inr ⟨by decide, by decide⟩)).2.2.1⟩


theorem build_streams (env : PipelineEnv) (self : GstUvcH264Src) (t : PipelineType) :
    (construct_pipeline_build env self t).self.streams = self.streams := by
  cases t
  case NONE_NONE => rfl
  case ENCODED_NONE => rfl
  case NONE_ENCODED => rfl
  case RAW_NONE =>
    simp only [construct_pipeline_build]
    unfold construct_pipeline_build_raw_none
    dsimp only
    split_ifs <;> rfl
  case NONE_RAW =>
    simp only [construct_pipeline_build]
    unfold construct_pipeline_build_none_raw
    dsimp only
    split_ifs <;> rfl
  case H264_JPG =>
    simp only [construct_pipeline_build]
    unfold construct_pipeline_build_h264_jpg
    dsimp only
    split_ifs <;> rfl
  case H264_RAW =>
    simp only [construct_pipeline_build]
    unfold construct_pipeline_build_h264_raw
    dsimp only
    split_ifs <;> rfl
  case H264_JPG2RAW =>
    simp only [construct_pipeline_build]
    unfold construct_pipeline_build_h264_jpg2raw
    dsimp only
    split_ifs <;> rfl
  case RAW_RAW =>
    simp only [construct_pipeline_build]
    unfold construct_pipeline_build_raw_raw
    dsimp only
    split_ifs <;> rfl
  case ENCODED_ENCODED =>
    simp only [construct_pipeline_build]
    unfold construct_pipeline_build_encoded_encoded
    split_ifs <;> rfl

theorem construct_finish_streams (env : PipelineEnv) (self : GstUvcH264Src) (t : PipelineType) :
    (construct_pipeline_finish env self t).self.streams = self.streams := by
  unfold construct_pipeline_finish
  split_ifs <;> rfl

theorem construct_after_build_streams (env : PipelineEnv) (b : Built) (t : PipelineType) :
    (construct_pipeline_after_switch env b t).self.streams = b.self.streams := by
  cases b
  · exact construct_finish_streams env _ t
  · rfl
  · rfl

theorem extract_caps_info_value (st : GstStructure) (w h fn fd : Int)
    (hw : st.width = some w) (hh : st.height = some h) (hf : st.framerate = some (fn, fd))
    (hfn : fn ≠ 0) :
    _extract_caps_info st
      = some (some (toGuint16 w, toGuint16 h,
          toGuint (Int.tdiv (Int.tdiv (fd * GST_SECOND) fn) 100))) := by
  unfold _extract_caps_info
  simp only [hw, hh, hf, hfn, if_false]

theorem classify_h264_viewfinder (self : GstUvcH264Src) (vf vid : GstStructure)
    (hh264 : vid.name = "video/x-h264") :
    construct_pipeline_classify self (some vf) (some vid)
      = construct_pipeline_h264_with_viewfinder self vf vid := by
  unfold construct_pipeline_classify
  simp only [hh264, ne_eq, not_true_eq_false, if_false]


theorem h264_viewfinder_typed (self : GstUvcH264Src) (vf vid : GstStructure)
    (sw sh si mw mh mi : Nat)
    (hvf : _extract_caps_info vf = some (some (sw, sh, si)))
    (hvid : _extract_caps_info vid = some (some (mw, mh, mi))) :
    ∃ s, construct_pipeline_h264_with_viewfinder self vf vid
          = Classified.typed s
              (if vf.name = "image/jpeg" then PipelineType.H264_JPG
                else if sw > 432 ∨ sh > 240 then PipelineType.H264_JPG2RAW
                else PipelineType.H264_RAW)
      ∧ s.secondary_format
          = (if vf.name = "image/jpeg" then UvcH264SrcFormat.JPG
              else if sw > 432 ∨ sh > 240 then UvcH264SrcFormat.JPG
              else UvcH264SrcFormat.RAW)
      ∧ s.secondary_width = sw ∧ s.secondary_height = sh := by
  unfold construct_pipeline_h264_with_viewfinder
  simp only [hvf, hvid]
  split_ifs
  · exact ⟨_, rfl, rfl, rfl, rfl⟩
  · exact ⟨_, rfl, rfl, rfl, rfl⟩
  · exact ⟨_, rfl, rfl, rfl, rfl⟩

/-- C2 (counterexample): H.264 video caps on the video pad, every GStreamer
call succeeding.  (a) Raw viewfinder caps of width 65536 and height 100: the
width is stored through a `guint16` pointer as 0, so the pipeline type is
`H264_RAW` with secondary format RAW although the viewfinder width exceeds
432.  (b) Raw viewfinder caps of 320x240 whose framerate is present as 0/1:
`_extract_caps_info` divides by the numerator 0, and no pipeline type is
chosen. -/
theorem wide_viewfinder_classified_raw :
    ((rawCaps 65536 100).width = some 65536
      ∧ (gst_uvc_h264_src_construct_pipeline (pipelineEnv (rawCaps 65536 100) h264Caps)
          startedSrc).outcome = Outcome.returned true
      ∧ (gst_uvc_h264_src_construct_pipeline (pipelineEnv (rawCaps 65536 100) h264Caps)
          startedSrc).ptype = some PipelineType.H264_RAW
      ∧ (gst_uvc_h264_src_construct_pipeline (pipelineEnv (rawCaps 65536 100) h264Caps)
          startedSrc).self.secondary_format = UvcH264SrcFormat.RAW
      ∧ (gst_uvc_h264_src_construct_pipeline (pipelineEnv (rawCaps 65536 100) h264Caps)
          startedSrc).self.secondary_width = 0)
      ∧ (variableRateCaps.framerate = some (0, 1)
        ∧ (gst_uvc_h264_src_construct_pipeline (pipelineEnv variableRateCaps h264Caps)
            startedSrc).outcome = Outcome.undefined
        ∧ (gst_uvc_h264_src_construct_pipeline (pipelineEnv variableRateCaps h264Caps)
            startedSrc).ptype = none) := by
  refine ⟨⟨rfl, ?_, ?_, ?_, ?_⟩, ⟨rfl, ?_, ?_⟩⟩ <;> decide

/-- C2 (amended): both pads have negotiated caps, the video caps are
`video/x-h264`, width, height and framerate are present on both and both
framerate numerators are non-zero, and the v4l2 source could be set up.  Then
`gst_uvc_h264_src_construct_pipeline` stores the viewfinder width and height
reduced to 16 bits in `secondary_width` and `secondary_height`, and the
pipeline type is `H264_JPG` (secondary format JPG) if the viewfinder caps are
`image/jpeg`; otherwise it is `H264_JPG2RAW` (secondary format JPG) when the
stored width exceeds 432 or the stored height exceeds 240, and `H264_RAW`
(secondary format RAW) when the stored width is at most 432 and the stored
height at most 240.  For a viewfinder width and height between 0 and 65535
the stored values are the caps values, so there `H264_RAW` is chosen exactly
when width <= 432 and height <= 240. -/
theorem h264_viewfinder_pipeline_type (env : PipelineEnv) (self : GstUvcH264Src)
    (vf vid : GstStructure) (w h fn fd mw mh mfn mfd : Int)
    (hsrc : self.v4l2_src = none →
      gst_element_factory_make env PipelineElement.v4l2_src (some "v4l2src") ≠ none
        ∧ env.bin_add PipelineElement.v4l2_src = true)
    (hready : env.v4l2_ready = true)
    (hstarted : self.started = true)
    (hvfp : env.vf_peer_caps = true) (hvidp : env.vid_peer_caps = true)
    (hvf : env.vf_fixated = some vf) (hvid : env.vid_fixated = some vid)
    (hh264 : vid.name = "video/x-h264")
    (hw : vf.width = some w) (hh : vf.height = some h) (hf : vf.framerate = some (fn, fd))
    (hfn : fn ≠ 0)
    (hmw : vid.width = some mw) (hmh : vid.height = some mh)
    (hmf : vid.framerate = some (mfn, mfd)) (hmfn : mfn ≠ 0) :
    (gst_uvc_h264_src_construct_pipeline env self).self.secondary_width = toGuint16 w
      ∧ (gst_uvc_h264_src_construct_pipeline env self).self.secondary_height = toGuint16 h
      ∧ (gst_uvc_h264_src_construct_pipeline env self).ptype
          = some (if vf.name = "image/jpeg" then PipelineType.H264_JPG
              else if toGuint16 w > 432 ∨ toGuint16 h > 240 then PipelineType.H264_JPG2RAW
              else PipelineType.H264_RAW)
      ∧ (gst_uvc_h264_src_construct_pipeline env self).self.secondary_format
          = (if vf.name = "image/jpeg" then UvcH264SrcFormat.JPG
              else if toGuint16 w > 432 ∨ toGuint16 h > 240 then UvcH264SrcFormat.JPG
              else UvcH264SrcFormat.RAW)
      ∧ (0 ≤ w → w < 65536 → 0 ≤ h → h < 65536 → vf.name ≠ "image/jpeg" →
          ((gst_uvc_h264_src_construct_pipeline env self).ptype
              = some PipelineType.H264_RAW ↔ (w ≤ 432 ∧ h ≤ 240))
            ∧ ((gst_uvc_h264_src_construct_pipeline env self).ptype
              = some PipelineType.H264_JPG2RAW ↔ (w > 432 ∨ h > 240))) := by
  have hst : (gst_uvc_h264_src_destroy_pipeline
      (construct_pipeline_with_v4l2src self)).started = true := hstarted
  obtain ⟨s, hs, hfmt, hsw, hsh⟩ := h264_viewfinder_typed
    (gst_uvc_h264_src_destroy_pipeline (construct_pipeline_with_v4l2src self)) vf vid _ _ _ _ _ _
    (extract_caps_info_value vf w h fn fd hw hh hf hfn)
    (extract_caps_info_value vid mw mh mfn mfd hmw hmh hmf hmfn)
  have hrun : gst_uvc_h264_src_construct_pipeline env self
      = construct_pipeline_after_switch env
          (construct_pipeline_build env s
            (if vf.name = "image/jpeg" then PipelineType.H264_JPG
              else if toGuint16 w > 432 ∨ toGuint16 h > 240 then PipelineType.H264_JPG2RAW
              else PipelineType.H264_RAW))
          (if vf.name = "image/jpeg" then PipelineType.H264_JPG
            else if toGuint16 w > 432 ∨ toGuint16 h > 240 then PipelineType.H264_JPG2RAW
            else PipelineType.H264_RAW) := by
    unfold gst_uvc_h264_src_construct_pipeline
    rw [if_neg (fun hc => (hsrc hc.1).1 hc.2),
      if_neg (fun hc => by rw [(hsrc hc.1).2] at hc; exact Bool.noConfusion hc.2),
      if_neg (by rw [hready]; exact Bool.noConfusion),
      negotiated_both env _ vf vid hst hvfp hvidp hvf hvid,
      classify_h264_viewfinder _ vf vid hh264, hs]
  have hstreams : (gst_uvc_h264_src_construct_pipeline env self).self.streams = s.streams := by
    rw [hrun, construct_after_build_streams, build_streams]
  have hptype : (gst_uvc_h264_src_construct_pipeline env self).ptype
      = some (if vf.name = "image/jpeg" then PipelineType.H264_JPG
          else if toGuint16 w > 432 ∨ toGuint16 h > 240 then PipelineType.H264_JPG2RAW
          else PipelineType.H264_RAW) := by
    rw [hrun, construct_after_build_ptype]
  have hsf : (gst_uvc_h264_src_construct_pipeline env self).self.secondary_format
      = s.secondary_format := congrArg (fun x => x.2.1) hstreams
  have hsw2 : (gst_uvc_h264_src_construct_pipeline env self).self.secondary_width
      = s.secondary_width := congrArg (fun x => x.2.2.1) hstreams
  have hsh2 : (gst_uvc_h264_src_construct_pipeline env self).self.secondary_height
      = s.secondary_height := congrArg (fun x => x.2.2.2.1) hstreams
  refine ⟨hsw2.trans hsw, hsh2.trans hsh, hptype, hsf.trans hfmt, ?_⟩
  intro hw0 hw1 hh0 hh1 hjpeg
  have e1 : toGuint16 w = w.toNat := by unfold toGuint16; congr 1; omega
  have e2 : toGuint16 h = h.toNat := by unfold toGuint16; congr 1; omega
  rw [hptype, if_neg hjpeg, e1, e2]
  constructor
  · constructor
    · intro hp
      split_ifs at hp with hc
      · cases hp
      · omega
    · intro hc
      rw [if_neg (by omega)]
  · constructor
    · intro hp
      split_ifs at hp with hc
      · omega
      · cases hp
    · intro hc
      rw [if_pos (by omega)]

/-- C2 (witness): H.264 video caps and raw 320x240 viewfinder caps give
`H264_RAW`. -/
theorem h264_viewfinder_pipeline_type_witness :
    (gst_uvc_h264_src_construct_pipeline (pipelineEnv (rawCaps 320 240) h264Caps)
        startedSrc).ptype = some PipelineType.H264_RAW :=
  ((h264_viewfinder_pipeline_type (pipelineEnv (rawCaps 320 240) h264Caps) startedSrc
      (rawCaps 320 240) h264Caps 320 240 30 1 1280 720 30 1
      (fun _ => ⟨by decide, rfl⟩) rfl rfl rfl rfl rfl rfl rfl rfl rfl rfl (by decide)
      rfl rfl rfl (by decide)).2.2.2.2
    (by decide) (by decide) (by decide) (by decide) (by decide)).1.mpr ⟨by decide, by decide⟩


/-! ### UVC H.264 source: properties -/

theorem toGuint_of_le (n : Nat) (h : n ≤ 4294967295) : toGuint (n : Int) = n := by
  unfold toGuint; omega

theorem toGuint16_of_le (n : Nat) (h : n ≤ 65535) : toGuint16 (n : Int) = n := by
  unfold toGuint16; omega

theorem toGuint8_of_le (n : Nat) (h : n ≤ 255) : toGuint8 (n : Int) = n := by
  unfold toGuint8; omega

theorem toGuint16_cast (z : Int) (h0 : 0 ≤ z) (h1 : z < 65536) : ((toGuint16 z : Nat) : Int) = z := by
  unfold toGuint16; omega

theorem toGuint8_cast (z : Int) (h0 : 0 ≤ z) (h1 : z < 256) : ((toGuint8 z : Nat) : Int) = z := by
  unfold toGuint8; omega

theorem static_probe_closed (hdr : UvcH264Header) (env : PropertyEnv) (self : GstUvcH264Src)
    (prop : PropId) (hfd : self.v4l2_fd = -1) (hstatic : prop.isStaticControl = true) :
    gst_uvc_h264_src_get_property_probe hdr env self prop
      = fill_probe_commit hdr self env.probe0 0 0 0 0 := by
  unfold gst_uvc_h264_src_get_property_probe
  rw [if_pos hstatic, if_neg (not_not.mpr hfd)]

theorem set_property_keeps_fd (self : GstUvcH264Src) (prop : PropId) (value : GValue) :
    (gst_uvc_h264_src_set_property self prop value).v4l2_fd = self.v4l2_fd := by
  cases prop <;> rfl

/-- C4: while no device is open (`v4l2_fd == -1`), setting one of the static
controls initial-bitrate, slice-units, slice-mode, iframe-period, usage-type,
entropy, enable-sei, num-reorder-frames or preview-flipped to a value inside
its declared range with `gst_uvc_h264_src_set_property` and then reading it
with `gst_uvc_h264_src_get_property` returns that same value.  The constants
of `uvc_h264.h` are parameters: the registered values of the three
enumerations fit the probe fields they are copied to (16 bits for the slice
mode, 8 bits for usage type and entropy), and the SEI and flip flags are
distinct bytes. -/
theorem static_control_roundtrip (hdr : UvcH264Header) (env : PropertyEnv)
    (self : GstUvcH264Src) (prop : PropId) (value : GValue)
    (hfd : self.v4l2_fd = -1)
    (hstatic : prop.isStaticControl = true)
    (hrange : g_param_value_in_range (gst_uvc_h264_src_class_init hdr prop) value = true)
    (hslice : ∀ v ∈ hdr.slicemode_values, 0 ≤ v ∧ v < 65536)
    (husage : ∀ v ∈ hdr.usagetype_values, 0 ≤ v ∧ v < 256)
    (hentropy : ∀ v ∈ hdr.entropy_values, 0 ≤ v ∧ v < 256)
    (hsei : 0 ≤ hdr.UVC_H264_TIMESTAMP_SEI_ENABLE ∧ hdr.UVC_H264_TIMESTAMP_SEI_ENABLE < 256
      ∧ hdr.UVC_H264_TIMESTAMP_SEI_DISABLE % 256 ≠ hdr.UVC_H264_TIMESTAMP_SEI_ENABLE)
    (hflip : 0 ≤ hdr.UVC_H264_PREFLIPPED_HORIZONTAL ∧ hdr.UVC_H264_PREFLIPPED_HORIZONTAL < 256
      ∧ hdr.UVC_H264_PREFLIPPED_DISABLE % 256 ≠ hdr.UVC_H264_PREFLIPPED_HORIZONTAL) :
    gst_uvc_h264_src_get_property hdr env (gst_uvc_h264_src_set_property self prop value) prop
      = value := by
  have hprobe : ∀ s : GstUvcH264Src, s.v4l2_fd = -1 →
      gst_uvc_h264_src_get_property_probe hdr env s prop
        = fill_probe_commit hdr s env.probe0 0 0 0 0 :=
    fun s hs => static_probe_closed hdr env s prop hs hstatic
  cases prop
  case PROP_COLORSPACE_NAME => cases hstatic
  case PROP_JPEG_DECODER_NAME => cases hstatic
  case PROP_NUM_BUFFERS => cases hstatic
  case PROP_DEVICE => cases hstatic
  case PROP_DEVICE_NAME => cases hstatic
  case PROP_INITIAL_BITRATE =>
    cases value <;>
      try (simp [gst_uvc_h264_src_class_init, g_param_spec_uint, g_param_value_in_range]
        at hrange; done)
    rename_i n
    simp only [gst_uvc_h264_src_class_init, g_param_spec_uint, g_param_value_in_range,
      Bool.and_eq_true, decide_eq_true_eq] at hrange
    have hn : n ≤ 4294967295 := hrange.2
    simp only [gst_uvc_h264_src_get_property]
    rw [hprobe _ (hfd ▸ set_property_keeps_fd self _ _)]
    simp only [fill_probe_commit, gst_uvc_h264_src_set_property, g_value_get_uint]
    rw [toGuint_of_le n hn]
  case PROP_SLICE_UNITS =>
    cases value <;>
      try (simp [gst_uvc_h264_src_class_init, g_param_spec_uint, g_param_value_in_range]
        at hrange; done)
    rename_i n
    simp only [gst_uvc_h264_src_class_init, g_param_spec_uint, g_param_value_in_range,
      Bool.and_eq_true, decide_eq_true_eq] at hrange
    have hn : n ≤ 65535 := hrange.2
    simp only [gst_uvc_h264_src_get_property]
    rw [hprobe _ (hfd ▸ set_property_keeps_fd self _ _)]
    simp only [fill_probe_commit, gst_uvc_h264_src_set_property, g_value_get_uint]
    rw [toGuint16_of_le n hn]
  case PROP_SLICE_MODE =>
    cases value <;>
      try (simp [gst_uvc_h264_src_class_init, g_param_spec_uint, g_param_value_in_range]
        at hrange; done)
    rename_i z
    replace hrange : z ∈ hdr.slicemode_values := by
      simpa [gst_uvc_h264_src_class_init, g_param_value_in_range] using hrange
    simp only [gst_uvc_h264_src_get_property]
    rw [hprobe _ (hfd ▸ set_property_keeps_fd self _ _)]
    simp only [fill_probe_commit, gst_uvc_h264_src_set_property, g_value_get_enum]
    rw [toGuint16_cast z (hslice z hrange).1 (hslice z hrange).2]
  case PROP_IFRAME_PERIOD =>
    cases value <;>
      try (simp [gst_uvc_h264_src_class_init, g_param_spec_uint, g_param_value_in_range]
        at hrange; done)
    rename_i n
    simp only [gst_uvc_h264_src_class_init, g_param_spec_uint, g_param_value_in_range,
      Bool.and_eq_true, decide_eq_true_eq] at hrange
    have hn : n ≤ 65535 := hrange.2
    simp only [gst_uvc_h264_src_get_property]
    rw [hprobe _ (hfd ▸ set_property_keeps_fd self _ _)]
    simp only [fill_probe_commit, gst_uvc_h264_src_set_property, g_value_get_uint]
    rw [toGuint16_of_le n hn]
  case PROP_USAGE_TYPE =>
    cases value <;>
      try (simp [gst_uvc_h264_src_class_init, g_param_spec_uint, g_param_value_in_range]
        at hrange; done)
    rename_i z
    replace hrange : z ∈ hdr.usagetype_values := by
      simpa [gst_uvc_h264_src_class_init, g_param_value_in_range] using hrange
    simp only [gst_uvc_h264_src_get_property]
    rw [hprobe _ (hfd ▸ set_property_keeps_fd self _ _)]
    simp only [fill_probe_commit, gst_uvc_h264_src_set_property, g_value_get_enum]
    rw [toGuint8_cast z (husage z hrange).1 (husage z hrange).2]
  case PROP_ENTROPY =>
    cases value <;>
      try (simp [gst_uvc_h264_src_class_init, g_param_spec_uint, g_param_value_in_range]
        at hrange; done)
    rename_i z
    replace hrange : z ∈ hdr.entropy_values := by
      simpa [gst_uvc_h264_src_class_init, g_param_value_in_range] using hrange
    simp only [gst_uvc_h264_src_get_property]
    rw [hprobe _ (hfd ▸ set_property_keeps_fd self _ _)]
    simp only [fill_probe_commit, gst_uvc_h264_src_set_property, g_value_get_enum]
    rw [toGuint8_cast z (hentropy z hrange).1 (hentropy z hrange).2]
  case PROP_ENABLE_SEI =>
    cases value <;>
      try (simp [gst_uvc_h264_src_class_init, g_param_spec_uint, g_param_value_in_range]
        at hrange; done)
    rename_i b
    simp only [gst_uvc_h264_src_get_property]
    rw [hprobe _ (hfd ▸ set_property_keeps_fd self _ _)]
    simp only [fill_probe_commit, gst_uvc_h264_src_set_property, g_value_get_boolean]
    cases b
    · have : ((toGuint8 hdr.UVC_H264_TIMESTAMP_SEI_DISABLE : Nat) : Int)
          ≠ hdr.UVC_H264_TIMESTAMP_SEI_ENABLE := by
        unfold toGuint8; omega
      simp [this]
    · rw [if_pos rfl, toGuint8_cast _ hsei.1 hsei.2.1]
      simp
  case PROP_NUM_REORDER_FRAMES =>
    cases value <;>
      try (simp [gst_uvc_h264_src_class_init, g_param_spec_uint, g_param_value_in_range]
        at hrange; done)
    rename_i n
    simp only [gst_uvc_h264_src_class_init, g_param_spec_uint, g_param_value_in_range,
      Bool.and_eq_true, decide_eq_true_eq] at hrange
    have hn : n ≤ 255 := hrange.2
    simp only [gst_uvc_h264_src_get_property]
    rw [hprobe _ (hfd ▸ set_property_keeps_fd self _ _)]
    simp only [fill_probe_commit, gst_uvc_h264_src_set_property, g_value_get_uint]
    rw [toGuint8_of_le n hn]
  case PROP_PREVIEW_FLIPPED =>
    cases value <;>
      try (simp [gst_uvc_h264_src_class_init, g_param_spec_uint, g_param_value_in_range]
        at hrange; done)
    rename_i b
    simp only [gst_uvc_h264_src_get_property]
    rw [hprobe _ (hfd ▸ set_property_keeps_fd self _ _)]
    simp only [fill_probe_commit, gst_uvc_h264_src_set_property, g_value_get_boolean]
    cases b
    · have : ((toGuint8 hdr.UVC_H264_PREFLIPPED_DISABLE : Nat) : Int)
          ≠ hdr.UVC_H264_PREFLIPPED_HORIZONTAL := by
        unfold toGuint8; omega
      simp [this]
    · rw [if_pos rfl, toGuint8_cast _ hflip.1 hflip.2.1]
      simp


/-- C4 (witness): slice-units set to 7 on a freshly initialised element and
read back. -/
theorem static_control_roundtrip_witness :
    gst_uvc_h264_src_get_property sampleHeader zeroProbeEnv
        (gst_uvc_h264_src_set_property (gst_uvc_h264_src_init sampleHeader)
          PropId.PROP_SLICE_UNITS (GValue.uint 7))
        PropId.PROP_SLICE_UNITS
      = GValue.uint 7 :=
  static_control_roundtrip sampleHeader zeroProbeEnv (gst_uvc_h264_src_init sampleHeader)
    PropId.PROP_SLICE_UNITS (GValue.uint 7) rfl rfl (by decide) (by decide) (by decide)
    (by decide) (by decide) (by decide)

/-- C10 (the code at the failing input): `num-buffers` is declared with
`g_param_spec_int (..., -1, G_MAXUINT, DEFAULT_NUM_BUFFERS, ...)`.  Passed as a
`gint`, `G_MAXUINT` is -1, so the declared maximum equals the declared minimum
-1 instead of exceeding it, and a buffer count of 10 lies outside the declared
range. -/
theorem num_buffers_maximum_is_minus_one (hdr : UvcH264Header) :
    gst_uvc_h264_src_class_init hdr PropId.PROP_NUM_BUFFERS = GParamSpec.int (-1) (-1) (-1)
      ∧ toGint G_MAXUINT = -1
      ∧ ¬ ((-1 : Int) < toGint G_MAXUINT)
      ∧ g_param_value_in_range (gst_uvc_h264_src_class_init hdr PropId.PROP_NUM_BUFFERS)
          (GValue.int 10) = false := by
  refine ⟨?_, ?_, ?_, ?_⟩
  · simp only [gst_uvc_h264_src_class_init, g_param_spec_int]
    decide
  · decide
  · decide
  · simp only [gst_uvc_h264_src_class_init, g_param_spec_int, g_param_value_in_range]
    decide


/-! ### WASAPI source: read -/

theorem read_len_value (have_frames wanted nBlockAlign : Nat) (hw : wanted < 4294967296) :
    toGuint (((min have_frames (wanted / nBlockAlign) : Nat) : Int) * (nBlockAlign : Int))
        = min have_frames (wanted / nBlockAlign) * nBlockAlign
      ∧ min have_frames (wanted / nBlockAlign) * nBlockAlign ≤ wanted := by
  have h1 : min have_frames (wanted / nBlockAlign) * nBlockAlign ≤ wanted :=
    le_trans (Nat.mul_le_mul_right _ (min_le_right _ _)) (Nat.div_mul_le_self _ _)
  refine ⟨?_, h1⟩
  have h2 : ((min have_frames (wanted / nBlockAlign) : Nat) : Int) * (nBlockAlign : Int)
      = ((min have_frames (wanted / nBlockAlign) * nBlockAlign : Nat) : Int) := by
    push_cast; rfl
  rw [h2, toGuint_natCast]
  exact Nat.mod_eq_of_lt (lt_of_le_of_lt h1 hw)

theorem read_wanted_next (wanted read_len : Nat) (hw : wanted < 4294967296)
    (hle : read_len ≤ wanted) :
    toGuint ((wanted : Int) - (read_len : Int)) = wanted - read_len := by
  unfold toGuint
  omega

theorem read_total_append (copies : List ReadCopy) (c : ReadCopy) :
    ReadCopy.total (copies ++ [c]) = ReadCopy.total copies + c.read_len := by
  simp [ReadCopy.total]

theorem src_read_loop_copies (self : GstWasapiSrc) (length : Nat) :
    ∀ (steps : List ReadStep) (wanted : Nat) (data : List Nat) (copies : List ReadCopy),
      wanted < 4294967296 →
      (∀ c ∈ (gst_wasapi_src_read_loop self length steps wanted data copies).copies,
          c ∈ copies
            ∨ (c.read_len = min c.have_frames (c.wanted / self.nBlockAlign) * self.nBlockAlign
                ∧ c.read_len ≤ c.wanted ∧ c.wanted ≤ wanted))
        ∧ ReadCopy.total (gst_wasapi_src_read_loop self length steps wanted data copies).copies
            ≤ ReadCopy.total copies + wanted := by
  intro steps
  induction steps with
  | nil =>
    intro wanted data copies _
    unfold gst_wasapi_src_read_loop
    split_ifs <;> exact ⟨fun c hc => Or.inl hc, Nat.le_add_right _ _⟩
  | cons step rest ih =>
    intro wanted data copies hw
    unfold gst_wasapi_src_read_loop
    dsimp only
    obtain ⟨hval, hle⟩ := read_len_value step.have_frames wanted self.nBlockAlign hw
    split_ifs with h0 h1 h2 h3
    · exact ⟨fun c hc => Or.inl hc, Nat.le_add_right _ _⟩
    · exact ⟨fun c hc => Or.inl hc, Nat.le_add_right _ _⟩
    · constructor
      · intro c hc
        rcases List.mem_append.mp hc with h | h
        · exact Or.inl h
        · rw [List.mem_singleton] at h
          subst h
          exact Or.inr ⟨hval, hval ▸ hle, le_refl _⟩
      · rw [read_total_append]
        dsimp only
        rw [hval]
        omega
    · rw [hval, read_wanted_next wanted _ hw hle]
      obtain ⟨ih1, ih2⟩ := ih (wanted - min step.have_frames (wanted / self.nBlockAlign)
        * self.nBlockAlign) (memcpy data step.captured
          (min step.have_frames (wanted / self.nBlockAlign) * self.nBlockAlign))
        (copies ++ [{ wanted := wanted, have_frames := step.have_frames,
                      read_len := min step.have_frames (wanted / self.nBlockAlign)
                        * self.nBlockAlign }]) (by omega)
      constructor
      · intro c hc
        rcases ih1 c hc with h | ⟨ha, hb, hc2⟩
        · rcases List.mem_append.mp h with h | h
          · exact Or.inl h
          · rw [List.mem_singleton] at h
            subst h
            exact Or.inr ⟨rfl, hle, le_refl _⟩
        · exact Or.inr ⟨ha, hb, le_trans hc2 (Nat.sub_le _ _)⟩
      · rw [read_total_append] at ih2
        dsimp only at ih2
        omega
    · exact ⟨fun c hc => Or.inl hc, Nat.le_add_right _ _⟩

/-- C11: for a buffer size `length` that is a `guint`, every copy made by
`gst_wasapi_src_read` passes to `memcpy` exactly `n_frames * nBlockAlign`
bytes with `n_frames = min (have_frames, wanted / nBlockAlign)`, which is never
more than the bytes still wanted, themselves never more than `length`; and the
total number of bytes copied over the whole call never exceeds `length`,
whatever the device answers and however the call ends. -/
theorem src_read_copies_bounded (self : GstWasapiSrc) (steps : List ReadStep)
    (data : List Nat) (length : Nat) (hlength : length < 4294967296) :
    (∀ c ∈ (gst_wasapi_src_read self steps data length).copies,
        c.read_len = min c.have_frames (c.wanted / self.nBlockAlign) * self.nBlockAlign
          ∧ c.read_len ≤ c.wanted ∧ c.wanted ≤ length)
      ∧ ReadCopy.total (gst_wasapi_src_read self steps data length).copies ≤ length := by
  obtain ⟨h1, h2⟩ := src_read_loop_copies self length steps length data [] hlength
  constructor
  · intro c hc
    rcases h1 c hc with h | h
    · cases h
    · exact h
  · simpa [ReadCopy.total] using h2

/-- C11 (witness): ten bytes are wanted with four bytes per frame and the
device hands out packets of three frames: the copies take 8 and 0 bytes. -/
theorem src_read_copies_bounded_witness :
    ReadCopy.total (gst_wasapi_src_read sharedSrc [threeFramePacket, threeFramePacket]
        [0, 0, 0, 0, 0, 0, 0, 0, 0, 0] 10).copies ≤ 10 :=
  (src_read_copies_bounded sharedSrc [threeFramePacket, threeFramePacket]
    [0, 0, 0, 0, 0, 0, 0, 0, 0, 0] 10 (by decide)).2


/-! ### UVC H.264 source: events -/

theorem construct_queries_no_picture_type (env : PipelineEnv) (self : GstUvcH264Src) :
    (construct_pipeline_xu_queries env self).filter XuQuery.isPictureType = [] := by
  unfold construct_pipeline_xu_queries
  split_ifs <;> rfl

theorem renegotiate_picture_queries (env : PipelineEnv) (dev : XuDevice) (state_ready : Bool)
    (self : GstUvcH264Src) (key_unit_event : Option GstEvent) (event : GstEvent)
    (xu_queries : List XuQuery) (ioctls : List (UvcxSelector × UvcQuery)) :
    (parse_event_renegotiate env dev state_ready self key_unit_event event xu_queries
        ioctls).xu_queries.filter XuQuery.isPictureType
      = xu_queries.filter XuQuery.isPictureType := by
  unfold parse_event_renegotiate
  split_ifs
  · simp only [List.filter_append, construct_queries_no_picture_type, List.append_nil]
  · rfl
  · rfl

theorem picture_request_filter (all_headers : Bool) :
    [parse_event_picture_request all_headers].filter XuQuery.isPictureType
      = [parse_event_picture_request all_headers] := by
  cases all_headers <;> rfl

theorem ltr_request_filter (put_at encode_using : Nat) :
    [parse_event_ltr_request put_at encode_using].filter XuQuery.isPictureType = [] := rfl

theorem xu_query_accepted_ioctls (dev : XuDevice) (self : GstUvcH264Src) (q : XuQuery)
    (hq : q.query ≠ UvcQuery.UVC_GET_LEN) (hok : (xu_query dev self q).1 = true) :
    (xu_query dev self q).2 = [(q.selector, UvcQuery.UVC_GET_LEN), (q.selector, q.query)] := by
  unfold xu_query at hok ⊢
  by_cases hfd : xu_query_fd dev self = -1
  · rw [if_pos hfd] at hok
    exact absurd hok (by decide)
  · rw [if_neg hfd] at hok ⊢
    rcases hlen : dev.get_len q.selector with _ | n
    · rw [hlen] at hok
      exact Bool.noConfusion hok
    · simp only [if_neg hq]

/-- C12: an upstream force-key-unit event handled by
`gst_uvc_h264_src_parse_event` on the vidsrc pad while `main_format` is
`UVC_H264_SRC_FORMAT_H264` makes exactly one `xu_query` call for
`UVCX_PICTURE_TYPE_CONTROL`, a `UVC_SET_CUR` whose picture type is
`UVC_H264_PICTYPE_IDR_WITH_PPS_SPS` when `all_headers` is set and
`UVC_H264_PICTYPE_IDR` otherwise.  If that call succeeds, which means that one
`UVC_SET_CUR` ioctl went out after the length query, the event becomes the
pending `key_unit_event` and the function returns TRUE.  On any other pad
or with any other main format no picture type request is made, whatever the
event. -/
theorem force_key_unit_picture_request (env : PipelineEnv) (dev : XuDevice)
    (state_ready : Bool) (self : GstUvcH264Src) (key_unit_event : Option GstEvent)
    (event : GstEvent) (ts : Nat) (all_headers : Bool)
    (htype : event.type = GstEventType.GST_EVENT_CUSTOM_UPSTREAM)
    (hfku : event.is_force_key_unit = true)
    (hparse : event.upstream_force_key_unit = some (ts, all_headers))
    (hmain : self.main_format = UvcH264SrcFormat.H264) :
    (gst_uvc_h264_src_parse_event env dev state_ready self key_unit_event UvcPad.vidsrc
          event).xu_queries.filter XuQuery.isPictureType
        = [{ selector := UvcxSelector.UVCX_PICTURE_TYPE_CONTROL, query := UvcQuery.UVC_SET_CUR,
             data := XuData.picture_type_control 0
               (if all_headers then UvcH264PicType.UVC_H264_PICTYPE_IDR_WITH_PPS_SPS
                 else UvcH264PicType.UVC_H264_PICTYPE_IDR) }]
      ∧ ((xu_query dev self (parse_event_picture_request all_headers)).1 = true →
          (gst_uvc_h264_src_parse_event env dev state_ready self key_unit_event UvcPad.vidsrc
              event).outcome = Outcome.returned true
            ∧ (gst_uvc_h264_src_parse_event env dev state_ready self key_unit_event
                UvcPad.vidsrc event).key_unit_event = some event
            ∧ (gst_uvc_h264_src_parse_event env dev state_ready self key_unit_event
                UvcPad.vidsrc event).ioctls
              = [(UvcxSelector.UVCX_PICTURE_TYPE_CONTROL, UvcQuery.UVC_GET_LEN),
                 (UvcxSelector.UVCX_PICTURE_TYPE_CONTROL, UvcQuery.UVC_SET_CUR)])
      ∧ (∀ (other_self : GstUvcH264Src) (pad : UvcPad) (any_event : GstEvent),
          (pad ≠ UvcPad.vidsrc ∨ other_self.main_format ≠ UvcH264SrcFormat.H264) →
          (gst_uvc_h264_src_parse_event env dev state_ready other_self key_unit_event pad
              any_event).xu_queries.filter XuQuery.isPictureType = []) := by
  have hrun : gst_uvc_h264_src_parse_event env dev state_ready self key_unit_event
        UvcPad.vidsrc event
      = if (xu_query dev self (parse_event_picture_request all_headers)).1 = false then
          parse_event_renegotiate env dev state_ready self key_unit_event event
            [parse_event_picture_request all_headers]
            (xu_query dev self (parse_event_picture_request all_headers)).2
        else
          { outcome := Outcome.returned true, self := self, key_unit_event := some event,
            xu_queries := [parse_event_picture_request all_headers],
            ioctls := (xu_query dev self (parse_event_picture_request all_headers)).2 } := by
    unfold gst_uvc_h264_src_parse_event
    simp only [htype, hmain, and_self, if_true]
    unfold parse_event_h264_vidsrc
    simp only [hfku, hparse, if_true]
  refine ⟨?_, ?_, ?_⟩
  · rw [hrun]
    show _ = [parse_event_picture_request all_headers]
    by_cases hq : (xu_query dev self (parse_event_picture_request all_headers)).1 = false
    · rw [if_pos hq, renegotiate_picture_queries]
      exact picture_request_filter all_headers
    · rw [if_neg hq]
      exact picture_request_filter all_headers
  · intro hok
    rw [hrun, if_neg (by rw [hok]; exact Bool.noConfusion)]
    exact ⟨rfl, rfl, xu_query_accepted_ioctls dev self _ (by cases all_headers <;> decide) hok⟩
  · intro other_self pad any_event hother
    unfold gst_uvc_h264_src_parse_event
    have hcond : ¬ (pad = UvcPad.vidsrc ∧ other_self.main_format = UvcH264SrcFormat.H264) := by
      rintro ⟨h1, h2⟩
      rcases hother with h | h
      · exact h h1
      · exact h h2
    cases any_event.type
    · simp only [if_neg hcond]
      exact renegotiate_picture_queries _ _ _ _ _ _ _ _
    · rfl

/-- C12 (witness): a force-key-unit event asking for all headers, sent on the
vidsrc pad to an H.264 element whose device accepts the request. -/
theorem force_key_unit_picture_request_witness :
    (gst_uvc_h264_src_parse_event (pipelineEnv jpegCaps h264Caps) willingDevice true
          h264StreamingSrc none UvcPad.vidsrc (forceKeyUnitEvent true)).outcome
        = Outcome.returned true
      ∧ (gst_uvc_h264_src_parse_event (pipelineEnv jpegCaps h264Caps) willingDevice true
          h264StreamingSrc none UvcPad.vidsrc (forceKeyUnitEvent true)).key_unit_event
        = some (forceKeyUnitEvent true)
      ∧ (gst_uvc_h264_src_parse_event (pipelineEnv jpegCaps h264Caps) willingDevice true
          h264StreamingSrc none UvcPad.vidsrc (forceKeyUnitEvent true)).ioctls
        = [(UvcxSelector.UVCX_PICTURE_TYPE_CONTROL, UvcQuery.UVC_GET_LEN),
           (UvcxSelector.UVCX_PICTURE_TYPE_CONTROL, UvcQuery.UVC_SET_CUR)] :=
  (force_key_unit_picture_request (pipelineEnv jpegCaps h264Caps) willingDevice true
    h264StreamingSrc none (forceKeyUnitEvent true) 0 true rfl rfl rfl rfl).2.1 (by decide)


/-! ### UVC H.264 source: stream format -/

/-- The value that the source gives `main_stream_format`, by the value of the
caps field `stream-format`: `NAL` for `byte-stream`, `ANNEXB` for everything
else, a missing field included. -/
theorem stream_format_by_field (vid_struct : GstStructure) :
    construct_pipeline_stream_format vid_struct
      = if vid_struct.stream_format = some "byte-stream" then UvcH264StreamFormat.NAL
        else UvcH264StreamFormat.ANNEXB := by
  unfold construct_pipeline_stream_format
  rcases h : vid_struct.stream_format with _ | s
  · rfl
  · dsimp only
    by_cases havc : s = "avc"
    · subst havc
      rfl
    · rw [if_neg havc]
      by_cases hbs : s = "byte-stream"
      · subst hbs
        rfl
      · rw [if_neg hbs, if_neg (fun hsome => hbs (Option.some.inj hsome))]

/-- Whenever the classification of H.264 video caps ends with a pipeline type,
with or without viewfinder caps, the element's `main_stream_format` is the
value of `construct_pipeline_stream_format` for the video caps. -/
theorem classify_h264_stream_format (self s : GstUvcH264Src) (vf : Option GstStructure)
    (vid : GstStructure) (t : PipelineType) (hname : vid.name = "video/x-h264")
    (hc : construct_pipeline_classify self vf (some vid) = Classified.typed s t) :
    s.main_stream_format = construct_pipeline_stream_format vid := by
  rcases vf with _ | vfs
  · have hs : construct_pipeline_classify self none (some vid)
        = construct_pipeline_single self none (some vid) := rfl
    rw [hs] at hc
    unfold construct_pipeline_single at hc
    simp only [hname, if_true] at hc
    rcases he : _extract_caps_info vid with _ | _ | ⟨mw, mh, mi⟩
    · rw [he] at hc
      cases hc
    · rw [he] at hc
      cases hc
    · rw [he] at hc
      injection hc with hs1 ht
      rw [← hs1]
  · have hs : construct_pipeline_classify self (some vfs) (some vid)
        = construct_pipeline_h264_with_viewfinder self vfs vid := by
      unfold construct_pipeline_classify
      simp only [hname, ne_eq, not_true_eq_false, if_false]
    rw [hs] at hc
    unfold construct_pipeline_h264_with_viewfinder at hc
    rcases hv : _extract_caps_info vfs with _ | _ | ⟨sw, sh, si⟩
    · rw [hv] at hc
      exact Classified.noConfusion hc
    · rw [hv] at hc
      exact Classified.noConfusion hc
    · rcases he : _extract_caps_info vid with _ | _ | ⟨mw, mh, mi⟩
      · rw [hv, he] at hc
        exact Classified.noConfusion hc
      · rw [hv, he] at hc
        exact Classified.noConfusion hc
      · rw [hv, he] at hc
        dsimp only at hc
        split_ifs at hc
        all_goals
          injection hc with hs1 ht
          rw [← hs1]

/-- C13 (the code at the failing input): with negotiated video caps
`video/x-h264, stream-format=byte-stream` the function
`gst_uvc_h264_src_construct_pipeline` returns TRUE and leaves
`main_stream_format` at `UVC_H264_STREAMFORMAT_NAL`, and with
`stream-format=avc` at `UVC_H264_STREAMFORMAT_ANNEXB`, the reverse of the
mapping claimed.  Both hold alike with JPEG viewfinder caps (pipeline type
`H264_JPG`) and without viewfinder caps (pipeline type `ENCODED_NONE`); without
the field the value is `UVC_H264_STREAMFORMAT_ANNEXB` in both branches. -/
theorem stream_format_mapping_swapped :
    gst_uvc_h264_src_construct_pipeline (pipelineEnv jpegCaps h264Caps) startedSrc
        = { outcome := Outcome.returned true,
            self := (gst_uvc_h264_src_construct_pipeline (pipelineEnv jpegCaps h264Caps)
              startedSrc).self,
            ptype := some PipelineType.H264_JPG }
      ∧ (gst_uvc_h264_src_construct_pipeline (pipelineEnv jpegCaps h264Caps)
            startedSrc).self.main_stream_format = UvcH264StreamFormat.NAL
      ∧ (gst_uvc_h264_src_construct_pipeline (pipelineEnv jpegCaps avcCaps)
            startedSrc).self.main_stream_format = UvcH264StreamFormat.ANNEXB
      ∧ (gst_uvc_h264_src_construct_pipeline (pipelineEnv jpegCaps bareH264Caps)
            startedSrc).self.main_stream_format = UvcH264StreamFormat.ANNEXB
      ∧ gst_uvc_h264_src_construct_pipeline (videoOnlyEnv h264Caps) startedSrc
        = { outcome := Outcome.returned true,
            self := (gst_uvc_h264_src_construct_pipeline (videoOnlyEnv h264Caps)
              startedSrc).self,
            ptype := some PipelineType.ENCODED_NONE }
      ∧ (gst_uvc_h264_src_construct_pipeline (videoOnlyEnv h264Caps)
            startedSrc).self.main_stream_format = UvcH264StreamFormat.NAL
      ∧ (gst_uvc_h264_src_construct_pipeline (videoOnlyEnv avcCaps)
            startedSrc).self.main_stream_format = UvcH264StreamFormat.ANNEXB
      ∧ (gst_uvc_h264_src_construct_pipeline (videoOnlyEnv bareH264Caps)
            startedSrc).self.main_stream_format = UvcH264StreamFormat.ANNEXB := by
  refine ⟨?_, ?_, ?_, ?_, ?_, ?_, ?_, ?_⟩ <;> decide

end GstPluginsBad
